import Mathlib

/-!
# Debug engine client (`dlls/dbgeng/dbgeng.c`): attach, wait, detach, modules

A shallow embedding of the working part of the debug engine client: the list
of attached targets, `AttachProcess`, `WaitForEvent`, `DetachProcesses`,
`GetNumberModules` and `GetModuleByIndex`, the life cycle of the object
(`DebugCreate`, `QueryInterface`, `AddRef`, `Release`), the engine options,
the event callbacks and the table of all methods; and of the filter plumbing
of the AVI compressor (`dlls/qcap/avico.c`).

Conventions of the embedding.

* Pointers and handles are natural numbers, `0` being `NULL`.
* `HRESULT` and `NTSTATUS` are `LONG`, embedded as `Int`.
* Unsigned values (`ULONG`, `DWORD`, `unsigned int`, `ULONG64`, `size_t`,
  pointers) are `Nat`; a value is stored unchanged where the destination is
  at least as wide as the source (a `DWORD` in a `ULONG`, a pointer in a
  `ULONG64`), and reduced modulo the width of the destination where the
  destination may be narrower (a `size_t` in an `unsigned int` or a `DWORD`).
* The operating system is a record `OS` of functions.  Every function takes
  the `World` (the history of calls made so far), so that the answer of a
  call may depend on everything that happened before; each call appends one
  `OsCall` to the history, with its arguments and its result.
* A method of the client takes the `World` and the `debug_client` and gives
  back the `HRESULT`, the new client, the new world and, where the C function
  has output pointers, what was stored through them (`none`: nothing was
  written).
-/

namespace Dbgeng

/-! ## Constants of headers that are used by the code -/

/-- Modelled from the spec: `winerror.h` is not among the sources; an
`HRESULT` constant is its 32-bit pattern read as a signed `LONG`. -/
def HRESULT_TYPEDEF (x : Nat) : Int :=
  if x < 2 ^ 31 then (x : Int) else (x : Int) - 2 ^ 32

/-- Modelled from the spec: `winerror.h` is not among the sources; success. -/
def S_OK : Int := HRESULT_TYPEDEF 0x00000000
/-- Modelled from the spec: `winerror.h` is not among the sources; the "not
implemented" result. -/
def E_NOTIMPL : Int := HRESULT_TYPEDEF 0x80004001
/-- Modelled from the spec: `winerror.h` is not among the sources. -/
def E_NOINTERFACE : Int := HRESULT_TYPEDEF 0x80004002
/-- Modelled from the spec: `winerror.h` is not among the sources. -/
def E_FAIL : Int := HRESULT_TYPEDEF 0x80004005
/-- Modelled from the spec: `winerror.h` is not among the sources. -/
def E_UNEXPECTED : Int := HRESULT_TYPEDEF 0x8000FFFF
/-- Modelled from the spec: `winerror.h` is not among the sources. -/
def E_OUTOFMEMORY : Int := HRESULT_TYPEDEF 0x8007000E
/-- Modelled from the spec: `winerror.h` is not among the sources. -/
def E_INVALIDARG : Int := HRESULT_TYPEDEF 0x80070057

/-- Modelled from the spec: the `FAILED` test of `winerror.h`, which is not
among the sources: the result is negative. -/
def FAILED (hr : Int) : Bool := decide (hr < 0)

/-- Modelled from the spec: `dbgeng.h` is not among the sources; the attach
flag of a non-invasive attach. -/
def DEBUG_ATTACH_NONINVASIVE : Nat := 0x00000001
/-- Modelled from the spec: `dbgeng.h` is not among the sources. -/
def DEBUG_ATTACH_EXISTING : Nat := 0x00000002
/-- Modelled from the spec: `dbgeng.h` is not among the sources; the attach
flag asking that the process is not suspended. -/
def DEBUG_ATTACH_NONINVASIVE_NO_SUSPEND : Nat := 0x00000004

/-- Modelled from the spec: `winnt.h` is not among the sources. -/
def PROCESS_VM_READ : Nat := 0x0010
/-- Modelled from the spec: `winnt.h` is not among the sources. -/
def PROCESS_VM_WRITE : Nat := 0x0020
/-- Modelled from the spec: `winnt.h` is not among the sources. -/
def PROCESS_SUSPEND_RESUME : Nat := 0x0800
/-- Modelled from the spec: `winnt.h` is not among the sources. -/
def PROCESS_QUERY_LIMITED_INFORMATION : Nat := 0x1000

/-! ## The data model -/

/-- The part of `MODULEINFO` (`psapi.h`) that `GetModuleInformation` fills. -/
structure MODULEINFO where
  lpBaseOfDll : Nat
  SizeOfImage : Nat
  EntryPoint : Nat
  deriving DecidableEq, Repr

/-- The `struct module_info`: its `params` is a `DEBUG_MODULE_PARAMETERS`, of
which the code writes `Base` (`ULONG64`) and `Size` (`ULONG`) only; the other
fields stay as `heap_alloc_zero` left them. -/
structure module_info where
  Base : Nat
  Size : Nat
  deriving DecidableEq, Repr

/-- The anonymous `modules` member of `struct target_process`.  `info` is the
pointer to the array: `none` is `NULL`, `some a` an allocated array. -/
structure target_modules where
  info : Option (List module_info)
  loaded : Nat
  unloaded : Nat
  initialized : Bool
  deriving DecidableEq, Repr

/-- The `struct target_process`, without its list link (the list of targets is
a Lean list). -/
structure target_process where
  pid : Nat
  attach_flags : Nat
  handle : Nat
  modules : target_modules
  deriving DecidableEq, Repr

/-- The `struct debug_client`, without its four interface tables. -/
structure debug_client where
  refcount : Int
  engine_options : Nat
  targets : List target_process
  event_callbacks : Nat
  deriving DecidableEq, Repr

/-! ## The operating system -/

/-- What one call of `EnumProcessModules` did: its `BOOL` result, the module
handles it offered for the buffer, and what it stored in `*lpcbNeeded`
(`none`: it stored nothing). -/
structure EnumResult where
  ret : Bool
  written : List Nat
  needed : Option Nat
  deriving DecidableEq, Repr

/-- One call that left the program, with its arguments and its result. -/
inductive OsCall where
  | OpenProcess (access : Nat) (inherit : Bool) (pid : Nat) (ret : Nat)
  | NtSuspendProcess (handle : Nat) (status : Int)
  | NtResumeProcess (handle : Nat) (status : Int)
  | CloseHandle (handle : Nat) (ret : Bool)
  | EnumProcessModules (handle : Nat) (cb : Nat) (res : EnumResult)
  | GetModuleInformation (handle : Nat) (module : Nat) (res : Option MODULEINFO)
  | CallbacksAddRef (callbacks : Nat)
  | CallbacksRelease (callbacks : Nat)
  deriving DecidableEq, Repr

/-- The history: the calls made so far, oldest first, and the heap
allocations requested so far, each with its size and whether it succeeded. -/
structure World where
  calls : List OsCall
  allocs : List (Nat × Bool)
  deriving DecidableEq, Repr

/-- Record one more call. -/
def World.call (w : World) (e : OsCall) : World :=
  { w with calls := w.calls ++ [e] }

/-- Record one more heap allocation request and its outcome. -/
def World.alloc (w : World) (size : Nat) (ok : Bool) : World :=
  { w with allocs := w.allocs ++ [(size, ok)] }

/-- The calls made between the earlier world `w0` and the later world `w`. -/
def World.calls_since (w0 w : World) : List OsCall :=
  w.calls.drop w0.calls.length

/-- The heap allocations requested between the earlier world `w0` and the
later world `w`. -/
def World.allocs_since (w0 w : World) : List (Nat × Bool) :=
  w.allocs.drop w0.allocs.length

/-- The environment of the program: the answers of the operating system and
of the heap, each as a function of the history, and the sizes of the
platform. -/
structure OS where
  OpenProcess : World → Nat → Bool → Nat → Nat
  NtSuspendProcess : World → Nat → Int
  NtResumeProcess : World → Nat → Int
  CloseHandle : World → Nat → Bool
  EnumProcessModules : World → Nat → Nat → EnumResult
  GetModuleInformation : World → Nat → Nat → Option MODULEINFO
  /-- Whether an allocation of that many bytes succeeds. -/
  heap_alloc : World → Nat → Bool
  /-- The content of the `i`-th word of a block that `heap_alloc` (which does
  not clear it) has just returned. -/
  heap_garbage : World → Nat → Nat
  sizeof_HMODULE : Nat
  sizeof_module_info : Nat
  sizeof_target_process : Nat
  sizeof_debug_client : Nat
  size_t_bits : Nat

/-- A product computed in `size_t`. -/
def OS.size_mul (os : OS) (a b : Nat) : Nat :=
  (a * b) % 2 ^ os.size_t_bits

/-! ## The list of targets (`wine/list.h`) -/

/-- Modelled from the spec: `wine/list.h` is not among the sources; the test
for "no attached target" on the linked list of attached targets. -/
def list_empty (l : List target_process) : Bool := l.isEmpty

/-- Modelled from the spec: `wine/list.h` is not among the sources; the first
element of the linked list of attached targets, `NULL` when there is none. -/
def list_head (l : List target_process) : Option target_process := l.head?

/-- Modelled from the spec: `wine/list.h` is not among the sources; link an
element in front of the linked list of attached targets. -/
def list_add_head (l : List target_process) (e : target_process) :
    List target_process := e :: l

/-- A store through the pointer that `debug_client_get_target` returned: the
head element of the list is replaced, the rest of the list stays. -/
def store_target (c : debug_client) (t : target_process) : debug_client :=
  { c with targets := t :: c.targets.tail }

/-! ## The code -/

/-- `debug_client_get_target`, lines 74-80. -/
def debug_client_get_target (c : debug_client) : Option target_process :=
  if list_empty c.targets then none
  else list_head c.targets

/-- `debug_client_detach_target`, lines 147-167. -/
def debug_client_detach_target (os : OS) (w : World) (target : target_process) :
    target_process × World :=
  if target.handle = 0 then (target, w)
  else
    let w1 :=
      if target.attach_flags &&& DEBUG_ATTACH_NONINVASIVE ≠ 0 then
        let resume := decide (target.attach_flags &&& DEBUG_ATTACH_NONINVASIVE_NO_SUSPEND = 0)
        if resume then
          w.call (OsCall.NtResumeProcess target.handle (os.NtResumeProcess w target.handle))
        else w
      else w
    let w2 := w1.call (OsCall.CloseHandle target.handle (os.CloseHandle w1 target.handle))
    ({ target with handle := 0 }, w2)

/-- What `heap_alloc_zero(sizeof(struct target_process))` returns: every
field zero. -/
def target_process_zero : target_process :=
  { pid := 0, attach_flags := 0, handle := 0,
    modules := { info := none, loaded := 0, unloaded := 0, initialized := false } }

/-- `debugclient_AttachProcess`, lines 337-359. -/
def debugclient_AttachProcess (os : OS) (w : World) (c : debug_client)
    (server pid flags : Nat) : Int × debug_client × World :=
  if server ≠ 0 then (E_NOTIMPL, c, w)
  else
    let ok := os.heap_alloc w os.sizeof_target_process
    let w1 := w.alloc os.sizeof_target_process ok
    if !ok then (E_OUTOFMEMORY, c, w1)
    else
      let process := { target_process_zero with pid := pid, attach_flags := flags }
      (S_OK, { c with targets := list_add_head c.targets process }, w1)

/-- The loop of `debugclient_DetachProcesses` (`LIST_FOR_EACH_ENTRY`): every
element of the list, in order, goes through `debug_client_detach_target`. -/
def debugclient_DetachProcesses_loop (os : OS) :
    World → List target_process → List target_process × World
  | w, [] => ([], w)
  | w, target :: rest =>
    let r := debug_client_detach_target os w target
    let rs := debugclient_DetachProcesses_loop os r.2 rest
    (r.1 :: rs.1, rs.2)

/-- `debugclient_DetachProcesses`, lines 449-462. -/
def debugclient_DetachProcesses (os : OS) (w : World) (c : debug_client) :
    Int × debug_client × World :=
  let r := debugclient_DetachProcesses_loop os w c.targets
  (S_OK, { c with targets := r.1 }, r.2)

/-- `debugcontrol_WaitForEvent`, lines 2790-2833. -/
def debugcontrol_WaitForEvent (os : OS) (w : World) (c : debug_client)
    (_flags _timeout : Nat) : Int × debug_client × World :=
  match debug_client_get_target c with
  | none => (E_UNEXPECTED, c, w)
  | some target =>
    if target.attach_flags &&& DEBUG_ATTACH_NONINVASIVE ≠ 0 then
      let suspend := decide (target.attach_flags &&& DEBUG_ATTACH_NONINVASIVE_NO_SUSPEND = 0)
      let access0 := PROCESS_VM_READ ||| PROCESS_VM_WRITE ||| PROCESS_QUERY_LIMITED_INFORMATION
      let access := if suspend then access0 ||| PROCESS_SUSPEND_RESUME else access0
      let h := os.OpenProcess w access false target.pid
      let w1 := w.call (OsCall.OpenProcess access false target.pid h)
      let c1 := store_target c { target with handle := h }
      if h = 0 then (E_UNEXPECTED, c1, w1)
      else if suspend then
        let w2 := w1.call (OsCall.NtSuspendProcess h (os.NtSuspendProcess w1 h))
        (S_OK, c1, w2)
      else (S_OK, c1, w1)
    else (E_NOTIMPL, c, w)

/-- The object that `DebugCreate` builds (lines 3049-3058): cleared memory, a
reference count of 1 and an initialised, empty list of targets. -/
def DebugCreate_client : debug_client :=
  { refcount := 1, engine_options := 0, targets := [], event_callbacks := 0 }

/-- The buffer of `buf.length` module handles after `EnumProcessModules` has
stored in it the handles it offers: it stores no more than the buffer holds,
and the words it does not reach keep their content. -/
def write_buffer (buf written : List Nat) : List Nat :=
  written.take buf.length ++ buf.drop written.length

/-- The loop of `debug_target_init_modules_info`, lines 113-123: `n` rounds
are left, `i` is the index of this round.  A module whose
`GetModuleInformation` fails is skipped, its entry stays as it is. -/
def init_modules_loop (os : OS) (handle : Nat) (modules : List Nat) :
    Nat → Nat → World → List module_info → List module_info × World
  | 0, _, w, info => (info, w)
  | n + 1, i, w, info =>
    let res := os.GetModuleInformation w handle (modules.getD i 0)
    let w1 := w.call (OsCall.GetModuleInformation handle (modules.getD i 0) res)
    match res with
    | none => init_modules_loop os handle modules n (i + 1) w1 info
    | some mi =>
      init_modules_loop os handle modules n (i + 1) w1
        (info.set i { Base := mi.lpBaseOfDll, Size := mi.SizeOfImage })

/-- `debug_target_init_modules_info`, lines 82-134. -/
def debug_target_init_modules_info (os : OS) (w : World) (target : target_process) :
    Int × target_process × World :=
  if target.modules.initialized then (S_OK, target, w)
  else if target.handle = 0 then (E_UNEXPECTED, target, w)
  else
    let r1 := os.EnumProcessModules w target.handle 0
    let w1 := w.call (OsCall.EnumProcessModules target.handle 0 r1)
    let needed := r1.needed.getD 0
    if needed = 0 then (E_FAIL, target, w1)
    else
      let count := (needed / os.sizeof_HMODULE) % 2 ^ 32
      let size1 := os.size_mul count os.sizeof_HMODULE
      let ok1 := os.heap_alloc w1 size1
      let w2 := w1.alloc size1 ok1
      if !ok1 then (E_OUTOFMEMORY, target, w2)
      else
        let modules := (List.range count).map (os.heap_garbage w2)
        let size2 := os.size_mul count os.sizeof_module_info
        let ok2 := os.heap_alloc w2 size2
        let w3 := w2.alloc size2 ok2
        if !ok2 then
          (E_OUTOFMEMORY, { target with modules := { target.modules with info := none } }, w3)
        else
          let info0 := List.replicate count ({ Base := 0, Size := 0 } : module_info)
          let r2 := os.EnumProcessModules w3 target.handle (size1 % 2 ^ 32)
          let w4 := w3.call (OsCall.EnumProcessModules target.handle (size1 % 2 ^ 32) r2)
          let filled :=
            if r2.ret then
              init_modules_loop os target.handle (write_buffer modules r2.written) count 0 w4 info0
            else (info0, w4)
          (S_OK,
           { target with
             modules := { info := some filled.1, loaded := count, unloaded := 0,
                          initialized := true } },
           filled.2)

/-- `debug_target_get_module_info`, lines 136-145.  The result is the entry
that the returned pointer designates, `none` for `NULL`.  (In a target whose
`initialized` is set the array is allocated and has `loaded` entries; for a
target that is not of this shape the embedding answers `NULL`.) -/
def debug_target_get_module_info (os : OS) (w : World) (target : target_process) (i : Nat) :
    Option module_info × target_process × World :=
  let r := debug_target_init_modules_info os w target
  if FAILED r.1 then (none, r.2.1, r.2.2)
  else if i ≥ r.2.1.modules.loaded then (none, r.2.1, r.2.2)
  else
    match r.2.1.modules.info with
    | none => (none, r.2.1, r.2.2)
    | some a => (a[i]?, r.2.1, r.2.2)

/-- `debugsymbols_GetNumberModules`, lines 990-1008.  The second and third
components are what was stored in `*loaded` and `*unloaded`. -/
def debugsymbols_GetNumberModules (os : OS) (w : World) (c : debug_client) :
    Int × Option Nat × Option Nat × debug_client × World :=
  match debug_client_get_target c with
  | none => (E_UNEXPECTED, none, none, c, w)
  | some target =>
    let r := debug_target_init_modules_info os w target
    if FAILED r.1 then (r.1, none, none, store_target c r.2.1, r.2.2)
    else
      (S_OK, some r.2.1.modules.loaded, some r.2.1.modules.unloaded,
       store_target c r.2.1, r.2.2)

/-- `debugsymbols_GetModuleByIndex`, lines 1010-1027.  The second component
is what was stored in `*base`. -/
def debugsymbols_GetModuleByIndex (os : OS) (w : World) (c : debug_client) (index : Nat) :
    Int × Option Nat × debug_client × World :=
  match debug_client_get_target c with
  | none => (E_UNEXPECTED, none, c, w)
  | some target =>
    let r := debug_target_get_module_info os w target index
    match r.1 with
    | none => (E_INVALIDARG, none, store_target c r.2.1, r.2.2)
    | some info => (S_OK, some info.Base, store_target c r.2.1, r.2.2)

/-! ## Reading the history -/

/-- Is this call an `OpenProcess`? -/
def OsCall.isOpenProcess : OsCall → Bool
  | OsCall.OpenProcess _ _ _ _ => true
  | _ => false

/-- Is this call an `NtSuspendProcess`? -/
def OsCall.isSuspend : OsCall → Bool
  | OsCall.NtSuspendProcess _ _ => true
  | _ => false

/-- Is this call an `NtSuspendProcess` on the handle `h`? -/
def OsCall.isSuspendOf (h : Nat) : OsCall → Bool
  | OsCall.NtSuspendProcess h1 _ => decide (h1 = h)
  | _ => false

/-- Is this call an `NtResumeProcess`? -/
def OsCall.isResume : OsCall → Bool
  | OsCall.NtResumeProcess _ _ => true
  | _ => false

/-- Is this call an `NtResumeProcess` on the handle `h`? -/
def OsCall.isResumeOf (h : Nat) : OsCall → Bool
  | OsCall.NtResumeProcess h1 _ => decide (h1 = h)
  | _ => false

/-- Is this call an `EnumProcessModules`? -/
def OsCall.isEnumProcessModules : OsCall → Bool
  | OsCall.EnumProcessModules _ _ _ => true
  | _ => false

/-- Is this call a `GetModuleInformation`? -/
def OsCall.isGetModuleInformation : OsCall → Bool
  | OsCall.GetModuleInformation _ _ _ => true
  | _ => false

/-- The shape of the module info of a target: when `initialized` is set, the
array is allocated and has `loaded` entries.  (`initialized` is set only at
the end of `debug_target_init_modules_info`, after the array was allocated
with `count` entries and `loaded` was set to `count`.) -/
def target_wf (t : target_process) : Prop :=
  t.modules.initialized = true →
    t.modules.info.map List.length = some t.modules.loaded

instance (t : target_process) : Decidable (target_wf t) := by
  unfold target_wf
  infer_instance

/-- Is this call a `CloseHandle` on the handle `h`? -/
def OsCall.isCloseOf (h : Nat) : OsCall → Bool
  | OsCall.CloseHandle h1 _ => decide (h1 = h)
  | _ => false

/-- An operating system for examples: `OpenProcess` gives the handle
`pid + 100`, except for pid 0 which it refuses; suspend and resume fail with
a status of -1 on the handle 107; a process has the three modules 11, 12, 13
(the size query reports `needed = 12` with 4-byte handles), except that for
the handle 108 the size query reports `needed = 0`; module `m` is loaded at
`m * 4096` and is `m + 1` bytes long, except that `GetModuleInformation`
fails for module 12. -/
def exampleOS : OS :=
  { OpenProcess := fun _ _ _ pid => if pid = 0 then 0 else pid + 100
    NtSuspendProcess := fun _ h => if h = 107 then -1 else 0
    NtResumeProcess := fun _ h => if h = 107 then -1 else 0
    CloseHandle := fun _ _ => true
    EnumProcessModules := fun _ h cb =>
      if h = 108 then { ret := false, written := [], needed := some 0 }
      else { ret := true, written := [11, 12, 13].take (cb / 4), needed := some 12 }
    GetModuleInformation := fun _ _ m =>
      if m = 12 then none
      else some { lpBaseOfDll := m * 4096, SizeOfImage := m + 1, EntryPoint := 0 }
    heap_alloc := fun _ _ => true
    heap_garbage := fun _ i => 7000 + i
    sizeof_HMODULE := 4
    sizeof_module_info := 64
    sizeof_target_process := 48
    sizeof_debug_client := 64
    size_t_bits := 32 }

/-- The empty history. -/
def World.start : World := { calls := [], allocs := [] }

/-! ## The life cycle of the client object -/

/-- The declarations of `dbgeng.h` and `unknwn.h` that the code uses and that
are not among the sources, taken as parameters: the interface identifiers
(a `GUID` is embedded as the natural number of its 128 bits) and the mask of
all engine options. -/
structure dbgeng_h where
  IID_IUnknown : Nat
  IID_IDebugClient : Nat
  IID_IDebugDataSpaces : Nat
  IID_IDebugSymbols : Nat
  IID_IDebugSymbols2 : Nat
  IID_IDebugSymbols3 : Nat
  IID_IDebugControl : Nat
  IID_IDebugControl2 : Nat
  DEBUG_ENGOPT_ALL : Nat

/-- Modelled from the spec: `IsEqualIID` of `guiddef.h`, which is not among
the sources: the two identifiers have the same content. -/
def IsEqualIID (a b : Nat) : Bool := decide (a = b)

/-- A value brought into the range of `LONG` (32 bits, two's complement). -/
def to_LONG (x : Int) : Int := (x + 2147483648) % 4294967296 - 2147483648

/-- A `LONG` read as a `ULONG`. -/
def to_ULONG (x : Int) : Nat := (x % 4294967296).toNat

/-- The four interfaces of the client object, each a member of
`struct debug_client` that holds one of the four tables of methods. -/
inductive client_iface where
  | IDebugClient_iface
  | IDebugDataSpaces_iface
  | IDebugSymbols3_iface
  | IDebugControl2_iface
  deriving DecidableEq, Repr

/-- `debugclient_AddRef`, lines 226-234: `InterlockedIncrement` of the `LONG`
reference count; the new count is returned as a `ULONG`. -/
def debugclient_AddRef (c : debug_client) : Nat × debug_client :=
  let refcount := to_LONG (c.refcount + 1)
  (to_ULONG refcount, { c with refcount := refcount })

/-- `debugdataspaces_AddRef`, lines 695-700: the call goes to the `AddRef` of
the `IDebugClient` interface. -/
def debugdataspaces_AddRef (c : debug_client) : Nat × debug_client := debugclient_AddRef c

/-- `debugsymbols_AddRef`, lines 905-910. -/
def debugsymbols_AddRef (c : debug_client) : Nat × debug_client := debugclient_AddRef c

/-- `debugcontrol_AddRef`, lines 2067-2072. -/
def debugcontrol_AddRef (c : debug_client) : Nat × debug_client := debugclient_AddRef c

/-- `IUnknown_AddRef` on one of the four interfaces: the call through the
table of methods of that interface. -/
def IUnknown_AddRef (i : client_iface) (c : debug_client) : Nat × debug_client :=
  match i with
  | client_iface.IDebugClient_iface => debugclient_AddRef c
  | client_iface.IDebugDataSpaces_iface => debugdataspaces_AddRef c
  | client_iface.IDebugSymbols3_iface => debugsymbols_AddRef c
  | client_iface.IDebugControl2_iface => debugcontrol_AddRef c

/-- `debugclient_QueryInterface`, lines 189-224.  The second component is what
is stored in `*obj`: `none` is `NULL`, `some i` the pointer to the interface
`i` of this object. -/
def debugclient_QueryInterface (hdr : dbgeng_h) (c : debug_client) (riid : Nat) :
    Int × Option client_iface × debug_client :=
  if IsEqualIID riid hdr.IID_IDebugClient || IsEqualIID riid hdr.IID_IUnknown then
    (S_OK, some client_iface.IDebugClient_iface,
      (IUnknown_AddRef client_iface.IDebugClient_iface c).2)
  else if IsEqualIID riid hdr.IID_IDebugDataSpaces then
    (S_OK, some client_iface.IDebugDataSpaces_iface,
      (IUnknown_AddRef client_iface.IDebugDataSpaces_iface c).2)
  else if IsEqualIID riid hdr.IID_IDebugSymbols || IsEqualIID riid hdr.IID_IDebugSymbols2
      || IsEqualIID riid hdr.IID_IDebugSymbols3 then
    (S_OK, some client_iface.IDebugSymbols3_iface,
      (IUnknown_AddRef client_iface.IDebugSymbols3_iface c).2)
  else if IsEqualIID riid hdr.IID_IDebugControl2 || IsEqualIID riid hdr.IID_IDebugControl then
    (S_OK, some client_iface.IDebugControl2_iface,
      (IUnknown_AddRef client_iface.IDebugControl2_iface c).2)
  else (E_NOINTERFACE, none, c)

/-- `debugdataspaces_QueryInterface`, lines 688-693: the call goes to the
`QueryInterface` of the `IDebugClient` interface. -/
def debugdataspaces_QueryInterface (hdr : dbgeng_h) (c : debug_client) (riid : Nat) :
    Int × Option client_iface × debug_client := debugclient_QueryInterface hdr c riid

/-- `debugsymbols_QueryInterface`, lines 898-903. -/
def debugsymbols_QueryInterface (hdr : dbgeng_h) (c : debug_client) (riid : Nat) :
    Int × Option client_iface × debug_client := debugclient_QueryInterface hdr c riid

/-- `debugcontrol_QueryInterface`, lines 2060-2065. -/
def debugcontrol_QueryInterface (hdr : dbgeng_h) (c : debug_client) (riid : Nat) :
    Int × Option client_iface × debug_client := debugclient_QueryInterface hdr c riid

/-- `IUnknown_QueryInterface` on one of the four interfaces: the call through
the table of methods of that interface. -/
def IUnknown_QueryInterface (hdr : dbgeng_h) (i : client_iface) (c : debug_client)
    (riid : Nat) : Int × Option client_iface × debug_client :=
  match i with
  | client_iface.IDebugClient_iface => debugclient_QueryInterface hdr c riid
  | client_iface.IDebugDataSpaces_iface => debugdataspaces_QueryInterface hdr c riid
  | client_iface.IDebugSymbols3_iface => debugsymbols_QueryInterface hdr c riid
  | client_iface.IDebugControl2_iface => debugcontrol_QueryInterface hdr c riid

/-- The loop of `debugclient_Release` (`LIST_FOR_EACH_ENTRY_SAFE`, lines
252-257): every element of the list, in order, goes through
`debug_client_detach_target`, is unlinked and freed.  The first component is
what is left of the list. -/
def debugclient_Release_loop (os : OS) :
    World → List target_process → List target_process × World
  | w, [] => ([], w)
  | w, cur :: rest =>
    debugclient_Release_loop os (debug_client_detach_target os w cur).2 rest

/-- `debugclient_Release`, lines 242-264: `InterlockedDecrement` of the
reference count; the new count is returned as a `ULONG`.  When it is zero the
targets are detached and freed, the event callbacks object, when there is
one, is released, and the object is freed: the second component is then
`none`. -/
def debugclient_Release (os : OS) (w : World) (c : debug_client) :
    Nat × Option debug_client × World :=
  let refcount := to_ULONG (to_LONG (c.refcount - 1))
  let c1 := { c with refcount := to_LONG (c.refcount - 1) }
  if refcount = 0 then
    let r := debugclient_Release_loop os w c1.targets
    let w1 :=
      if c1.event_callbacks ≠ 0 then r.2.call (OsCall.CallbacksRelease c1.event_callbacks)
      else r.2
    (refcount, none, w1)
  else (refcount, some c1, w)

/-- `debugdataspaces_Release`, lines 702-707. -/
def debugdataspaces_Release (os : OS) (w : World) (c : debug_client) :
    Nat × Option debug_client × World := debugclient_Release os w c

/-- `debugsymbols_Release`, lines 912-917. -/
def debugsymbols_Release (os : OS) (w : World) (c : debug_client) :
    Nat × Option debug_client × World := debugclient_Release os w c

/-- `debugcontrol_Release`, lines 2074-2079. -/
def debugcontrol_Release (os : OS) (w : World) (c : debug_client) :
    Nat × Option debug_client × World := debugclient_Release os w c

/-- `IUnknown_Release` on one of the four interfaces. -/
def IUnknown_Release (os : OS) (w : World) (i : client_iface) (c : debug_client) :
    Nat × Option debug_client × World :=
  match i with
  | client_iface.IDebugClient_iface => debugclient_Release os w c
  | client_iface.IDebugDataSpaces_iface => debugdataspaces_Release os w c
  | client_iface.IDebugSymbols3_iface => debugsymbols_Release os w c
  | client_iface.IDebugControl2_iface => debugcontrol_Release os w c

/-- `DebugCreate`, lines 3038-3066.  The second component is what is stored in
`*obj` (`none`: nothing was stored; `some none`: `NULL` was stored), the third
the object that exists afterwards (`none`: there is none). -/
def DebugCreate (os : OS) (hdr : dbgeng_h) (w : World) (riid : Nat) :
    Int × Option (Option client_iface) × Option debug_client × World :=
  let ok := os.heap_alloc w os.sizeof_debug_client
  let w1 := w.alloc os.sizeof_debug_client ok
  if !ok then (E_OUTOFMEMORY, none, none, w1)
  else
    let q := IUnknown_QueryInterface hdr client_iface.IDebugClient_iface DebugCreate_client riid
    let r := IUnknown_Release os w1 client_iface.IDebugClient_iface q.2.2
    (q.1, some q.2.1, r.2.1, r.2.2)

/-! ## The event callbacks and the engine options -/

/-- `debugclient_GetEventCallbacks`, lines 600-613.  The second component is
what is stored in `*callbacks`. -/
def debugclient_GetEventCallbacks (w : World) (c : debug_client) :
    Int × Option Nat × debug_client × World :=
  if c.event_callbacks ≠ 0 then
    (S_OK, some c.event_callbacks, c, w.call (OsCall.CallbacksAddRef c.event_callbacks))
  else (S_OK, none, c, w)

/-- `debugclient_SetEventCallbacks`, lines 615-627. -/
def debugclient_SetEventCallbacks (w : World) (c : debug_client) (callbacks : Nat) :
    Int × debug_client × World :=
  let w1 :=
    if c.event_callbacks ≠ 0 then w.call (OsCall.CallbacksRelease c.event_callbacks) else w
  let w2 := if callbacks ≠ 0 then w1.call (OsCall.CallbacksAddRef callbacks) else w1
  (S_OK, { c with event_callbacks := callbacks }, w2)

/-- The complement `~x` of a 32-bit value. -/
def not32 (x : Nat) : Nat := 0xFFFFFFFF ^^^ x

/-- `debugcontrol_GetEngineOptions`, lines 2459-2468.  The second component
is what is stored in `*options`. -/
def debugcontrol_GetEngineOptions (w : World) (c : debug_client) :
    Int × Option Nat × debug_client × World :=
  (S_OK, some c.engine_options, c, w)

/-- `debugcontrol_AddEngineOptions`, lines 2470-2482. -/
def debugcontrol_AddEngineOptions (hdr : dbgeng_h) (w : World) (c : debug_client)
    (options : Nat) : Int × debug_client × World :=
  if options &&& not32 hdr.DEBUG_ENGOPT_ALL ≠ 0 then (E_INVALIDARG, c, w)
  else (S_OK, { c with engine_options := c.engine_options ||| options }, w)

/-- `debugcontrol_RemoveEngineOptions`, lines 2484-2493. -/
def debugcontrol_RemoveEngineOptions (w : World) (c : debug_client) (options : Nat) :
    Int × debug_client × World :=
  (S_OK, { c with engine_options := c.engine_options &&& not32 options }, w)

/-- `debugcontrol_SetEngineOptions`, lines 2495-2507. -/
def debugcontrol_SetEngineOptions (hdr : dbgeng_h) (w : World) (c : debug_client)
    (options : Nat) : Int × debug_client × World :=
  if options &&& not32 hdr.DEBUG_ENGOPT_ALL ≠ 0 then (E_INVALIDARG, c, w)
  else (S_OK, { c with engine_options := options }, w)

/-- The words of the specification "options has a bit outside
`DEBUG_ENGOPT_ALL`": some bit is set in `options` and clear in the mask. -/
def has_bit_outside (options all : Nat) : Prop :=
  ∃ i, options.testBit i = true ∧ all.testBit i = false

/-! ## The exported entry points that are stubs -/

/-- Modelled from the spec: `winerror.h` is not among the sources; the error
code of a call that is not implemented. -/
def ERROR_CALL_NOT_IMPLEMENTED : Nat := 120

/-- `DebugExtensionInitialize`, lines 3013-3036.  The last argument is the
last error of the thread; the result holds what is stored in `*pVersion` and
in `*pFlags`, and the last error of the thread afterwards. -/
def DebugExtensionInitialize (_pVersion _pFlags : Nat) (_last_error : Nat) :
    Int × Option Nat × Option Nat × Nat :=
  (E_NOTIMPL, none, none, ERROR_CALL_NOT_IMPLEMENTED)

/-- `DebugCreateEx`, lines 3068-3076.  The result holds what is stored in
`*obj` and the last error of the thread afterwards. -/
def DebugCreateEx (_riid _flags _obj : Nat) (last_error : Nat) :
    Int × Option (Option client_iface) × Nat :=
  (E_NOTIMPL, none, last_error)

/-- `DebugConnect`, lines 3078-3102.  The result holds what is stored in
`*pInterface` and the last error of the thread afterwards. -/
def DebugConnect (_RemoteOptions _InterfaceId _pInterface : Nat) (_last_error : Nat) :
    Int × Option (Option client_iface) × Nat :=
  (E_NOTIMPL, none, ERROR_CALL_NOT_IMPLEMENTED)

/-- The eight interface identifiers that the specification lists as the
supported ones. -/
def supported_iids (hdr : dbgeng_h) : List Nat :=
  [hdr.IID_IUnknown, hdr.IID_IDebugClient, hdr.IID_IDebugDataSpaces, hdr.IID_IDebugSymbols,
   hdr.IID_IDebugSymbols2, hdr.IID_IDebugSymbols3, hdr.IID_IDebugControl,
   hdr.IID_IDebugControl2]

/-- A header for examples: eight different interface identifiers and the
engine option mask `0xFFFFF`. -/
def exampleHdr : dbgeng_h :=
  { IID_IUnknown := 0x46
    IID_IDebugClient := 0x27fe5639
    IID_IDebugDataSpaces := 0x88f7dfab
    IID_IDebugSymbols := 0x8c31e98c
    IID_IDebugSymbols2 := 0x3a707211
    IID_IDebugSymbols3 := 0xf02fbecc
    IID_IDebugControl := 0x5182e668
    IID_IDebugControl2 := 0xd4366723
    DEBUG_ENGOPT_ALL := 0xFFFFF }

/-! ## The tables of methods -/

/-- Every entry of the four tables of methods `debugclientvtbl` (lines
636-686), `debugdataspacesvtbl` (871-896), `debugsymbolsvtbl` (1928-2058) and
`debugcontrolvtbl` (2906-3011), under the name of the C function, in the
order of the tables. -/
inductive client_method where
  -- debugclientvtbl
  | debugclient_QueryInterface
  | debugclient_AddRef
  | debugclient_Release
  | debugclient_AttachKernel
  | debugclient_GetKernelConnectionOptions
  | debugclient_SetKernelConnectionOptions
  | debugclient_StartProcessServer
  | debugclient_ConnectProcessServer
  | debugclient_DisconnectProcessServer
  | debugclient_GetRunningProcessSystemIds
  | debugclient_GetRunningProcessSystemIdByExecutableName
  | debugclient_GetRunningProcessDescription
  | debugclient_AttachProcess
  | debugclient_CreateProcess
  | debugclient_CreateProcessAndAttach
  | debugclient_GetProcessOptions
  | debugclient_AddProcessOptions
  | debugclient_RemoveProcessOptions
  | debugclient_SetProcessOptions
  | debugclient_OpenDumpFile
  | debugclient_WriteDumpFile
  | debugclient_ConnectSession
  | debugclient_StartServer
  | debugclient_OutputServers
  | debugclient_TerminateProcesses
  | debugclient_DetachProcesses
  | debugclient_EndSession
  | debugclient_GetExitCode
  | debugclient_DispatchCallbacks
  | debugclient_ExitDispatch
  | debugclient_CreateClient
  | debugclient_GetInputCallbacks
  | debugclient_SetInputCallbacks
  | debugclient_GetOutputCallbacks
  | debugclient_SetOutputCallbacks
  | debugclient_GetOutputMask
  | debugclient_SetOutputMask
  | debugclient_GetOtherOutputMask
  | debugclient_SetOtherOutputMask
  | debugclient_GetOutputWidth
  | debugclient_SetOutputWidth
  | debugclient_GetOutputLinePrefix
  | debugclient_SetOutputLinePrefix
  | debugclient_GetIdentity
  | debugclient_OutputIdentity
  | debugclient_GetEventCallbacks
  | debugclient_SetEventCallbacks
  | debugclient_FlushCallbacks
  -- debugdataspacesvtbl
  | debugdataspaces_QueryInterface
  | debugdataspaces_AddRef
  | debugdataspaces_Release
  | debugdataspaces_ReadVirtual
  | debugdataspaces_WriteVirtual
  | debugdataspaces_SearchVirtual
  | debugdataspaces_ReadVirtualUncached
  | debugdataspaces_WriteVirtualUncached
  | debugdataspaces_ReadPointersVirtual
  | debugdataspaces_WritePointersVirtual
  | debugdataspaces_ReadPhysical
  | debugdataspaces_WritePhysical
  | debugdataspaces_ReadControl
  | debugdataspaces_WriteControl
  | debugdataspaces_ReadIo
  | debugdataspaces_WriteIo
  | debugdataspaces_ReadMsr
  | debugdataspaces_WriteMsr
  | debugdataspaces_ReadBusData
  | debugdataspaces_WriteBusData
  | debugdataspaces_CheckLowMemory
  | debugdataspaces_ReadDebuggerData
  | debugdataspaces_ReadProcessorSystemData
  -- debugsymbolsvtbl
  | debugsymbols_QueryInterface
  | debugsymbols_AddRef
  | debugsymbols_Release
  | debugsymbols_GetSymbolOptions
  | debugsymbols_AddSymbolOptions
  | debugsymbols_RemoveSymbolOptions
  | debugsymbols_SetSymbolOptions
  | debugsymbols_GetNameByOffset
  | debugsymbols_GetOffsetByName
  | debugsymbols_GetNearNameByOffset
  | debugsymbols_GetLineByOffset
  | debugsymbols_GetOffsetByLine
  | debugsymbols_GetNumberModules
  | debugsymbols_GetModuleByIndex
  | debugsymbols_GetModuleByModuleName
  | debugsymbols_GetModuleByOffset
  | debugsymbols_GetModuleNames
  | debugsymbols_GetModuleParameters
  | debugsymbols_GetSymbolModule
  | debugsymbols_GetTypeName
  | debugsymbols_GetTypeId
  | debugsymbols_GetTypeSize
  | debugsymbols_GetFieldOffset
  | debugsymbols_GetSymbolTypeId
  | debugsymbols_GetOffsetTypeId
  | debugsymbols_ReadTypedDataVirtual
  | debugsymbols_WriteTypedDataVirtual
  | debugsymbols_OutputTypedDataVirtual
  | debugsymbols_ReadTypedDataPhysical
  | debugsymbols_WriteTypedDataPhysical
  | debugsymbols_OutputTypedDataPhysical
  | debugsymbols_GetScope
  | debugsymbols_SetScope
  | debugsymbols_ResetScope
  | debugsymbols_GetScopeSymbolGroup
  | debugsymbols_CreateSymbolGroup
  | debugsymbols_StartSymbolMatch
  | debugsymbols_GetNextSymbolMatch
  | debugsymbols_EndSymbolMatch
  | debugsymbols_Reload
  | debugsymbols_GetSymbolPath
  | debugsymbols_SetSymbolPath
  | debugsymbols_AppendSymbolPath
  | debugsymbols_GetImagePath
  | debugsymbols_SetImagePath
  | debugsymbols_AppendImagePath
  | debugsymbols_GetSourcePath
  | debugsymbols_GetSourcePathElement
  | debugsymbols_SetSourcePath
  | debugsymbols_AppendSourcePath
  | debugsymbols_FindSourceFile
  | debugsymbols_GetSourceFileLineOffsets
  | debugsymbols_GetModuleVersionInformation
  | debugsymbols_GetModuleNameString
  | debugsymbols_GetConstantName
  | debugsymbols_GetFieldName
  | debugsymbols_GetTypeOptions
  | debugsymbols_AddTypeOptions
  | debugsymbols_RemoveTypeOptions
  | debugsymbols_SetTypeOptions
  | debugsymbols_GetNameByOffsetWide
  | debugsymbols_GetOffsetByNameWide
  | debugsymbols_GetNearNameByOffsetWide
  | debugsymbols_GetLineByOffsetWide
  | debugsymbols_GetOffsetByLineWide
  | debugsymbols_GetModuleByModuleNameWide
  | debugsymbols_GetSymbolModuleWide
  | debugsymbols_GetTypeNameWide
  | debugsymbols_GetTypeIdWide
  | debugsymbols_GetFieldOffsetWide
  | debugsymbols_GetSymbolTypeIdWide
  | debugsymbols_GetScopeSymbolGroup2
  | debugsymbols_CreateSymbolGroup2
  | debugsymbols_StartSymbolMatchWide
  | debugsymbols_GetNextSymbolMatchWide
  | debugsymbols_ReloadWide
  | debugsymbols_GetSymbolPathWide
  | debugsymbols_SetSymbolPathWide
  | debugsymbols_AppendSymbolPathWide
  | debugsymbols_GetImagePathWide
  | debugsymbols_SetImagePathWide
  | debugsymbols_AppendImagePathWide
  | debugsymbols_GetSourcePathWide
  | debugsymbols_GetSourcePathElementWide
  | debugsymbols_SetSourcePathWide
  | debugsymbols_AppendSourcePathWide
  | debugsymbols_FindSourceFileWide
  | debugsymbols_GetSourceFileLineOffsetsWide
  | debugsymbols_GetModuleVersionInformationWide
  | debugsymbols_GetModuleNameStringWide
  | debugsymbols_GetConstantNameWide
  | debugsymbols_GetFieldNameWide
  | debugsymbols_IsManagedModule
  | debugsymbols_GetModuleByModuleName2
  | debugsymbols_GetModuleByModuleName2Wide
  | debugsymbols_GetModuleByOffset2
  | debugsymbols_AddSyntheticModule
  | debugsymbols_AddSyntheticModuleWide
  | debugsymbols_RemoveSyntheticModule
  | debugsymbols_GetCurrentScopeFrameIndex
  | debugsymbols_SetScopeFrameByIndex
  | debugsymbols_SetScopeFromJitDebugInfo
  | debugsymbols_SetScopeFromStoredEvent
  | debugsymbols_OutputSymbolByOffset
  | debugsymbols_GetFunctionEntryByOffset
  | debugsymbols_GetFieldTypeAndOffset
  | debugsymbols_GetFieldTypeAndOffsetWide
  | debugsymbols_AddSyntheticSymbol
  | debugsymbols_AddSyntheticSymbolWide
  | debugsymbols_RemoveSyntheticSymbol
  | debugsymbols_GetSymbolEntriesByOffset
  | debugsymbols_GetSymbolEntriesByName
  | debugsymbols_GetSymbolEntriesByNameWide
  | debugsymbols_GetSymbolEntryByToken
  | debugsymbols_GetSymbolEntryInformation
  | debugsymbols_GetSymbolEntryString
  | debugsymbols_GetSymbolEntryStringWide
  | debugsymbols_GetSymbolEntryOffsetRegions
  | debugsymbols_GetSymbolEntryBySymbolEntry
  | debugsymbols_GetSourceEntriesByOffset
  | debugsymbols_GetSourceEntriesByLine
  | debugsymbols_GetSourceEntriesByLineWide
  | debugsymbols_GetSourceEntryString
  | debugsymbols_GetSourceEntryStringWide
  | debugsymbols_GetSourceEntryOffsetRegions
  | debugsymbols_GetSourceEntryBySourceEntry
  -- debugcontrolvtbl
  | debugcontrol_QueryInterface
  | debugcontrol_AddRef
  | debugcontrol_Release
  | debugcontrol_GetInterrupt
  | debugcontrol_SetInterrupt
  | debugcontrol_GetInterruptTimeout
  | debugcontrol_SetInterruptTimeout
  | debugcontrol_GetLogFile
  | debugcontrol_OpenLogFile
  | debugcontrol_CloseLogFile
  | debugcontrol_GetLogMask
  | debugcontrol_SetLogMask
  | debugcontrol_Input
  | debugcontrol_ReturnInput
  | debugcontrol_Output
  | debugcontrol_OutputVaList
  | debugcontrol_ControlledOutput
  | debugcontrol_ControlledOutputVaList
  | debugcontrol_OutputPrompt
  | debugcontrol_OutputPromptVaList
  | debugcontrol_GetPromptText
  | debugcontrol_OutputCurrentState
  | debugcontrol_OutputVersionInformation
  | debugcontrol_GetNotifyEventHandle
  | debugcontrol_SetNotifyEventHandle
  | debugcontrol_Assemble
  | debugcontrol_Disassemble
  | debugcontrol_GetDisassembleEffectiveOffset
  | debugcontrol_OutputDisassembly
  | debugcontrol_OutputDisassemblyLines
  | debugcontrol_GetNearInstruction
  | debugcontrol_GetStackTrace
  | debugcontrol_GetReturnOffset
  | debugcontrol_OutputStackTrace
  | debugcontrol_GetDebuggeeType
  | debugcontrol_GetActualProcessorType
  | debugcontrol_GetExecutingProcessorType
  | debugcontrol_GetNumberPossibleExecutingProcessorTypes
  | debugcontrol_GetPossibleExecutingProcessorTypes
  | debugcontrol_GetNumberProcessors
  | debugcontrol_GetSystemVersion
  | debugcontrol_GetPageSize
  | debugcontrol_IsPointer64Bit
  | debugcontrol_ReadBugCheckData
  | debugcontrol_GetNumberSupportedProcessorTypes
  | debugcontrol_GetSupportedProcessorTypes
  | debugcontrol_GetProcessorTypeNames
  | debugcontrol_GetEffectiveProcessorType
  | debugcontrol_SetEffectiveProcessorType
  | debugcontrol_GetExecutionStatus
  | debugcontrol_SetExecutionStatus
  | debugcontrol_GetCodeLevel
  | debugcontrol_SetCodeLevel
  | debugcontrol_GetEngineOptions
  | debugcontrol_AddEngineOptions
  | debugcontrol_RemoveEngineOptions
  | debugcontrol_SetEngineOptions
  | debugcontrol_GetSystemErrorControl
  | debugcontrol_SetSystemErrorControl
  | debugcontrol_GetTextMacro
  | debugcontrol_SetTextMacro
  | debugcontrol_GetRadix
  | debugcontrol_SetRadix
  | debugcontrol_Evaluate
  | debugcontrol_CoerceValue
  | debugcontrol_CoerceValues
  | debugcontrol_Execute
  | debugcontrol_ExecuteCommandFile
  | debugcontrol_GetNumberBreakpoints
  | debugcontrol_GetBreakpointByIndex
  | debugcontrol_GetBreakpointById
  | debugcontrol_GetBreakpointParameters
  | debugcontrol_AddBreakpoint
  | debugcontrol_RemoveBreakpoint
  | debugcontrol_AddExtension
  | debugcontrol_RemoveExtension
  | debugcontrol_GetExtensionByPath
  | debugcontrol_CallExtension
  | debugcontrol_GetExtensionFunction
  | debugcontrol_GetWindbgExtensionApis32
  | debugcontrol_GetWindbgExtensionApis64
  | debugcontrol_GetNumberEventFilters
  | debugcontrol_GetEventFilterText
  | debugcontrol_GetEventFilterCommand
  | debugcontrol_SetEventFilterCommand
  | debugcontrol_GetSpecificFilterParameters
  | debugcontrol_SetSpecificFilterParameters
  | debugcontrol_GetSpecificFilterArgument
  | debugcontrol_SetSpecificFilterArgument
  | debugcontrol_GetExceptionFilterParameters
  | debugcontrol_SetExceptionFilterParameters
  | debugcontrol_GetExceptionFilterSecondCommand
  | debugcontrol_SetExceptionFilterSecondCommand
  | debugcontrol_WaitForEvent
  | debugcontrol_GetLastEventInformation
  | debugcontrol_GetCurrentTimeDate
  | debugcontrol_GetCurrentSystemUpTime
  | debugcontrol_GetDumpFormatFlags
  | debugcontrol_GetNumberTextPlacements
  | debugcontrol_GetNumberTextReplacement
  | debugcontrol_SetTextReplacement
  | debugcontrol_RemoveTextReplacements
  | debugcontrol_OutputTextReplacements
  deriving DecidableEq, Repr

/-- A call of one method on a live client.  The arguments that the method
reads are taken from the list `a`, in the order of the C parameters after
`iface`; the result is the value that the method returns (a `ULONG` for
`AddRef` and `Release`, an `HRESULT` for the others), the client afterwards
(`none`: the object was freed) and the history afterwards.  Every method
that is not named here has, in the source, a body that is only a `FIXME`
trace and `return E_NOTIMPL;`. -/
def call_method (os : OS) (hdr : dbgeng_h) (m : client_method) (a : List Nat)
    (w : World) (c : debug_client) : Int × Option debug_client × World :=
  match m with
  | client_method.debugclient_QueryInterface =>
    ((debugclient_QueryInterface hdr c (a.getD 0 0)).1,
      some (debugclient_QueryInterface hdr c (a.getD 0 0)).2.2, w)
  | client_method.debugdataspaces_QueryInterface =>
    ((debugdataspaces_QueryInterface hdr c (a.getD 0 0)).1,
      some (debugdataspaces_QueryInterface hdr c (a.getD 0 0)).2.2, w)
  | client_method.debugsymbols_QueryInterface =>
    ((debugsymbols_QueryInterface hdr c (a.getD 0 0)).1,
      some (debugsymbols_QueryInterface hdr c (a.getD 0 0)).2.2, w)
  | client_method.debugcontrol_QueryInterface =>
    ((debugcontrol_QueryInterface hdr c (a.getD 0 0)).1,
      some (debugcontrol_QueryInterface hdr c (a.getD 0 0)).2.2, w)
  | client_method.debugclient_AddRef =>
    (((debugclient_AddRef c).1 : Int), some (debugclient_AddRef c).2, w)
  | client_method.debugdataspaces_AddRef =>
    (((debugdataspaces_AddRef c).1 : Int), some (debugdataspaces_AddRef c).2, w)
  | client_method.debugsymbols_AddRef =>
    (((debugsymbols_AddRef c).1 : Int), some (debugsymbols_AddRef c).2, w)
  | client_method.debugcontrol_AddRef =>
    (((debugcontrol_AddRef c).1 : Int), some (debugcontrol_AddRef c).2, w)
  | client_method.debugclient_Release =>
    (((debugclient_Release os w c).1 : Int), (debugclient_Release os w c).2.1,
      (debugclient_Release os w c).2.2)
  | client_method.debugdataspaces_Release =>
    (((debugdataspaces_Release os w c).1 : Int), (debugdataspaces_Release os w c).2.1,
      (debugdataspaces_Release os w c).2.2)
  | client_method.debugsymbols_Release =>
    (((debugsymbols_Release os w c).1 : Int), (debugsymbols_Release os w c).2.1,
      (debugsymbols_Release os w c).2.2)
  | client_method.debugcontrol_Release =>
    (((debugcontrol_Release os w c).1 : Int), (debugcontrol_Release os w c).2.1,
      (debugcontrol_Release os w c).2.2)
  | client_method.debugclient_AttachProcess =>
    ((debugclient_AttachProcess os w c (a.getD 0 0) (a.getD 1 0) (a.getD 2 0)).1,
      some (debugclient_AttachProcess os w c (a.getD 0 0) (a.getD 1 0) (a.getD 2 0)).2.1,
      (debugclient_AttachProcess os w c (a.getD 0 0) (a.getD 1 0) (a.getD 2 0)).2.2)
  | client_method.debugclient_DetachProcesses =>
    ((debugclient_DetachProcesses os w c).1, some (debugclient_DetachProcesses os w c).2.1,
      (debugclient_DetachProcesses os w c).2.2)
  | client_method.debugclient_GetEventCallbacks =>
    ((debugclient_GetEventCallbacks w c).1, some (debugclient_GetEventCallbacks w c).2.2.1,
      (debugclient_GetEventCallbacks w c).2.2.2)
  | client_method.debugclient_SetEventCallbacks =>
    ((debugclient_SetEventCallbacks w c (a.getD 0 0)).1,
      some (debugclient_SetEventCallbacks w c (a.getD 0 0)).2.1,
      (debugclient_SetEventCallbacks w c (a.getD 0 0)).2.2)
  | client_method.debugsymbols_GetNumberModules =>
    ((debugsymbols_GetNumberModules os w c).1,
      some (debugsymbols_GetNumberModules os w c).2.2.2.1,
      (debugsymbols_GetNumberModules os w c).2.2.2.2)
  | client_method.debugsymbols_GetModuleByIndex =>
    ((debugsymbols_GetModuleByIndex os w c (a.getD 0 0)).1,
      some (debugsymbols_GetModuleByIndex os w c (a.getD 0 0)).2.2.1,
      (debugsymbols_GetModuleByIndex os w c (a.getD 0 0)).2.2.2)
  | client_method.debugcontrol_GetEngineOptions =>
    ((debugcontrol_GetEngineOptions w c).1, some (debugcontrol_GetEngineOptions w c).2.2.1,
      (debugcontrol_GetEngineOptions w c).2.2.2)
  | client_method.debugcontrol_AddEngineOptions =>
    ((debugcontrol_AddEngineOptions hdr w c (a.getD 0 0)).1,
      some (debugcontrol_AddEngineOptions hdr w c (a.getD 0 0)).2.1,
      (debugcontrol_AddEngineOptions hdr w c (a.getD 0 0)).2.2)
  | client_method.debugcontrol_RemoveEngineOptions =>
    ((debugcontrol_RemoveEngineOptions w c (a.getD 0 0)).1,
      some (debugcontrol_RemoveEngineOptions w c (a.getD 0 0)).2.1,
      (debugcontrol_RemoveEngineOptions w c (a.getD 0 0)).2.2)
  | client_method.debugcontrol_SetEngineOptions =>
    ((debugcontrol_SetEngineOptions hdr w c (a.getD 0 0)).1,
      some (debugcontrol_SetEngineOptions hdr w c (a.getD 0 0)).2.1,
      (debugcontrol_SetEngineOptions hdr w c (a.getD 0 0)).2.2)
  | client_method.debugcontrol_WaitForEvent =>
    ((debugcontrol_WaitForEvent os w c (a.getD 0 0) (a.getD 1 0)).1,
      some (debugcontrol_WaitForEvent os w c (a.getD 0 0) (a.getD 1 0)).2.1,
      (debugcontrol_WaitForEvent os w c (a.getD 0 0) (a.getD 1 0)).2.2)
  | _ => (E_NOTIMPL, some c, w)

/-- The methods that the specification names as the working ones:
`QueryInterface`, `AddRef` and `Release` of the four interfaces,
`AttachProcess`, `DetachProcesses`, `WaitForEvent`, `GetNumberModules` and
`GetModuleByIndex`. -/
def named_methods : List client_method :=
  [client_method.debugclient_QueryInterface, client_method.debugclient_AddRef,
   client_method.debugclient_Release,
   client_method.debugdataspaces_QueryInterface, client_method.debugdataspaces_AddRef,
   client_method.debugdataspaces_Release,
   client_method.debugsymbols_QueryInterface, client_method.debugsymbols_AddRef,
   client_method.debugsymbols_Release,
   client_method.debugcontrol_QueryInterface, client_method.debugcontrol_AddRef,
   client_method.debugcontrol_Release,
   client_method.debugclient_AttachProcess, client_method.debugclient_DetachProcesses,
   client_method.debugcontrol_WaitForEvent,
   client_method.debugsymbols_GetNumberModules, client_method.debugsymbols_GetModuleByIndex]

/-- The six further methods that have a body of their own: the two for the
event callbacks and the four for the engine options. -/
def further_methods : List client_method :=
  [client_method.debugclient_GetEventCallbacks, client_method.debugclient_SetEventCallbacks,
   client_method.debugcontrol_GetEngineOptions, client_method.debugcontrol_AddEngineOptions,
   client_method.debugcontrol_RemoveEngineOptions, client_method.debugcontrol_SetEngineOptions]

/-! ## The sequence attach, wait, detach on a fresh client -/

/-- First step of the sequence: `AttachProcess(0, pid, flags)` on the client
that `DebugCreate` has just built. -/
def seq_attach (os : OS) (w0 : World) (pid flags : Nat) : Int × debug_client × World :=
  debugclient_AttachProcess os w0 DebugCreate_client 0 pid flags

/-- Second step: `WaitForEvent` on what the first step left. -/
def seq_wait (os : OS) (w0 : World) (pid flags wflags timeout : Nat) :
    Int × debug_client × World :=
  debugcontrol_WaitForEvent os (seq_attach os w0 pid flags).2.2
    (seq_attach os w0 pid flags).2.1 wflags timeout

/-- Third step: `DetachProcesses` on what the second step left. -/
def seq_detach (os : OS) (w0 : World) (pid flags wflags timeout : Nat) :
    Int × debug_client × World :=
  debugclient_DetachProcesses os (seq_wait os w0 pid flags wflags timeout).2.2
    (seq_wait os w0 pid flags wflags timeout).2.1

/-- A second `WaitForEvent`, on what the first one (`seq_wait`) left. -/
def seq_wait2 (os : OS) (w0 : World) (pid flags wflags timeout : Nat) :
    Int × debug_client × World :=
  debugcontrol_WaitForEvent os (seq_wait os w0 pid flags wflags timeout).2.2
    (seq_wait os w0 pid flags wflags timeout).2.1 wflags timeout

/-- `DetachProcesses` on what the second `WaitForEvent` left. -/
def seq_wait2_detach (os : OS) (w0 : World) (pid flags wflags timeout : Nat) :
    Int × debug_client × World :=
  debugclient_DetachProcesses os (seq_wait2 os w0 pid flags wflags timeout).2.2
    (seq_wait2 os w0 pid flags wflags timeout).2.1

/-- Is this call a `CloseHandle`? -/
def OsCall.isClose : OsCall → Bool
  | OsCall.CloseHandle _ _ => true
  | _ => false

/-- An operating system for examples that never gives the same handle twice:
it is `exampleOS`, except that `OpenProcess` gives the handle
`pid + 100 + 4 * n` where `n` is the number of calls made so far. -/
def freshHandleOS : OS :=
  { exampleOS with
    OpenProcess := fun w _ _ pid => if pid = 0 then 0 else pid + 100 + 4 * w.calls.length }

/-- An operating system for examples in which no process has a module any
more: it is `exampleOS`, except that `EnumProcessModules` fails and reports
`needed = 0`, and `GetModuleInformation` fails. -/
def noModulesOS : OS :=
  { exampleOS with
    EnumProcessModules := fun _ _ _ => { ret := false, written := [], needed := some 0 }
    GetModuleInformation := fun _ _ _ => none }

/-- An operating system for examples in which the second
`EnumProcessModules` fails: it is `exampleOS`, except that
`EnumProcessModules` succeeds only when it is called with an empty buffer. -/
def enumFailsOS : OS :=
  { exampleOS with
    EnumProcessModules := fun _ _ cb =>
      { ret := decide (cb = 0), written := [], needed := some 12 } }

/-! ## Sequences of method calls -/

/-- A sequence of method calls on one client, each call given by the method
and the list of its arguments (as `call_method` reads them).  The result is
the client after the last call and the history.  A call that frees the
object ends the sequence: the result is then `none`, and the calls that
follow in the list are not made (there is no object to make them on). -/
def run_methods (os : OS) (hdr : dbgeng_h) :
    List (client_method × List Nat) → World → debug_client → Option debug_client × World
  | [], w, c => (some c, w)
  | p :: rest, w, c =>
    match (call_method os hdr p.1 p.2 w c).2.1 with
    | none => (none, (call_method os hdr p.1 p.2 w c).2.2)
    | some c1 => run_methods os hdr rest (call_method os hdr p.1 p.2 w c).2.2 c1

/-- `DebugCreate(riid, obj)` followed by a sequence of method calls on the
object that it built.  The result is `none` when there is no object: when
`DebugCreate` failed, or when a call of the sequence freed it. -/
def DebugCreate_then (os : OS) (hdr : dbgeng_h) (w : World) (riid : Nat)
    (calls : List (client_method × List Nat)) : Option debug_client × World :=
  match (DebugCreate os hdr w riid).2.2.1 with
  | none => (none, (DebugCreate os hdr w riid).2.2.2)
  | some c => run_methods os hdr calls (DebugCreate os hdr w riid).2.2.2 c

/-- The five methods that work on the targets. -/
def target_methods : List client_method :=
  [client_method.debugclient_AttachProcess, client_method.debugcontrol_WaitForEvent,
   client_method.debugclient_DetachProcesses,
   client_method.debugsymbols_GetNumberModules, client_method.debugsymbols_GetModuleByIndex]

/-- The three methods that store into `engine_options`. -/
def engine_options_writers : List client_method :=
  [client_method.debugcontrol_AddEngineOptions, client_method.debugcontrol_RemoveEngineOptions,
   client_method.debugcontrol_SetEngineOptions]

end Dbgeng

/-! # The AVI compressor filter (`dlls/qcap/avico.c`) -/

namespace Avico

/-- The interface identifiers of `dshow.h` that the code uses and that are
not among the sources, taken as parameters (a `GUID` is embedded as the
natural number of its 128 bits). -/
structure dshow_h where
  IID_IUnknown : Nat
  IID_IPersist : Nat
  IID_IMediaFilter : Nat
  IID_IBaseFilter : Nat
  IID_IPersistPropertyBag : Nat

/-- Modelled from the spec: the `BaseFilter` of `strmbase`, whose declaration
is not among the sources; of the object life cycle ("reference counting") the
embedding keeps its reference count. -/
structure BaseFilter where
  refCount : Int
  deriving DecidableEq, Repr

/-- The `AVICompressor` of lines 33-39, without the table pointer of
`IPersistPropertyBag_iface`; `in_` and `out` are the pointers to the two pins
(`in` in the source). -/
structure AVICompressor where
  filter : BaseFilter
  in_ : Nat
  out : Nat
  deriving DecidableEq, Repr

/-- The functions of `strmbase` that the code calls through the tables of
methods and that are not among the sources, taken as parameters. -/
structure strmbase where
  BaseFilterImpl_AddRef : BaseFilter → Nat × BaseFilter

/-- The two interfaces of the compressor object that `QueryInterface` hands
out. -/
inductive compressor_iface where
  | IBaseFilter_iface
  | IPersistPropertyBag_iface
  deriving DecidableEq, Repr

/-- `IBaseFilter_AddRef` on the filter of the compressor: the second entry of
`AVICompressorVtbl` (line 149), `BaseFilterImpl_AddRef`. -/
def IBaseFilter_AddRef (sb : strmbase) (This : AVICompressor) : Nat × AVICompressor :=
  ((sb.BaseFilterImpl_AddRef This.filter).1,
   { This with filter := (sb.BaseFilterImpl_AddRef This.filter).2 })

/-- `AVICompressorPropertyBag_AddRef`, lines 209-213. -/
def AVICompressorPropertyBag_AddRef (sb : strmbase) (This : AVICompressor) :
    Nat × AVICompressor := IBaseFilter_AddRef sb This

/-- `IUnknown_AddRef` on one of the two interfaces: the call through the table
of methods of that interface. -/
def IUnknown_AddRef (sb : strmbase) (i : compressor_iface) (This : AVICompressor) :
    Nat × AVICompressor :=
  match i with
  | compressor_iface.IBaseFilter_iface => IBaseFilter_AddRef sb This
  | compressor_iface.IPersistPropertyBag_iface => AVICompressorPropertyBag_AddRef sb This

/-- `AVICompressor_QueryInterface`, lines 57-85.  The second component is what
is stored in `*ppv`: `none` is `NULL`. -/
def AVICompressor_QueryInterface (sb : strmbase) (ids : dshow_h) (This : AVICompressor)
    (riid : Nat) : Int × Option compressor_iface × AVICompressor :=
  if Dbgeng.IsEqualIID riid ids.IID_IUnknown then
    (Dbgeng.S_OK, some compressor_iface.IBaseFilter_iface,
      (IUnknown_AddRef sb compressor_iface.IBaseFilter_iface This).2)
  else if Dbgeng.IsEqualIID riid ids.IID_IPersist then
    (Dbgeng.S_OK, some compressor_iface.IBaseFilter_iface,
      (IUnknown_AddRef sb compressor_iface.IBaseFilter_iface This).2)
  else if Dbgeng.IsEqualIID riid ids.IID_IMediaFilter then
    (Dbgeng.S_OK, some compressor_iface.IBaseFilter_iface,
      (IUnknown_AddRef sb compressor_iface.IBaseFilter_iface This).2)
  else if Dbgeng.IsEqualIID riid ids.IID_IBaseFilter then
    (Dbgeng.S_OK, some compressor_iface.IBaseFilter_iface,
      (IUnknown_AddRef sb compressor_iface.IBaseFilter_iface This).2)
  else if Dbgeng.IsEqualIID riid ids.IID_IPersistPropertyBag then
    (Dbgeng.S_OK, some compressor_iface.IPersistPropertyBag_iface,
      (IUnknown_AddRef sb compressor_iface.IPersistPropertyBag_iface This).2)
  else (Dbgeng.E_NOINTERFACE, none, This)

/-- `IBaseFilter_QueryInterface` on the filter of the compressor: the first
entry of `AVICompressorVtbl` (line 148). -/
def IBaseFilter_QueryInterface (sb : strmbase) (ids : dshow_h) (This : AVICompressor)
    (riid : Nat) : Int × Option compressor_iface × AVICompressor :=
  AVICompressor_QueryInterface sb ids This riid

/-- `AVICompressorPropertyBag_QueryInterface`, lines 203-207. -/
def AVICompressorPropertyBag_QueryInterface (sb : strmbase) (ids : dshow_h)
    (This : AVICompressor) (riid : Nat) : Int × Option compressor_iface × AVICompressor :=
  IBaseFilter_QueryInterface sb ids This riid

/-- `AVICompressorIn_AddRef`, lines 270-274, on the input pin of the
compressor (whose `pinInfo.pFilter` is the filter of the compressor, line
458). -/
def AVICompressorIn_AddRef (sb : strmbase) (This : AVICompressor) : Nat × AVICompressor :=
  IBaseFilter_AddRef sb This

/-- `AVICompressorOut_AddRef`, lines 360-364, on the output pin of the
compressor (whose `pinInfo.pFilter` is the filter of the compressor, line
468). -/
def AVICompressorOut_AddRef (sb : strmbase) (This : AVICompressor) : Nat × AVICompressor :=
  IBaseFilter_AddRef sb This

/-- `AVICompressor_GetPin`, lines 165-186.  The first component is the `IPin`
pointer that is returned, 0 for `NULL`; the pointer to the `IPin` interface
of a pin is the pointer to the pin.  `IPin_AddRef` on the input pin is
`AVICompressorIn_AddRef` and on the output pin `AVICompressorOut_AddRef`
(the tables of lines 298-317 and 372-391, given to the pins in lines 459 and
469). -/
def AVICompressor_GetPin (sb : strmbase) (This : AVICompressor) (pos : Int) :
    Nat × AVICompressor :=
  if pos = 0 then (This.in_, (AVICompressorIn_AddRef sb This).2)
  else if pos = 1 then (This.out, (AVICompressorOut_AddRef sb This).2)
  else (0, This)

/-- `AVICompressor_GetPinCount`, lines 188-191. -/
def AVICompressor_GetPinCount (_This : AVICompressor) : Int := 2

/-- `AVICompressorIn_ReceiveConnection`, lines 282-289.  (The call of
`dump_AM_MEDIA_TYPE`, which is not among the sources, writes a trace.) -/
def AVICompressorIn_ReceiveConnection (This : AVICompressor) (_pConnector _pmt : Nat) :
    Int × AVICompressor := (Dbgeng.E_NOTIMPL, This)

/-- `AVICompressorIn_Disconnect`, lines 291-296. -/
def AVICompressorIn_Disconnect (This : AVICompressor) : Int × AVICompressor :=
  (Dbgeng.E_NOTIMPL, This)

/-- `AVICompressorIn_CheckMediaType`, lines 319-324.  (The call of
`dump_AM_MEDIA_TYPE`, which is not among the sources, writes a trace.) -/
def AVICompressorIn_CheckMediaType (This : AVICompressor) (_pmt : Nat) :
    Int × AVICompressor := (Dbgeng.E_NOTIMPL, This)

/-- `AVICompressorIn_Receive`, lines 344-349. -/
def AVICompressorIn_Receive (This : AVICompressor) (_pSample : Nat) :
    Int × AVICompressor := (Dbgeng.E_NOTIMPL, This)

/-- `AVICompressorOut_GetMediaType`, lines 399-404.  The second component is
what is stored in `*amt`. -/
def AVICompressorOut_GetMediaType (This : AVICompressor) (_iPosition : Int) (_amt : Nat) :
    Int × Option Nat × AVICompressor := (Dbgeng.E_NOTIMPL, none, This)

/-- `AVICompressorOut_DecideBufferSize`, lines 413-417. -/
def AVICompressorOut_DecideBufferSize (This : AVICompressor)
    (_alloc _ppropInputRequest : Nat) : Int × AVICompressor := (Dbgeng.E_NOTIMPL, This)

/-- `AVICompressorOut_BreakConnect`, lines 426-430. -/
def AVICompressorOut_BreakConnect (This : AVICompressor) : Int × AVICompressor :=
  (Dbgeng.E_NOTIMPL, This)

/-- Identifiers for examples: five different interface identifiers. -/
def exampleIds : dshow_h :=
  { IID_IUnknown := 0x46
    IID_IPersist := 0x10c
    IID_IMediaFilter := 0x56a86899
    IID_IBaseFilter := 0x56a86895
    IID_IPersistPropertyBag := 0x37d84f60 }

/-- A `strmbase` for examples: `BaseFilterImpl_AddRef` counts one up. -/
def exampleStrmbase : strmbase :=
  { BaseFilterImpl_AddRef := fun f => ((f.refCount + 1).toNat, { refCount := f.refCount + 1 }) }

/-- A compressor for examples: reference count 1, the pins at 1000 and
2000. -/
def exampleCompressor : AVICompressor :=
  { filter := { refCount := 1 }, in_ := 1000, out := 2000 }

end Avico

namespace Dbgeng

/-! ## Lemmas on the history -/

theorem calls_since_self (w : World) : World.calls_since w w = [] := by
  simp [World.calls_since]

theorem calls_since_append (w w1 : World) (evs : List OsCall)
    (h : w1.calls = w.calls ++ evs) : World.calls_since w w1 = evs := by
  simp [World.calls_since, h]

/-- What `debug_client_detach_target` does, by cases. -/
theorem detach_target_cases (os : OS) (w : World) (t : target_process) :
    (debug_client_detach_target os w t).1 = { t with handle := 0 } ∧
    (debug_client_detach_target os w t).2.allocs = w.allocs ∧
    ((t.handle = 0 ∧ debug_client_detach_target os w t = (t, w)) ∨
     (t.handle ≠ 0 ∧
        (t.attach_flags &&& DEBUG_ATTACH_NONINVASIVE ≠ 0 ∧
          t.attach_flags &&& DEBUG_ATTACH_NONINVASIVE_NO_SUSPEND = 0) ∧
        ∃ st b, (debug_client_detach_target os w t).2.calls =
          w.calls ++ [OsCall.NtResumeProcess t.handle st, OsCall.CloseHandle t.handle b]) ∨
     (t.handle ≠ 0 ∧
        ¬ (t.attach_flags &&& DEBUG_ATTACH_NONINVASIVE ≠ 0 ∧
          t.attach_flags &&& DEBUG_ATTACH_NONINVASIVE_NO_SUSPEND = 0) ∧
        ∃ b, (debug_client_detach_target os w t).2.calls =
          w.calls ++ [OsCall.CloseHandle t.handle b])) := by
  unfold debug_client_detach_target
  by_cases h0 : t.handle = 0
  · simp [h0]
    cases t
    simp_all
  · by_cases h1 : t.attach_flags &&& DEBUG_ATTACH_NONINVASIVE = 0 <;>
    by_cases h2 : t.attach_flags &&& DEBUG_ATTACH_NONINVASIVE_NO_SUSPEND = 0 <;>
    simp [h0, h1, h2, World.call]

/-! ## Detaching one target -/

/-- C5: `debug_client_detach_target` does nothing when the handle is `NULL`.
When the handle is not `NULL` it calls `NtResumeProcess` on it exactly when
the attach flags contain `DEBUG_ATTACH_NONINVASIVE` and do not contain
`DEBUG_ATTACH_NONINVASIVE_NO_SUSPEND`, then calls `CloseHandle` on it and
sets it to `NULL`, whatever status the resume returned; pid, attach flags and
module info are unchanged in every case. -/
theorem debug_client_detach_target_spec (os : OS) (w : World) (t : target_process) :
    (t.handle = 0 → debug_client_detach_target os w t = (t, w)) ∧
    (t.handle ≠ 0 →
      (∃ b, World.calls_since w (debug_client_detach_target os w t).2 =
        (if t.attach_flags &&& DEBUG_ATTACH_NONINVASIVE ≠ 0 ∧
            t.attach_flags &&& DEBUG_ATTACH_NONINVASIVE_NO_SUSPEND = 0
          then [OsCall.NtResumeProcess t.handle (os.NtResumeProcess w t.handle)]
          else []) ++ [OsCall.CloseHandle t.handle b]) ∧
      (debug_client_detach_target os w t).1.handle = 0) ∧
    (debug_client_detach_target os w t).1.pid = t.pid ∧
    (debug_client_detach_target os w t).1.attach_flags = t.attach_flags ∧
    (debug_client_detach_target os w t).1.modules = t.modules := by
  unfold debug_client_detach_target
  by_cases h0 : t.handle = 0
  · simp [h0]
  · by_cases h1 : t.attach_flags &&& DEBUG_ATTACH_NONINVASIVE = 0 <;>
    by_cases h2 : t.attach_flags &&& DEBUG_ATTACH_NONINVASIVE_NO_SUSPEND = 0 <;>
    simp [h0, h1, h2, World.call, World.calls_since]

/-- The statement of C5 on two targets of the example system: one that was
never opened, and one that is open, was suspended, and whose resume fails. -/
theorem debug_client_detach_target_spec_witness :
    debug_client_detach_target exampleOS World.start
        { target_process_zero with pid := 7, attach_flags := 1 } =
      ({ target_process_zero with pid := 7, attach_flags := 1 }, World.start) ∧
    World.calls_since World.start
        (debug_client_detach_target exampleOS World.start
          { target_process_zero with pid := 7, attach_flags := 1, handle := 107 }).2 =
      [OsCall.NtResumeProcess 107 (-1), OsCall.CloseHandle 107 true] ∧
    (debug_client_detach_target exampleOS World.start
          { target_process_zero with pid := 7, attach_flags := 1, handle := 107 }).1.handle = 0 :=
  ⟨(debug_client_detach_target_spec exampleOS World.start
      { target_process_zero with pid := 7, attach_flags := 1 }).1 rfl,
   by decide,
   ((debug_client_detach_target_spec exampleOS World.start
      { target_process_zero with pid := 7, attach_flags := 1, handle := 107 }).2.1
        (by decide)).2⟩

/-! ## Attaching -/

/-- C2: `AttachProcess` with `server = 0`, the allocation succeeding, returns
`S_OK` and makes no OS call; the new list of targets is the old one with one
new target in front, whose pid and attach flags are the arguments, whose
handle is `NULL` and whose module info is not initialised; the other fields
of the client are unchanged, and `debug_client_get_target` now returns the
new target. -/
theorem debugclient_AttachProcess_local (os : OS) (w : World) (c : debug_client)
    (pid flags : Nat) (halloc : os.heap_alloc w os.sizeof_target_process = true) :
    (debugclient_AttachProcess os w c 0 pid flags).1 = S_OK ∧
    (debugclient_AttachProcess os w c 0 pid flags).2.2.calls = w.calls ∧
    (debugclient_AttachProcess os w c 0 pid flags).2.1.targets =
      { pid := pid, attach_flags := flags, handle := 0,
        modules := { info := none, loaded := 0, unloaded := 0, initialized := false } }
        :: c.targets ∧
    (debugclient_AttachProcess os w c 0 pid flags).2.1.refcount = c.refcount ∧
    (debugclient_AttachProcess os w c 0 pid flags).2.1.engine_options = c.engine_options ∧
    (debugclient_AttachProcess os w c 0 pid flags).2.1.event_callbacks = c.event_callbacks ∧
    debug_client_get_target (debugclient_AttachProcess os w c 0 pid flags).2.1 =
      some { pid := pid, attach_flags := flags, handle := 0,
             modules := { info := none, loaded := 0, unloaded := 0, initialized := false } } := by
  simp [debugclient_AttachProcess, halloc, World.alloc, list_add_head, target_process_zero,
    debug_client_get_target, list_empty, list_head]

/-- The statement of C2 on the example system: attaching pid 5 with flags 1
to a client that already has a target. -/
theorem debugclient_AttachProcess_local_witness :
    exampleOS.heap_alloc World.start exampleOS.sizeof_target_process = true ∧
    (debugclient_AttachProcess exampleOS World.start
      { DebugCreate_client with targets := [{ target_process_zero with pid := 9 }] }
      0 5 1).2.1.targets =
      [{ target_process_zero with pid := 5, attach_flags := 1 },
       { target_process_zero with pid := 9 }] :=
  ⟨rfl,
   (debugclient_AttachProcess_local exampleOS World.start
      { DebugCreate_client with targets := [{ target_process_zero with pid := 9 }] }
      5 1 rfl).2.2.1⟩

/-! ## Waiting for an event -/

/-- What `debugcontrol_WaitForEvent` does on a client with a head target, by
cases. -/
theorem WaitForEvent_cases (os : OS) (w : World) (c : debug_client) (flags timeout : Nat)
    (t : target_process) (rest : List target_process) (hc : c.targets = t :: rest) :
    (t.attach_flags &&& DEBUG_ATTACH_NONINVASIVE = 0 ∧
      debugcontrol_WaitForEvent os w c flags timeout = (E_NOTIMPL, c, w)) ∨
    (t.attach_flags &&& DEBUG_ATTACH_NONINVASIVE ≠ 0 ∧
      ∃ h : Nat,
        h = os.OpenProcess w
          (if t.attach_flags &&& DEBUG_ATTACH_NONINVASIVE_NO_SUSPEND = 0 then
            PROCESS_VM_READ ||| PROCESS_VM_WRITE ||| PROCESS_QUERY_LIMITED_INFORMATION
              ||| PROCESS_SUSPEND_RESUME
           else PROCESS_VM_READ ||| PROCESS_VM_WRITE ||| PROCESS_QUERY_LIMITED_INFORMATION)
          false t.pid ∧
        (debugcontrol_WaitForEvent os w c flags timeout).2.1 =
          { c with targets := { t with handle := h } :: rest } ∧
        (debugcontrol_WaitForEvent os w c flags timeout).2.2.allocs = w.allocs ∧
        (debugcontrol_WaitForEvent os w c flags timeout).1 =
          (if h = 0 then E_UNEXPECTED else S_OK) ∧
        ∃ st, (debugcontrol_WaitForEvent os w c flags timeout).2.2.calls =
          w.calls ++
            OsCall.OpenProcess
              (if t.attach_flags &&& DEBUG_ATTACH_NONINVASIVE_NO_SUSPEND = 0 then
                PROCESS_VM_READ ||| PROCESS_VM_WRITE ||| PROCESS_QUERY_LIMITED_INFORMATION
                  ||| PROCESS_SUSPEND_RESUME
               else PROCESS_VM_READ ||| PROCESS_VM_WRITE ||| PROCESS_QUERY_LIMITED_INFORMATION)
              false t.pid h ::
            (if h ≠ 0 ∧ t.attach_flags &&& DEBUG_ATTACH_NONINVASIVE_NO_SUSPEND = 0
              then [OsCall.NtSuspendProcess h st] else [])) := by
  by_cases h1 : t.attach_flags &&& DEBUG_ATTACH_NONINVASIVE = 0
  · left
    simp [debugcontrol_WaitForEvent, debug_client_get_target, list_empty, list_head, hc, h1]
  · right
    refine ⟨h1, _, rfl, ?_⟩
    by_cases h2 : t.attach_flags &&& DEBUG_ATTACH_NONINVASIVE_NO_SUSPEND = 0
    · by_cases h3 : os.OpenProcess w (PROCESS_VM_READ ||| PROCESS_VM_WRITE |||
          PROCESS_QUERY_LIMITED_INFORMATION ||| PROCESS_SUSPEND_RESUME) false t.pid = 0
      · simp [debugcontrol_WaitForEvent, debug_client_get_target, list_empty, list_head, hc,
          h1, h2, h3, World.call, store_target]
      · simp [debugcontrol_WaitForEvent, debug_client_get_target, list_empty, list_head, hc,
          h1, h2, h3, World.call, store_target]
    · by_cases h3 : os.OpenProcess w (PROCESS_VM_READ ||| PROCESS_VM_WRITE |||
          PROCESS_QUERY_LIMITED_INFORMATION) false t.pid = 0
      · simp [debugcontrol_WaitForEvent, debug_client_get_target, list_empty, list_head, hc,
          h1, h2, h3, World.call, store_target]
      · simp [debugcontrol_WaitForEvent, debug_client_get_target, list_empty, list_head, hc,
          h1, h2, h3, World.call, store_target]

/-- C3: `WaitForEvent` returns `E_UNEXPECTED` when the list of targets is
empty.  Otherwise only the head target counts (the result is the same as on
the list that holds the head alone): `E_NOTIMPL` when its attach flags lack
`DEBUG_ATTACH_NONINVASIVE`; else `OpenProcess` is called once, and the result
is `E_UNEXPECTED` when it returned `NULL` and `S_OK` when it returned a
handle; whenever `NtSuspendProcess` was called the result is `S_OK`, whatever
status it returned. -/
theorem debugcontrol_WaitForEvent_result (os : OS) (w : World) (c : debug_client)
    (flags timeout : Nat) :
    (c.targets = [] → (debugcontrol_WaitForEvent os w c flags timeout).1 = E_UNEXPECTED) ∧
    (∀ t rest, c.targets = t :: rest →
      (t.attach_flags &&& DEBUG_ATTACH_NONINVASIVE = 0 →
        (debugcontrol_WaitForEvent os w c flags timeout).1 = E_NOTIMPL) ∧
      (t.attach_flags &&& DEBUG_ATTACH_NONINVASIVE ≠ 0 →
        ∃ a h,
          (World.calls_since w (debugcontrol_WaitForEvent os w c flags timeout).2.2).filter
            OsCall.isOpenProcess = [OsCall.OpenProcess a false t.pid h] ∧
          (h = 0 → (debugcontrol_WaitForEvent os w c flags timeout).1 = E_UNEXPECTED) ∧
          (h ≠ 0 → (debugcontrol_WaitForEvent os w c flags timeout).1 = S_OK)) ∧
      (∀ h st, OsCall.NtSuspendProcess h st ∈
          World.calls_since w (debugcontrol_WaitForEvent os w c flags timeout).2.2 →
        (debugcontrol_WaitForEvent os w c flags timeout).1 = S_OK) ∧
      (debugcontrol_WaitForEvent os w c flags timeout).1 =
        (debugcontrol_WaitForEvent os w { c with targets := [t] } flags timeout).1) := by
  refine ⟨fun h0 => ?_, fun t rest hc => ?_⟩
  · simp [debugcontrol_WaitForEvent, debug_client_get_target, list_empty, list_head, h0]
  · have hsame : (debugcontrol_WaitForEvent os w c flags timeout).1 =
        (debugcontrol_WaitForEvent os w { c with targets := [t] } flags timeout).1 := by
      simp only [debugcontrol_WaitForEvent, debug_client_get_target, list_empty, list_head, hc,
        List.isEmpty_cons, List.head?_cons]
      simp only [Bool.false_eq_true, if_false]
      split_ifs <;> rfl
    rcases WaitForEvent_cases os w c flags timeout t rest hc with
      ⟨h1, hr⟩ | ⟨h1, h, -, -, -, hres, st, hcalls⟩
    · refine ⟨fun _ => by rw [hr], fun h1n => absurd h1 h1n, ?_, hsame⟩
      intro h st hmem
      rw [hr] at hmem
      simp [calls_since_self] at hmem
    · rw [calls_since_append w _ _ hcalls]
      refine ⟨fun h1z => absurd h1z h1, ?_, ?_, hsame⟩
      · intro _
        refine ⟨(if t.attach_flags &&& DEBUG_ATTACH_NONINVASIVE_NO_SUSPEND = 0 then
            PROCESS_VM_READ ||| PROCESS_VM_WRITE ||| PROCESS_QUERY_LIMITED_INFORMATION
              ||| PROCESS_SUSPEND_RESUME
           else PROCESS_VM_READ ||| PROCESS_VM_WRITE ||| PROCESS_QUERY_LIMITED_INFORMATION),
          h, ?_, fun hz => by rw [hres, if_pos hz], fun hz => by rw [hres, if_neg hz]⟩
        split_ifs <;> simp [OsCall.isOpenProcess, List.filter]
      · intro h' st' hmem
        have hnz : h ≠ 0 := by
          by_contra hz
          simp [hz] at hmem
        rw [hres, if_neg hnz]

/-- The statement of C3 on the example system: no target, and a head target
attached without `DEBUG_ATTACH_NONINVASIVE`. -/
theorem debugcontrol_WaitForEvent_result_witness :
    (debugcontrol_WaitForEvent exampleOS World.start DebugCreate_client 0 0).1 = E_UNEXPECTED ∧
    (debugcontrol_WaitForEvent exampleOS World.start
      { DebugCreate_client with
        targets := [{ target_process_zero with pid := 5, attach_flags := 2 }] } 0 0).1
      = E_NOTIMPL :=
  ⟨(debugcontrol_WaitForEvent_result exampleOS World.start DebugCreate_client 0 0).1 rfl,
   ((debugcontrol_WaitForEvent_result exampleOS World.start
      { DebugCreate_client with
        targets := [{ target_process_zero with pid := 5, attach_flags := 2 }] } 0 0).2
      _ _ rfl).1 (by decide)⟩

/-- C4: on a client with a head target, `WaitForEvent` calls `OpenProcess` if
and only if the attach flags of the head contain `DEBUG_ATTACH_NONINVASIVE`;
the call has the pid of the head and the access mask `PROCESS_VM_READ |
PROCESS_VM_WRITE | PROCESS_QUERY_LIMITED_INFORMATION`, with
`PROCESS_SUSPEND_RESUME` added exactly when
`DEBUG_ATTACH_NONINVASIVE_NO_SUSPEND` is not set; `NtSuspendProcess` is called
if and only if the open returned a handle and
`DEBUG_ATTACH_NONINVASIVE_NO_SUSPEND` is not set; with a head that lacks
`DEBUG_ATTACH_NONINVASIVE` the client and the history are unchanged. -/
theorem debugcontrol_WaitForEvent_calls (os : OS) (w : World) (c : debug_client)
    (flags timeout : Nat) (t : target_process) (rest : List target_process)
    (hc : c.targets = t :: rest) :
    ((World.calls_since w (debugcontrol_WaitForEvent os w c flags timeout).2.2).any
        OsCall.isOpenProcess = true ↔ t.attach_flags &&& DEBUG_ATTACH_NONINVASIVE ≠ 0) ∧
    (∀ a i p h, OsCall.OpenProcess a i p h ∈
        World.calls_since w (debugcontrol_WaitForEvent os w c flags timeout).2.2 →
      p = t.pid ∧
      a = (if t.attach_flags &&& DEBUG_ATTACH_NONINVASIVE_NO_SUSPEND = 0 then
            PROCESS_VM_READ ||| PROCESS_VM_WRITE ||| PROCESS_QUERY_LIMITED_INFORMATION
              ||| PROCESS_SUSPEND_RESUME
           else PROCESS_VM_READ ||| PROCESS_VM_WRITE ||| PROCESS_QUERY_LIMITED_INFORMATION) ∧
      (a &&& PROCESS_SUSPEND_RESUME ≠ 0 ↔
        t.attach_flags &&& DEBUG_ATTACH_NONINVASIVE_NO_SUSPEND = 0)) ∧
    ((World.calls_since w (debugcontrol_WaitForEvent os w c flags timeout).2.2).any
        OsCall.isSuspend = true ↔
      (∃ a i p h, OsCall.OpenProcess a i p h ∈
          World.calls_since w (debugcontrol_WaitForEvent os w c flags timeout).2.2 ∧ h ≠ 0) ∧
        t.attach_flags &&& DEBUG_ATTACH_NONINVASIVE_NO_SUSPEND = 0) ∧
    (t.attach_flags &&& DEBUG_ATTACH_NONINVASIVE = 0 →
      (debugcontrol_WaitForEvent os w c flags timeout).2.1 = c ∧
      (debugcontrol_WaitForEvent os w c flags timeout).2.2 = w) := by
  rcases WaitForEvent_cases os w c flags timeout t rest hc with
    ⟨h1, hr⟩ | ⟨h1, h, -, -, -, -, st, hcalls⟩
  · rw [hr]
    simp [calls_since_self, h1]
  · rw [calls_since_append w _ _ hcalls]
    refine ⟨?_, ?_, ?_, fun h1z => absurd h1z h1⟩
    · simp [OsCall.isOpenProcess, h1]
    · intro a i p h' hmem
      by_cases h2 : t.attach_flags &&& DEBUG_ATTACH_NONINVASIVE_NO_SUSPEND = 0 <;>
      by_cases h3 : h = 0 <;>
      simp [h2, h3] at hmem ⊢ <;>
      obtain ⟨rfl, -, rfl, -⟩ := hmem <;>
      simp <;> decide
    · by_cases h2 : t.attach_flags &&& DEBUG_ATTACH_NONINVASIVE_NO_SUSPEND = 0 <;>
      by_cases h3 : h = 0 <;>
      simp [h2, h3, OsCall.isSuspend, OsCall.isOpenProcess]
      exact ⟨_, _, h, ⟨rfl, rfl, rfl⟩, h3⟩

/-- The statement of C4 on the example system, with a head target of pid 5
attached with `DEBUG_ATTACH_NONINVASIVE`: `OpenProcess` is called. -/
theorem debugcontrol_WaitForEvent_calls_witness :
    (World.calls_since World.start
      (debugcontrol_WaitForEvent exampleOS World.start
        { DebugCreate_client with
          targets := [{ target_process_zero with pid := 5, attach_flags := 1 }] } 0 0).2.2).any
      OsCall.isOpenProcess = true :=
  (debugcontrol_WaitForEvent_calls exampleOS World.start
    { DebugCreate_client with
      targets := [{ target_process_zero with pid := 5, attach_flags := 1 }] } 0 0
    { target_process_zero with pid := 5, attach_flags := 1 } [] rfl).1.mpr (by decide)

/-! ## Detaching every target -/

/-- What the loop of `DetachProcesses` does to a list of targets. -/
theorem DetachProcesses_loop_spec (os : OS) (l : List target_process) :
    ∀ w : World,
      (debugclient_DetachProcesses_loop os w l).1 = l.map (fun t => { t with handle := 0 }) ∧
      (debugclient_DetachProcesses_loop os w l).2.allocs = w.allocs ∧
      ∃ evs, (debugclient_DetachProcesses_loop os w l).2.calls = w.calls ++ evs ∧
        ∀ t ∈ l, t.handle ≠ 0 → ∃ b, OsCall.CloseHandle t.handle b ∈ evs := by
  induction l with
  | nil =>
    intro w
    exact ⟨rfl, rfl, [], by simp [debugclient_DetachProcesses_loop], by simp⟩
  | cons t rest ih =>
    intro w
    obtain ⟨ih1, ih2, evs, ih3, ih4⟩ := ih (debug_client_detach_target os w t).2
    obtain ⟨d1, d2, d3⟩ := detach_target_cases os w t
    have hhead : ∃ evs0, (debug_client_detach_target os w t).2.calls = w.calls ++ evs0 ∧
        (t.handle ≠ 0 → ∃ b, OsCall.CloseHandle t.handle b ∈ evs0) := by
      rcases d3 with ⟨hz, he⟩ | ⟨_, _, st, b, he⟩ | ⟨_, _, b, he⟩
      · exact ⟨[], by rw [he]; simp, fun hn => absurd hz hn⟩
      · exact ⟨_, he, fun _ => ⟨b, by simp⟩⟩
      · exact ⟨_, he, fun _ => ⟨b, by simp⟩⟩
    obtain ⟨evs0, he0, hc0⟩ := hhead
    refine ⟨?_, ?_, evs0 ++ evs, ?_, ?_⟩
    · simp only [debugclient_DetachProcesses_loop, List.map_cons, ih1, d1]
    · simp only [debugclient_DetachProcesses_loop, ih2, d2]
    · simp only [debugclient_DetachProcesses_loop, ih3, he0, List.append_assoc]
    · intro t' ht' hn
      rcases List.mem_cons.mp ht' with rfl | hr
      · obtain ⟨b, hb⟩ := hc0 hn
        exact ⟨b, List.mem_append_left _ hb⟩
      · obtain ⟨b, hb⟩ := ih4 t' hr hn
        exact ⟨b, List.mem_append_right _ hb⟩

/-- C6: `DetachProcesses` returns `S_OK` on every client, the one without
targets included.  It detaches every target of the list (for each target
that had a handle, `CloseHandle` was called on that handle) and removes none:
the list has the same length and order, every target keeps its pid, attach
flags and module info, every handle is `NULL`; `engine_options`, `refcount`
and `event_callbacks` are unchanged. -/
theorem debugclient_DetachProcesses_all (os : OS) (w : World) (c : debug_client) :
    (debugclient_DetachProcesses os w c).1 = S_OK ∧
    (debugclient_DetachProcesses os w c).2.1.targets.length = c.targets.length ∧
    (debugclient_DetachProcesses os w c).2.1.targets =
      c.targets.map (fun t => { t with handle := 0 }) ∧
    (∀ t ∈ c.targets, t.handle ≠ 0 → ∃ b, OsCall.CloseHandle t.handle b ∈
      World.calls_since w (debugclient_DetachProcesses os w c).2.2) ∧
    (∀ t ∈ (debugclient_DetachProcesses os w c).2.1.targets, t.handle = 0) ∧
    (debugclient_DetachProcesses os w c).2.1.engine_options = c.engine_options ∧
    (debugclient_DetachProcesses os w c).2.1.refcount = c.refcount ∧
    (debugclient_DetachProcesses os w c).2.1.event_callbacks = c.event_callbacks := by
  obtain ⟨h1, -, evs, h3, h4⟩ := DetachProcesses_loop_spec os c.targets w
  have hcs : World.calls_since w (debugclient_DetachProcesses os w c).2.2 = evs :=
    calls_since_append w _ evs (by simpa [debugclient_DetachProcesses] using h3)
  refine ⟨rfl, ?_, ?_, ?_, ?_, rfl, rfl, rfl⟩
  · simp [debugclient_DetachProcesses, h1]
  · simp [debugclient_DetachProcesses, h1]
  · rw [hcs]
    exact h4
  · simp only [debugclient_DetachProcesses, h1]
    intro t ht
    obtain ⟨t0, -, rfl⟩ := List.mem_map.mp ht
    rfl

/-- The statement of C6 on the example system: two targets, the second one
(not the head) with the open handle 109, which is closed. -/
theorem debugclient_DetachProcesses_all_witness :
    ∃ b, OsCall.CloseHandle 109 b ∈
      World.calls_since World.start
        (debugclient_DetachProcesses exampleOS World.start
          { DebugCreate_client with
            targets := [{ target_process_zero with pid := 5, attach_flags := 1 },
                        { target_process_zero with pid := 9, attach_flags := 5,
                                                   handle := 109 }] }).2.2 :=
  (debugclient_DetachProcesses_all exampleOS World.start
    { DebugCreate_client with
      targets := [{ target_process_zero with pid := 5, attach_flags := 1 },
                  { target_process_zero with pid := 9, attach_flags := 5, handle := 109 }] }).2.2.2.1
    { target_process_zero with pid := 9, attach_flags := 5, handle := 109 }
    (by simp) (by decide)

/-! ## Attach, wait, detach -/

/-- C1: on a fresh client, for every pid and all attach flags, in the
sequence `AttachProcess(0, pid, flags)`, `WaitForEvent`, `DetachProcesses`
in which the `OpenProcess` of `WaitForEvent` returned a handle `h`,
`NtResumeProcess` is called on `h` exactly once if `WaitForEvent` called
`NtSuspendProcess` on `h` and not at all otherwise, `CloseHandle` is called
on `h` exactly once, and afterwards the one target has its handle `NULL`. -/
theorem attach_wait_detach_balanced (os : OS) (w0 : World)
    (pid flags wflags timeout : Nat) (a : Nat) (i : Bool) (p h : Nat)
    (hopen : OsCall.OpenProcess a i p h ∈
      World.calls_since (seq_attach os w0 pid flags).2.2
        (seq_wait os w0 pid flags wflags timeout).2.2)
    (hh : h ≠ 0) :
    (World.calls_since w0 (seq_detach os w0 pid flags wflags timeout).2.2).countP
        (OsCall.isResumeOf h) =
      (if (World.calls_since (seq_attach os w0 pid flags).2.2
            (seq_wait os w0 pid flags wflags timeout).2.2).any (OsCall.isSuspendOf h)
        then 1 else 0) ∧
    (World.calls_since w0 (seq_detach os w0 pid flags wflags timeout).2.2).countP
        (OsCall.isCloseOf h) = 1 ∧
    (seq_detach os w0 pid flags wflags timeout).2.1.targets =
      [{ pid := pid, attach_flags := flags, handle := 0,
         modules := { info := none, loaded := 0, unloaded := 0, initialized := false } }] := by
  by_cases halloc : os.heap_alloc w0 os.sizeof_target_process = true
  swap
  · exfalso
    simp [seq_wait, seq_attach, debugclient_AttachProcess, halloc, debugcontrol_WaitForEvent,
      debug_client_get_target, list_empty, DebugCreate_client, World.calls_since] at hopen
  · have hatt : seq_attach os w0 pid flags =
        (S_OK, ⟨1, 0, [⟨pid, flags, 0, ⟨none, 0, 0, false⟩⟩], 0⟩,
         w0.alloc os.sizeof_target_process true) := by
      simp [seq_attach, debugclient_AttachProcess, halloc, list_add_head, DebugCreate_client,
        target_process_zero]
    have hw1 : (w0.alloc os.sizeof_target_process true).calls = w0.calls := rfl
    have hsw : seq_wait os w0 pid flags wflags timeout =
        debugcontrol_WaitForEvent os (w0.alloc os.sizeof_target_process true)
          ⟨1, 0, [⟨pid, flags, 0, ⟨none, 0, 0, false⟩⟩], 0⟩ wflags timeout := by
      simp only [seq_wait, hatt]
    have hsd : seq_detach os w0 pid flags wflags timeout =
        debugclient_DetachProcesses os
          (debugcontrol_WaitForEvent os (w0.alloc os.sizeof_target_process true)
            ⟨1, 0, [⟨pid, flags, 0, ⟨none, 0, 0, false⟩⟩], 0⟩ wflags timeout).2.2
          (debugcontrol_WaitForEvent os (w0.alloc os.sizeof_target_process true)
            ⟨1, 0, [⟨pid, flags, 0, ⟨none, 0, 0, false⟩⟩], 0⟩ wflags timeout).2.1 := by
      simp only [seq_detach, hsw]
    rw [hsd, hsw, hatt]
    rw [hsw, hatt] at hopen
    have hcases := WaitForEvent_cases os (w0.alloc os.sizeof_target_process true)
      ⟨1, 0, [⟨pid, flags, 0, ⟨none, 0, 0, false⟩⟩], 0⟩ wflags timeout
      ⟨pid, flags, 0, ⟨none, 0, 0, false⟩⟩ [] rfl
    generalize debugcontrol_WaitForEvent os (w0.alloc os.sizeof_target_process true)
      ⟨1, 0, [⟨pid, flags, 0, ⟨none, 0, 0, false⟩⟩], 0⟩ wflags timeout = R at hcases hopen ⊢
    dsimp only at hcases hopen ⊢
    rcases hcases with ⟨h1, hr⟩ | ⟨h1, h', -, hcl, -, -, st, hcalls⟩
    · exfalso
      simp [hr, calls_since_self] at hopen
    · rw [hw1] at hcalls
      have hcs := calls_since_append (w0.alloc os.sizeof_target_process true) R.2.2 _
        (by rw [hw1]; exact hcalls)
      rw [hcs] at hopen ⊢
      have hh' : h' = h := by
        by_cases c1 : h' ≠ 0 ∧ flags &&& DEBUG_ATTACH_NONINVASIVE_NO_SUSPEND = 0 <;>
        simp [c1] at hopen <;> exact hopen.2.2.2.symm
      subst hh'
      have hdet : debugclient_DetachProcesses os R.2.2 R.2.1 =
          (S_OK,
           ⟨1, 0, [(debug_client_detach_target os R.2.2
               ⟨pid, flags, h', ⟨none, 0, 0, false⟩⟩).1], 0⟩,
           (debug_client_detach_target os R.2.2 ⟨pid, flags, h', ⟨none, 0, 0, false⟩⟩).2) := by
        simp [debugclient_DetachProcesses, hcl, debugclient_DetachProcesses_loop]
      rw [hdet]
      dsimp only
      have hd := detach_target_cases os R.2.2 ⟨pid, flags, h', ⟨none, 0, 0, false⟩⟩
      dsimp only at hd
      obtain ⟨d1, -, d3⟩ := hd
      refine ⟨?_, ?_, ?_⟩
      · rcases d3 with ⟨hz, -⟩ | ⟨-, ⟨-, h2⟩, st', b, he⟩ | ⟨-, hn, b, he⟩
        · exact absurd hz hh
        · rw [calls_since_append w0 _ _ (by rw [he, hcalls, List.append_assoc])]
          simp [h2, hh, OsCall.isResumeOf, OsCall.isSuspendOf, List.countP_cons]
        · rw [calls_since_append w0 _ _ (by rw [he, hcalls, List.append_assoc])]
          have h2 : ¬ (flags &&& DEBUG_ATTACH_NONINVASIVE_NO_SUSPEND = 0) := by
            intro h2
            exact hn ⟨h1, h2⟩
          simp [h2, OsCall.isResumeOf, OsCall.isSuspendOf, List.countP_cons]
      · rcases d3 with ⟨hz, -⟩ | ⟨-, ⟨-, h2⟩, st', b, he⟩ | ⟨-, hn, b, he⟩
        · exact absurd hz hh
        · rw [calls_since_append w0 _ _ (by rw [he, hcalls, List.append_assoc])]
          simp [h2, hh, OsCall.isCloseOf, List.countP_cons]
        · rw [calls_since_append w0 _ _ (by rw [he, hcalls, List.append_assoc])]
          have h2 : ¬ (flags &&& DEBUG_ATTACH_NONINVASIVE_NO_SUSPEND = 0) := by
            intro h2
            exact hn ⟨h1, h2⟩
          simp [h2, OsCall.isCloseOf, List.countP_cons]
      · rw [d1]

/-- The statement of C1 on the example system, for pid 5 attached with
`DEBUG_ATTACH_NONINVASIVE`: the handle 105 is opened and suspended, then
resumed once and closed once. -/
theorem attach_wait_detach_balanced_witness :
    OsCall.OpenProcess 0x1830 false 5 105 ∈
      World.calls_since (seq_attach exampleOS World.start 5 1).2.2
        (seq_wait exampleOS World.start 5 1 0 0).2.2 ∧
    (World.calls_since World.start (seq_detach exampleOS World.start 5 1 0 0).2.2).countP
      (OsCall.isResumeOf 105) = 1 ∧
    (World.calls_since World.start (seq_detach exampleOS World.start 5 1 0 0).2.2).countP
      (OsCall.isCloseOf 105) = 1 :=
  ⟨by decide,
   (attach_wait_detach_balanced exampleOS World.start 5 1 0 0 0x1830 false 5 105
      (by decide) (by decide)).1.trans (by decide),
   (attach_wait_detach_balanced exampleOS World.start 5 1 0 0 0x1830 false 5 105
      (by decide) (by decide)).2.1⟩

/-! ## Enumerating the modules -/

theorem allocs_since_append (w w1 : World) (l : List (Nat × Bool))
    (h : w1.allocs = w.allocs ++ l) : World.allocs_since w w1 = l := by
  simp [World.allocs_since, h]

theorem write_buffer_length (buf written : List Nat) :
    (write_buffer buf written).length = buf.length := by
  simp only [write_buffer, List.length_append, List.length_take, List.length_drop]
  omega

theorem write_buffer_getD (buf written : List Nat) (k m : Nat) (hk : k < buf.length)
    (hm : written[k]? = some m) : (write_buffer buf written).getD k 0 = m := by
  have hkw : k < written.length := by
    by_contra hcon
    rw [List.getElem?_eq_none (by omega)] at hm
    exact Option.noConfusion hm
  have hlen : k < (written.take buf.length).length := by
    rw [List.length_take]
    omega
  rw [List.getD_eq_getElem?_getD, write_buffer, List.getElem?_append_left hlen,
    List.getElem?_take_of_lt hk, hm]
  rfl

/-- What the loop of `debug_target_init_modules_info` does: `n` calls of
`GetModuleInformation`, one for each index from `i` on, in order; the entry of
an index whose call succeeded holds what the call reported, the entry of an
index whose call failed and the entries below `i` are as before. -/
theorem init_modules_loop_spec (os : OS) (handle : Nat) (modules : List Nat) :
    ∀ (n i : Nat) (w : World) (info : List module_info),
      (init_modules_loop os handle modules n i w info).1.length = info.length ∧
      (init_modules_loop os handle modules n i w info).2.allocs = w.allocs ∧
      (∀ j, j < i → (init_modules_loop os handle modules n i w info).1[j]? = info[j]?) ∧
      ∃ evs, (init_modules_loop os handle modules n i w info).2.calls = w.calls ++ evs ∧
        evs.length = n ∧
        ∀ k, k < n → ∃ res,
          evs[k]? = some (OsCall.GetModuleInformation handle (modules.getD (i + k) 0) res) ∧
          (∀ mi, res = some mi → i + k < info.length →
            (init_modules_loop os handle modules n i w info).1[i + k]? =
              some { Base := mi.lpBaseOfDll, Size := mi.SizeOfImage }) ∧
          (res = none →
            (init_modules_loop os handle modules n i w info).1[i + k]? = info[i + k]?) := by
  intro n
  induction n with
  | zero =>
    intro i w info
    exact ⟨rfl, rfl, fun _ _ => rfl, [], by simp [init_modules_loop], rfl,
      fun k hk => absurd hk (Nat.not_lt_zero k)⟩
  | succ n ih =>
    intro i w info
    cases hres : os.GetModuleInformation w handle (modules.getD i 0) with
    | none =>
      obtain ⟨ih1, ih2, ih3, evs, ih4, ih5, ih6⟩ := ih (i + 1)
        (w.call (OsCall.GetModuleInformation handle (modules.getD i 0) none)) info
      have hstep : init_modules_loop os handle modules (n + 1) i w info =
          init_modules_loop os handle modules n (i + 1)
            (w.call (OsCall.GetModuleInformation handle (modules.getD i 0) none)) info := by
        simp only [init_modules_loop, hres]
      rw [hstep]
      refine ⟨ih1, ih2, fun j hj => ih3 j (by omega),
        OsCall.GetModuleInformation handle (modules.getD i 0) none :: evs, ?_, ?_, ?_⟩
      · rw [ih4]
        simp [World.call]
      · simp [ih5]
      · intro k hk
        cases k with
        | zero =>
          refine ⟨none, by simp, fun mi hmi => Option.noConfusion hmi, fun _ => ?_⟩
          exact ih3 i (by omega)
        | succ k =>
          obtain ⟨res, e1, e2, e3⟩ := ih6 k (by omega)
          have hidx : i + (k + 1) = i + 1 + k := by omega
          rw [hidx]
          exact ⟨res, by simpa using e1, e2, e3⟩
    | some mi0 =>
      obtain ⟨ih1, ih2, ih3, evs, ih4, ih5, ih6⟩ := ih (i + 1)
        (w.call (OsCall.GetModuleInformation handle (modules.getD i 0) (some mi0)))
        (info.set i { Base := mi0.lpBaseOfDll, Size := mi0.SizeOfImage })
      have hstep : init_modules_loop os handle modules (n + 1) i w info =
          init_modules_loop os handle modules n (i + 1)
            (w.call (OsCall.GetModuleInformation handle (modules.getD i 0) (some mi0)))
            (info.set i { Base := mi0.lpBaseOfDll, Size := mi0.SizeOfImage }) := by
        simp only [init_modules_loop, hres]
      rw [hstep]
      refine ⟨by rw [ih1, List.length_set], ih2, fun j hj => ?_,
        OsCall.GetModuleInformation handle (modules.getD i 0) (some mi0) :: evs, ?_, ?_, ?_⟩
      · rw [ih3 j (by omega), List.getElem?_set_ne (by omega)]
      · rw [ih4]
        simp [World.call]
      · simp [ih5]
      · intro k hk
        cases k with
        | zero =>
          refine ⟨some mi0, by simp, fun mi hmi hlt => ?_, fun hn => Option.noConfusion hn⟩
          simp only [Nat.add_zero] at hlt ⊢
          rw [ih3 i (by omega), List.getElem?_set]
          cases hmi
          simp [hlt]
        | succ k =>
          obtain ⟨res, e1, e2, e3⟩ := ih6 k (by omega)
          have hidx : i + (k + 1) = i + 1 + k := by omega
          rw [hidx]
          refine ⟨res, by simpa using e1, fun mi hmi hlt => ?_, fun hn => ?_⟩
          · exact e2 mi hmi (by rw [List.length_set]; exact hlt)
          · rw [e3 hn, List.getElem?_set_ne (by omega)]

/-- The run of `debug_target_init_modules_info` in which nothing fails, with
its intermediate values named. -/
theorem init_modules_info_success (os : OS) (w : World) (t : target_process)
    (hi : t.modules.initialized = false) (hh : t.handle ≠ 0)
    (r1 : EnumResult) (hr1 : r1 = os.EnumProcessModules w t.handle 0)
    (hn : r1.needed.getD 0 ≠ 0)
    (count : Nat) (hcount : count = (r1.needed.getD 0 / os.sizeof_HMODULE) % 2 ^ 32)
    (w1 : World) (hw1 : w1 = w.call (OsCall.EnumProcessModules t.handle 0 r1))
    (size1 : Nat) (hs1 : size1 = os.size_mul count os.sizeof_HMODULE)
    (ok1 : os.heap_alloc w1 size1 = true)
    (w2 : World) (hw2 : w2 = w1.alloc size1 true)
    (size2 : Nat) (hs2 : size2 = os.size_mul count os.sizeof_module_info)
    (ok2 : os.heap_alloc w2 size2 = true)
    (w3 : World) (hw3 : w3 = w2.alloc size2 true)
    (r2 : EnumResult) (hr2 : r2 = os.EnumProcessModules w3 t.handle (size1 % 2 ^ 32))
    (w4 : World)
    (hw4 : w4 = w3.call (OsCall.EnumProcessModules t.handle (size1 % 2 ^ 32) r2)) :
    debug_target_init_modules_info os w t =
      (S_OK,
       { t with modules :=
          { info := some
              (if r2.ret then
                init_modules_loop os t.handle
                  (write_buffer ((List.range count).map (os.heap_garbage w2)) r2.written)
                  count 0 w4 (List.replicate count { Base := 0, Size := 0 })
               else (List.replicate count { Base := 0, Size := 0 }, w4)).1,
            loaded := count, unloaded := 0, initialized := true } },
       (if r2.ret then
          init_modules_loop os t.handle
            (write_buffer ((List.range count).map (os.heap_garbage w2)) r2.written)
            count 0 w4 (List.replicate count { Base := 0, Size := 0 })
        else (List.replicate count { Base := 0, Size := 0 }, w4)).2) := by
  subst hr1 hcount hw1 hs1 hw2 hs2 hw3 hr2 hw4
  simp only [debug_target_init_modules_info, hi, hh, hn, ok1, ok2]
  simp

/-- The same run, described: the result is `S_OK`, the array has `count`
entries, the calls are the two `EnumProcessModules` and then, when the second
one succeeded, one `GetModuleInformation` for each index below `count`, in
order, on the handle that the buffer holds at that index; an entry holds what
its call reported, or zeros when the call failed. -/
theorem init_modules_info_success_spec (os : OS) (w : World) (t : target_process)
    (hi : t.modules.initialized = false) (hh : t.handle ≠ 0)
    (r1 : EnumResult) (hr1 : r1 = os.EnumProcessModules w t.handle 0)
    (hn : r1.needed.getD 0 ≠ 0)
    (count : Nat) (hcount : count = (r1.needed.getD 0 / os.sizeof_HMODULE) % 2 ^ 32)
    (w1 : World) (hw1 : w1 = w.call (OsCall.EnumProcessModules t.handle 0 r1))
    (size1 : Nat) (hs1 : size1 = os.size_mul count os.sizeof_HMODULE)
    (ok1 : os.heap_alloc w1 size1 = true)
    (w2 : World) (hw2 : w2 = w1.alloc size1 true)
    (size2 : Nat) (hs2 : size2 = os.size_mul count os.sizeof_module_info)
    (ok2 : os.heap_alloc w2 size2 = true)
    (w3 : World) (hw3 : w3 = w2.alloc size2 true)
    (r2 : EnumResult) (hr2 : r2 = os.EnumProcessModules w3 t.handle (size1 % 2 ^ 32))
    (w4 : World)
    (hw4 : w4 = w3.call (OsCall.EnumProcessModules t.handle (size1 % 2 ^ 32) r2)) :
    ∃ (arr : List module_info) (evs : List OsCall) (buf : List Nat) (wend : World),
      debug_target_init_modules_info os w t =
        (S_OK,
         { t with modules :=
            { info := some arr, loaded := count, unloaded := 0, initialized := true } },
         wend) ∧
      arr.length = count ∧ buf.length = count ∧
      (∀ k m, k < count → r2.written[k]? = some m → buf.getD k 0 = m) ∧
      wend.calls = w.calls ++
        OsCall.EnumProcessModules t.handle 0 r1 ::
        OsCall.EnumProcessModules t.handle (size1 % 2 ^ 32) r2 :: evs ∧
      wend.allocs = w.allocs ++ [(size1, true), (size2, true)] ∧
      (r2.ret = false → evs = [] ∧ arr = List.replicate count { Base := 0, Size := 0 }) ∧
      (r2.ret = true → evs.length = count ∧
        ∀ k, k < count → ∃ res,
          evs[k]? = some (OsCall.GetModuleInformation t.handle (buf.getD k 0) res) ∧
          (∀ mi, res = some mi →
            arr[k]? = some { Base := mi.lpBaseOfDll, Size := mi.SizeOfImage }) ∧
          (res = none → arr[k]? = some { Base := 0, Size := 0 })) := by
  have hS := init_modules_info_success os w t hi hh r1 hr1 hn count hcount w1 hw1 size1 hs1 ok1
    w2 hw2 size2 hs2 ok2 w3 hw3 r2 hr2 w4 hw4
  have hw4c : w4.calls = w.calls ++
      [OsCall.EnumProcessModules t.handle 0 r1,
       OsCall.EnumProcessModules t.handle (size1 % 2 ^ 32) r2] := by
    rw [hw4, hw3, hw2, hw1]
    simp [World.call, World.alloc]
  have hw4a : w4.allocs = w.allocs ++ [(size1, true), (size2, true)] := by
    rw [hw4, hw3, hw2, hw1]
    simp [World.call, World.alloc]
  have hbl : (write_buffer ((List.range count).map (os.heap_garbage w2)) r2.written).length
      = count := by
    rw [write_buffer_length]
    simp
  have hbg : ∀ k m, k < count → r2.written[k]? = some m →
      (write_buffer ((List.range count).map (os.heap_garbage w2)) r2.written).getD k 0 = m := by
    intro k m hk hm
    exact write_buffer_getD _ _ k m (by simpa using hk) hm
  cases hret : r2.ret with
  | false =>
    rw [hret] at hS
    refine ⟨_, [], _, _, hS, ?_, hbl, hbg, ?_, ?_, fun _ => ⟨rfl, ?_⟩,
      fun hc => Bool.noConfusion hc⟩
    · simp
    · simpa using hw4c
    · simpa using hw4a
    · simp
  | true =>
    rw [hret] at hS
    obtain ⟨l1, l2, -, evs, l4, l5, l6⟩ := init_modules_loop_spec os t.handle
      (write_buffer ((List.range count).map (os.heap_garbage w2)) r2.written)
      count 0 w4 (List.replicate count { Base := 0, Size := 0 })
    refine ⟨_, evs, _, _, hS, ?_, hbl, hbg, ?_, ?_, fun hc => Bool.noConfusion hc,
      fun _ => ⟨l5, fun k hk => ?_⟩⟩
    · simpa using l1
    · simp only [if_true]
      rw [l4, hw4c]
      simp
    · simp only [if_true]
      rw [l2, hw4a]
    · obtain ⟨res, e1, e2, e3⟩ := l6 k hk
      simp only [Nat.zero_add, if_true] at e1 e2 e3 ⊢
      refine ⟨res, e1, fun mi hmi => e2 mi hmi (by simpa using hk), fun hnone => ?_⟩
      rw [e3 hnone]
      simp [hk]

/-- What `debug_target_init_modules_info` does, by cases: already initialised;
no handle; no module reported; an allocation fails; or it enumerates. -/
theorem init_modules_info_cases (os : OS) (w : World) (t : target_process) :
    (t.modules.initialized = true ∧ debug_target_init_modules_info os w t = (S_OK, t, w)) ∨
    (t.modules.initialized = false ∧ t.handle = 0 ∧
      debug_target_init_modules_info os w t = (E_UNEXPECTED, t, w)) ∨
    (t.modules.initialized = false ∧ t.handle ≠ 0 ∧
      (os.EnumProcessModules w t.handle 0).needed.getD 0 = 0 ∧
      debug_target_init_modules_info os w t =
        (E_FAIL, t,
         w.call (OsCall.EnumProcessModules t.handle 0 (os.EnumProcessModules w t.handle 0)))) ∨
    (t.modules.initialized = false ∧ t.handle ≠ 0 ∧
      (os.EnumProcessModules w t.handle 0).needed.getD 0 ≠ 0 ∧
      (debug_target_init_modules_info os w t).1 = E_OUTOFMEMORY ∧
      (debug_target_init_modules_info os w t).2.1.modules.initialized = false ∧
      (debug_target_init_modules_info os w t).2.1.handle = t.handle ∧
      (debug_target_init_modules_info os w t).2.2.calls =
        w.calls ++ [OsCall.EnumProcessModules t.handle 0 (os.EnumProcessModules w t.handle 0)] ∧
      ∃ a, a ∈ World.allocs_since w (debug_target_init_modules_info os w t).2.2 ∧
        a.2 = false) ∨
    (t.modules.initialized = false ∧ t.handle ≠ 0 ∧
      (os.EnumProcessModules w t.handle 0).needed.getD 0 ≠ 0 ∧
      ∃ (cb : Nat) (r2 : EnumResult) (arr : List module_info) (evs : List OsCall)
        (buf : List Nat) (wend : World),
        debug_target_init_modules_info os w t =
          (S_OK,
           { t with modules :=
              { info := some arr,
                loaded := ((os.EnumProcessModules w t.handle 0).needed.getD 0
                  / os.sizeof_HMODULE) % 2 ^ 32,
                unloaded := 0, initialized := true } },
           wend) ∧
        arr.length = ((os.EnumProcessModules w t.handle 0).needed.getD 0
                  / os.sizeof_HMODULE) % 2 ^ 32 ∧
        buf.length = arr.length ∧
        (∀ k m, k < arr.length → r2.written[k]? = some m → buf.getD k 0 = m) ∧
        wend.calls =
          w.calls ++
            OsCall.EnumProcessModules t.handle 0 (os.EnumProcessModules w t.handle 0) ::
            OsCall.EnumProcessModules t.handle cb r2 :: evs ∧
        (r2.ret = false → evs = [] ∧ arr = List.replicate arr.length { Base := 0, Size := 0 }) ∧
        (r2.ret = true → evs.length = arr.length ∧
          ∀ k, k < arr.length → ∃ res,
            evs[k]? = some (OsCall.GetModuleInformation t.handle (buf.getD k 0) res) ∧
            (∀ mi, res = some mi →
              arr[k]? = some { Base := mi.lpBaseOfDll, Size := mi.SizeOfImage }) ∧
            (res = none → arr[k]? = some { Base := 0, Size := 0 }))) := by
  by_cases hi : t.modules.initialized = true
  · left
    exact ⟨hi, by simp [debug_target_init_modules_info, hi]⟩
  right
  have hi' : t.modules.initialized = false := by simpa using hi
  by_cases hh : t.handle = 0
  · left
    exact ⟨hi', hh, by simp [debug_target_init_modules_info, hi', hh]⟩
  right
  by_cases hn : (os.EnumProcessModules w t.handle 0).needed.getD 0 = 0
  · left
    exact ⟨hi', hh, hn, by simp [debug_target_init_modules_info, hi', hh, hn]⟩
  right
  by_cases ok1 : os.heap_alloc
      (w.call (OsCall.EnumProcessModules t.handle 0 (os.EnumProcessModules w t.handle 0)))
      (os.size_mul (((os.EnumProcessModules w t.handle 0).needed.getD 0
        / os.sizeof_HMODULE) % 2 ^ 32) os.sizeof_HMODULE) = true
  swap
  · left
    have ok1' := Bool.eq_false_iff.mpr ok1
    have hR : debug_target_init_modules_info os w t =
        (E_OUTOFMEMORY, t,
         (w.call (OsCall.EnumProcessModules t.handle 0
            (os.EnumProcessModules w t.handle 0))).alloc
          (os.size_mul (((os.EnumProcessModules w t.handle 0).needed.getD 0
            / os.sizeof_HMODULE) % 2 ^ 32) os.sizeof_HMODULE) false) := by
      simp only [debug_target_init_modules_info, hi', hh, hn, ok1']
      simp
    rw [hR]
    refine ⟨hi', hh, hn, rfl, hi', rfl, rfl, ?_⟩
    simp [World.alloc, World.call, World.allocs_since]
  by_cases ok2 : os.heap_alloc
      ((w.call (OsCall.EnumProcessModules t.handle 0 (os.EnumProcessModules w t.handle 0))).alloc
        (os.size_mul (((os.EnumProcessModules w t.handle 0).needed.getD 0
          / os.sizeof_HMODULE) % 2 ^ 32) os.sizeof_HMODULE) true)
      (os.size_mul (((os.EnumProcessModules w t.handle 0).needed.getD 0
        / os.sizeof_HMODULE) % 2 ^ 32) os.sizeof_module_info) = true
  swap
  · left
    have ok2' := Bool.eq_false_iff.mpr ok2
    have hR : debug_target_init_modules_info os w t =
        (E_OUTOFMEMORY, { t with modules := { t.modules with info := none } },
         ((w.call (OsCall.EnumProcessModules t.handle 0
            (os.EnumProcessModules w t.handle 0))).alloc
          (os.size_mul (((os.EnumProcessModules w t.handle 0).needed.getD 0
            / os.sizeof_HMODULE) % 2 ^ 32) os.sizeof_HMODULE) true).alloc
          (os.size_mul (((os.EnumProcessModules w t.handle 0).needed.getD 0
            / os.sizeof_HMODULE) % 2 ^ 32) os.sizeof_module_info) false) := by
      simp only [debug_target_init_modules_info, hi', hh, hn, ok1, ok2']
      simp
    rw [hR]
    refine ⟨hi', hh, hn, rfl, hi', rfl, rfl, ?_⟩
    simp [World.alloc, World.call, World.allocs_since]
  right
  refine ⟨hi', hh, hn, ?_⟩
  obtain ⟨arr, evs, buf, wend, e1, e2, e3, e4, e5, -, e7, e8⟩ :=
    init_modules_info_success_spec os w t hi' hh _ rfl hn _ rfl _ rfl _ rfl ok1 _ rfl _ rfl
      ok2 _ rfl _ rfl _ rfl
  exact ⟨_, _, arr, evs, buf, wend, e1, e2, e3.trans e2.symm,
    fun k m hk => e4 k m (by rw [← e2]; exact hk), e5,
    fun h => ⟨(e7 h).1, by rw [e2]; exact (e7 h).2⟩,
    fun h => ⟨(e8 h).1.trans e2.symm, fun k hk => (e8 h).2 k (by rw [← e2]; exact hk)⟩⟩

/-! ## The two module queries in terms of the initialisation -/

theorem GetNumberModules_of_init (os : OS) (w : World) (c : debug_client)
    (t : target_process) (rest : List target_process) (hc : c.targets = t :: rest)
    (hr : Int) (t1 : target_process) (w1 : World)
    (hinit : debug_target_init_modules_info os w t = (hr, t1, w1)) :
    debugsymbols_GetNumberModules os w c =
      if FAILED hr then (hr, none, none, { c with targets := t1 :: rest }, w1)
      else (S_OK, some t1.modules.loaded, some t1.modules.unloaded,
            { c with targets := t1 :: rest }, w1) := by
  simp [debugsymbols_GetNumberModules, debug_client_get_target, list_empty, list_head, hc,
    hinit, store_target]

theorem GetModuleByIndex_of_init_failed (os : OS) (w : World) (c : debug_client)
    (t : target_process) (rest : List target_process) (hc : c.targets = t :: rest)
    (hr : Int) (t1 : target_process) (w1 : World) (index : Nat)
    (hinit : debug_target_init_modules_info os w t = (hr, t1, w1))
    (hf : FAILED hr = true) :
    debugsymbols_GetModuleByIndex os w c index =
      (E_INVALIDARG, none, { c with targets := t1 :: rest }, w1) := by
  simp [debugsymbols_GetModuleByIndex, debug_client_get_target, list_empty, list_head, hc,
    debug_target_get_module_info, hinit, hf, store_target]

theorem GetModuleByIndex_of_init_ge (os : OS) (w : World) (c : debug_client)
    (t : target_process) (rest : List target_process) (hc : c.targets = t :: rest)
    (hr : Int) (t1 : target_process) (w1 : World) (index : Nat)
    (hinit : debug_target_init_modules_info os w t = (hr, t1, w1))
    (hge : t1.modules.loaded ≤ index) :
    debugsymbols_GetModuleByIndex os w c index =
      (E_INVALIDARG, none, { c with targets := t1 :: rest }, w1) := by
  by_cases hf : FAILED hr = true
  · exact GetModuleByIndex_of_init_failed os w c t rest hc hr t1 w1 index hinit hf
  · simp [debugsymbols_GetModuleByIndex, debug_client_get_target, list_empty, list_head, hc,
      debug_target_get_module_info, hinit, hf, store_target, hge]

theorem GetModuleByIndex_of_init_lt (os : OS) (w : World) (c : debug_client)
    (t : target_process) (rest : List target_process) (hc : c.targets = t :: rest)
    (hr : Int) (t1 : target_process) (w1 : World) (index : Nat)
    (hinit : debug_target_init_modules_info os w t = (hr, t1, w1))
    (hf : FAILED hr = false) (hlt : index < t1.modules.loaded)
    (a : List module_info) (ha : t1.modules.info = some a)
    (e : module_info) (he : a[index]? = some e) :
    debugsymbols_GetModuleByIndex os w c index =
      (S_OK, some e.Base, { c with targets := t1 :: rest }, w1) := by
  have hnge : ¬ t1.modules.loaded ≤ index := Nat.not_le.mpr hlt
  simp [debugsymbols_GetModuleByIndex, debug_client_get_target, list_empty, list_head, hc,
    debug_target_get_module_info, hinit, hf, store_target, hnge, ha, he]

theorem FAILED_S_OK : FAILED S_OK = false := by decide
theorem FAILED_E_UNEXPECTED : FAILED E_UNEXPECTED = true := by decide
theorem FAILED_E_FAIL : FAILED E_FAIL = true := by decide
theorem FAILED_E_OUTOFMEMORY : FAILED E_OUTOFMEMORY = true := by decide

theorem GetNumberModules_world (os : OS) (w : World) (c : debug_client)
    (t : target_process) (rest : List target_process) (hc : c.targets = t :: rest) :
    (debugsymbols_GetNumberModules os w c).2.2.2.2 =
      (debug_target_init_modules_info os w t).2.2 := by
  rcases hR : debug_target_init_modules_info os w t with ⟨hr, t1, w1⟩
  rw [GetNumberModules_of_init os w c t rest hc hr t1 w1 hR]
  split_ifs <;> rfl

theorem GetModuleByIndex_of_init (os : OS) (w : World) (c : debug_client)
    (t : target_process) (rest : List target_process) (hc : c.targets = t :: rest)
    (hr : Int) (t1 : target_process) (w1 : World) (index : Nat)
    (hinit : debug_target_init_modules_info os w t = (hr, t1, w1)) :
    debugsymbols_GetModuleByIndex os w c index =
      match (if FAILED hr then none
             else if t1.modules.loaded ≤ index then none
             else match t1.modules.info with
               | none => none
               | some a => a[index]?) with
      | none => (E_INVALIDARG, none, { c with targets := t1 :: rest }, w1)
      | some e => (S_OK, some e.Base, { c with targets := t1 :: rest }, w1) := by
  by_cases hf : FAILED hr = true
  · rw [GetModuleByIndex_of_init_failed os w c t rest hc hr t1 w1 index hinit hf]
    simp [hf]
  · by_cases hge : t1.modules.loaded ≤ index
    · rw [GetModuleByIndex_of_init_ge os w c t rest hc hr t1 w1 index hinit hge]
      simp [hge]
    · cases ha : t1.modules.info with
      | none =>
        simp [debugsymbols_GetModuleByIndex, debug_client_get_target, list_empty, list_head, hc,
          debug_target_get_module_info, hinit, hf, store_target, hge, ha]
      | some a =>
        cases he : a[index]? with
        | none =>
          simp [debugsymbols_GetModuleByIndex, debug_client_get_target, list_empty, list_head,
            hc, debug_target_get_module_info, hinit, hf, store_target, hge, ha, he]
        | some e =>
          simp [debugsymbols_GetModuleByIndex, debug_client_get_target, list_empty, list_head,
            hc, debug_target_get_module_info, hinit, hf, store_target, hge, ha, he]

theorem GetModuleByIndex_world (os : OS) (w : World) (c : debug_client)
    (t : target_process) (rest : List target_process) (hc : c.targets = t :: rest)
    (index : Nat) :
    (debugsymbols_GetModuleByIndex os w c index).2.2.2 =
      (debug_target_init_modules_info os w t).2.2 := by
  rcases hR : debug_target_init_modules_info os w t with ⟨hr, t1, w1⟩
  rw [GetModuleByIndex_of_init os w c t rest hc hr t1 w1 index hR]
  split <;> rfl

theorem GetModuleByIndex_client (os : OS) (w : World) (c : debug_client)
    (t : target_process) (rest : List target_process) (hc : c.targets = t :: rest)
    (index : Nat) :
    (debugsymbols_GetModuleByIndex os w c index).2.2.1 =
      { c with targets := (debug_target_init_modules_info os w t).2.1 :: rest } := by
  rcases hR : debug_target_init_modules_info os w t with ⟨hr, t1, w1⟩
  rw [GetModuleByIndex_of_init os w c t rest hc hr t1 w1 index hR]
  split <;> rfl

/-! ## Counting the modules -/

/-- C7: for a head target with an open handle and module info that is not
initialised, when the size query `EnumProcessModules(handle, NULL, 0,
&needed)` reports `needed > 0` and every allocation of the call succeeds,
`GetNumberModules` returns `S_OK`, stores `needed / sizeof(HMODULE)` in
`*loaded` and 0 in `*unloaded`, and leaves the head target initialised with
these counts. -/
theorem debugsymbols_GetNumberModules_counts (os : OS) (w : World) (c : debug_client)
    (t : target_process) (rest : List target_process) (needed : Nat)
    (hc : c.targets = t :: rest) (hh : t.handle ≠ 0)
    (hi : t.modules.initialized = false)
    (hq : (os.EnumProcessModules w t.handle 0).needed = some needed)
    (hpos : 0 < needed) (hdw : needed < 2 ^ 32)
    (hall : ∀ a ∈ World.allocs_since w (debugsymbols_GetNumberModules os w c).2.2.2.2,
      a.2 = true) :
    (debugsymbols_GetNumberModules os w c).1 = S_OK ∧
    (debugsymbols_GetNumberModules os w c).2.1 = some (needed / os.sizeof_HMODULE) ∧
    (debugsymbols_GetNumberModules os w c).2.2.1 = some 0 ∧
    ∃ t1, (debugsymbols_GetNumberModules os w c).2.2.2.1.targets = t1 :: rest ∧
      t1.modules.initialized = true ∧
      t1.modules.loaded = needed / os.sizeof_HMODULE ∧
      t1.modules.unloaded = 0 ∧
      t1.pid = t.pid ∧ t1.attach_flags = t.attach_flags ∧ t1.handle = t.handle := by
  have hget : (os.EnumProcessModules w t.handle 0).needed.getD 0 = needed := by
    rw [hq]
    rfl
  have hmod : needed / os.sizeof_HMODULE % 2 ^ 32 = needed / os.sizeof_HMODULE :=
    Nat.mod_eq_of_lt (lt_of_le_of_lt (Nat.div_le_self _ _) hdw)
  rcases init_modules_info_cases os w t with
    ⟨h1, -⟩ | ⟨-, h2, -⟩ | ⟨-, -, h3, -⟩ | ⟨-, -, -, -, -, -, -, a, ha, haf⟩ |
    ⟨-, -, -, cb, r2, arr, evs, buf, wend, e1, -⟩
  · rw [hi] at h1
    exact Bool.noConfusion h1
  · exact absurd h2 hh
  · rw [hget] at h3
    omega
  · rw [← GetNumberModules_world os w c t rest hc] at ha
    rw [hall a ha] at haf
    exact Bool.noConfusion haf
  · rw [hget, hmod] at e1
    rw [GetNumberModules_of_init os w c t rest hc _ _ _ e1, FAILED_S_OK]
    simp

/-- The statement of C7 on the example system: the head target has the open
handle 105, the size query reports 12 bytes of 4-byte handles, and
`GetNumberModules` stores 3 and 0. -/
theorem debugsymbols_GetNumberModules_counts_witness :
    (debugsymbols_GetNumberModules exampleOS World.start
      { DebugCreate_client with
        targets := [{ target_process_zero with pid := 5, attach_flags := 1,
                                               handle := 105 }] }).1 = S_OK ∧
    (debugsymbols_GetNumberModules exampleOS World.start
      { DebugCreate_client with
        targets := [{ target_process_zero with pid := 5, attach_flags := 1,
                                               handle := 105 }] }).2.1 = some 3 ∧
    (debugsymbols_GetNumberModules exampleOS World.start
      { DebugCreate_client with
        targets := [{ target_process_zero with pid := 5, attach_flags := 1,
                                               handle := 105 }] }).2.2.1 = some 0 :=
  have h := debugsymbols_GetNumberModules_counts exampleOS World.start
    { DebugCreate_client with
      targets := [{ target_process_zero with pid := 5, attach_flags := 1, handle := 105 }] }
    { target_process_zero with pid := 5, attach_flags := 1, handle := 105 } [] 12
    rfl (by decide) rfl rfl (by decide) (by decide) (by decide)
  ⟨h.1, h.2.1, h.2.2.1⟩

/-! ## Reading one module -/

/-- C8: take an initialisation of the module info of a target (the run of
`debug_target_init_modules_info` that `GetModuleByIndex` or `GetNumberModules`
starts on a target that is not initialised) in which the second
`EnumProcessModules` call succeeded, `m` is the handle it returned at position
`index`, and the `GetModuleInformation` call number `index` succeeded with the
answer `mi`.  Then that call was made on `m`, `index` is below the loaded
count, the stored entry number `index` holds `mi.lpBaseOfDll` as `Base` and
`mi.SizeOfImage` as `Size`, and `GetModuleByIndex(index)` returns `S_OK` with
`*base = mi.lpBaseOfDll`, both when it is the call that runs this
initialisation and when it is any later call on a head target that holds the
module info that this initialisation stored. -/
theorem debugsymbols_GetModuleByIndex_reports (os : OS) (w : World)
    (t : target_process) (index : Nat)
    (hdl cb : Nat) (r2 : EnumResult) (m hdl2 m2 : Nat) (mi : MODULEINFO)
    (henum : ((World.calls_since w (debug_target_init_modules_info os w t).2.2).filter
        OsCall.isEnumProcessModules)[1]? = some (OsCall.EnumProcessModules hdl cb r2))
    (hret : r2.ret = true)
    (hm : r2.written[index]? = some m)
    (hgmi : ((World.calls_since w (debug_target_init_modules_info os w t).2.2).filter
        OsCall.isGetModuleInformation)[index]? =
          some (OsCall.GetModuleInformation hdl2 m2 (some mi))) :
    m2 = m ∧
    index < (debug_target_init_modules_info os w t).2.1.modules.loaded ∧
    (∃ a, (debug_target_init_modules_info os w t).2.1.modules.info = some a ∧
      a[index]? = some { Base := mi.lpBaseOfDll, Size := mi.SizeOfImage }) ∧
    (∀ c rest, c.targets = t :: rest →
      (debugsymbols_GetModuleByIndex os w c index).1 = S_OK ∧
      (debugsymbols_GetModuleByIndex os w c index).2.1 = some mi.lpBaseOfDll) ∧
    (∀ w1 c1 t1 rest1, c1.targets = t1 :: rest1 →
      t1.modules = (debug_target_init_modules_info os w t).2.1.modules →
      (debugsymbols_GetModuleByIndex os w1 c1 index).1 = S_OK ∧
      (debugsymbols_GetModuleByIndex os w1 c1 index).2.1 = some mi.lpBaseOfDll) := by
  rcases init_modules_info_cases os w t with
    ⟨-, e⟩ | ⟨-, -, e⟩ | ⟨-, -, -, e⟩ | ⟨-, -, -, -, -, -, e, -⟩ |
    ⟨-, -, -, cb', r2', arr, evs, buf, wend, e1, e2, e3, e4, e5, -, e8⟩
  · rw [e] at henum
    simp [calls_since_self] at henum
  · rw [e] at henum
    simp [calls_since_self] at henum
  · rw [e] at henum
    simp [World.calls_since, World.call, List.filter, OsCall.isEnumProcessModules] at henum
  · rw [calls_since_append w _ _ e] at henum
    simp [List.filter, OsCall.isEnumProcessModules] at henum
  · rw [e1] at henum hgmi
    rw [calls_since_append w wend _ e5] at henum hgmi
    simp only [List.filter, OsCall.isEnumProcessModules, OsCall.isGetModuleInformation,
      List.getElem?_cons_succ, List.getElem?_cons_zero, Option.some.injEq,
      OsCall.EnumProcessModules.injEq] at henum hgmi
    obtain ⟨-, -, rfl⟩ := henum
    obtain ⟨hlen, hev⟩ := e8 hret
    have hall : ∀ a ∈ evs, OsCall.isGetModuleInformation a = true := by
      intro a ha
      obtain ⟨k, hk, hka⟩ := List.getElem_of_mem ha
      obtain ⟨res, q1, -⟩ := hev k (by rw [← hlen]; exact hk)
      rw [List.getElem?_eq_getElem hk, hka] at q1
      rw [Option.some.inj q1]
      rfl
    rw [List.filter_eq_self.mpr hall] at hgmi
    have hlt : index < arr.length := by
      by_contra hcon
      rw [List.getElem?_eq_none (by omega)] at hgmi
      exact Option.noConfusion hgmi
    obtain ⟨res, q1, q2, -⟩ := hev index hlt
    rw [hgmi] at q1
    cases q1
    have harr := q2 mi rfl
    rw [e1]
    refine ⟨e4 index m hlt hm, by rw [← e2]; exact hlt, ⟨arr, rfl, harr⟩, ?_, ?_⟩
    · intro c rest hc
      rw [GetModuleByIndex_of_init_lt os w c t rest hc _ _ _ index e1 FAILED_S_OK
        (by rw [← e2]; exact hlt) arr rfl _ harr]
      exact ⟨rfl, rfl⟩
    · intro w1 c1 t1 rest1 hc1 hmod
      have hinit1 : debug_target_init_modules_info os w1 t1 = (S_OK, t1, w1) := by
        simp [debug_target_init_modules_info, hmod]
      rw [GetModuleByIndex_of_init_lt os w1 c1 t1 rest1 hc1 _ _ _ index hinit1 FAILED_S_OK
        (by rw [hmod, ← e2]; exact hlt) arr (by rw [hmod]) _ harr]
      exact ⟨rfl, rfl⟩

/-- The statement of C8 on the example system, for index 2 and a target with
the open handle 105: the second `EnumProcessModules` returned the handles 11,
12, 13, the third `GetModuleInformation` (on 13) reported the base 53248, and
`GetModuleByIndex(2)` stores 53248. -/
theorem debugsymbols_GetModuleByIndex_reports_witness :
    (debugsymbols_GetModuleByIndex exampleOS World.start
      { DebugCreate_client with
        targets := [{ target_process_zero with pid := 5, attach_flags := 1,
                                               handle := 105 }] } 2).1 = S_OK ∧
    (debugsymbols_GetModuleByIndex exampleOS World.start
      { DebugCreate_client with
        targets := [{ target_process_zero with pid := 5, attach_flags := 1,
                                               handle := 105 }] } 2).2.1 = some 53248 :=
  (debugsymbols_GetModuleByIndex_reports exampleOS World.start
    { target_process_zero with pid := 5, attach_flags := 1, handle := 105 } 2
    105 12 { ret := true, written := [11, 12, 13], needed := some 12 } 13 105 13
    { lpBaseOfDll := 53248, SizeOfImage := 14, EntryPoint := 0 }
    (by decide) rfl rfl (by decide)).2.2.2.1
    { DebugCreate_client with
      targets := [{ target_process_zero with pid := 5, attach_flags := 1, handle := 105 }] }
    [] rfl

/-- A target of the right shape whose initialisation does not fail is
initialised afterwards, with an allocated array of `loaded` entries. -/
theorem init_modules_info_ok_wf (os : OS) (w : World) (t : target_process)
    (hwf : target_wf t)
    (hok : FAILED (debug_target_init_modules_info os w t).1 = false) :
    (debug_target_init_modules_info os w t).2.1.modules.initialized = true ∧
    ∃ a, (debug_target_init_modules_info os w t).2.1.modules.info = some a ∧
      a.length = (debug_target_init_modules_info os w t).2.1.modules.loaded := by
  rcases init_modules_info_cases os w t with
    ⟨h1, e⟩ | ⟨-, -, e⟩ | ⟨-, -, -, e⟩ | ⟨-, -, -, e, -⟩ |
    ⟨-, -, -, cb, r2, arr, evs, buf, wend, e1, e2, -⟩
  · rw [e]
    exact ⟨h1, Option.map_eq_some'.mp (hwf h1)⟩
  · rw [e, FAILED_E_UNEXPECTED] at hok
    exact Bool.noConfusion hok
  · rw [e, FAILED_E_FAIL] at hok
    exact Bool.noConfusion hok
  · rw [e, FAILED_E_OUTOFMEMORY] at hok
    exact Bool.noConfusion hok
  · rw [e1]
    exact ⟨rfl, arr, rfl, e2⟩

/-- `debug_target_init_modules_info` keeps the shape `target_wf`. -/
theorem init_modules_info_wf (os : OS) (w : World) (t : target_process)
    (hwf : target_wf t) : target_wf (debug_target_init_modules_info os w t).2.1 := by
  rcases init_modules_info_cases os w t with
    ⟨-, e⟩ | ⟨-, -, e⟩ | ⟨-, -, -, e⟩ | ⟨-, -, -, -, e, -⟩ |
    ⟨-, -, -, cb, r2, arr, evs, buf, wend, e1, e2, -⟩
  · rw [e]
    exact hwf
  · rw [e]
    exact hwf
  · rw [e]
    exact hwf
  · intro h
    rw [e] at h
    exact Bool.noConfusion h
  · rw [e1]
    exact fun _ => congrArg some e2

/-- The shape `target_wf` holds for every target of the client that
`DebugCreate` builds, and each of the five working methods keeps it for every
target of the list. -/
theorem targets_wf_preserved (os : OS) (w : World) (c : debug_client)
    (hwf : ∀ t ∈ c.targets, target_wf t) :
    (∀ t ∈ DebugCreate_client.targets, target_wf t) ∧
    (∀ server pid flags,
      ∀ t ∈ (debugclient_AttachProcess os w c server pid flags).2.1.targets, target_wf t) ∧
    (∀ flags timeout,
      ∀ t ∈ (debugcontrol_WaitForEvent os w c flags timeout).2.1.targets, target_wf t) ∧
    (∀ t ∈ (debugclient_DetachProcesses os w c).2.1.targets, target_wf t) ∧
    (∀ t ∈ (debugsymbols_GetNumberModules os w c).2.2.2.1.targets, target_wf t) ∧
    (∀ index,
      ∀ t ∈ (debugsymbols_GetModuleByIndex os w c index).2.2.1.targets, target_wf t) := by
  refine ⟨?_, ?_, ?_, ?_, ?_, ?_⟩
  · intro t ht
    simp [DebugCreate_client] at ht
  · intro server pid flags t ht
    by_cases hs : server = 0
    swap
    · simp only [debugclient_AttachProcess, hs, ne_eq, not_false_eq_true, if_true] at ht
      exact hwf t ht
    · cases hok : os.heap_alloc w os.sizeof_target_process with
      | false =>
        simp [debugclient_AttachProcess, hs, hok] at ht
        exact hwf t ht
      | true =>
        simp [debugclient_AttachProcess, hs, hok, list_add_head] at ht
        rcases ht with rfl | ht
        · intro h
          simp [target_process_zero] at h
        · exact hwf t ht
  · intro flags timeout t ht
    cases hc : c.targets with
    | nil =>
      have e : debugcontrol_WaitForEvent os w c flags timeout = (E_UNEXPECTED, c, w) := by
        simp [debugcontrol_WaitForEvent, debug_client_get_target, list_empty, hc]
      rw [e] at ht
      exact hwf t ht
    | cons t0 rest =>
      rcases WaitForEvent_cases os w c flags timeout t0 rest hc with
        ⟨-, e⟩ | ⟨-, h, -, e, -⟩
      · rw [e] at ht
        exact hwf t ht
      · rw [e] at ht
        simp only [List.mem_cons] at ht
        rcases ht with rfl | ht
        · exact hwf t0 (by rw [hc]; exact List.mem_cons_self _ _)
        · exact hwf t (by rw [hc]; exact List.mem_cons_of_mem _ ht)
  · intro t ht
    have hmap : (debugclient_DetachProcesses os w c).2.1.targets =
        c.targets.map (fun t => { t with handle := 0 }) :=
      (DetachProcesses_loop_spec os c.targets w).1
    rw [hmap] at ht
    obtain ⟨t0, ht0, rfl⟩ := List.mem_map.mp ht
    exact hwf t0 ht0
  · intro t ht
    cases hc : c.targets with
    | nil =>
      have e : debugsymbols_GetNumberModules os w c = (E_UNEXPECTED, none, none, c, w) := by
        simp [debugsymbols_GetNumberModules, debug_client_get_target, list_empty, hc]
      rw [e] at ht
      exact hwf t ht
    | cons t0 rest =>
      rcases hR : debug_target_init_modules_info os w t0 with ⟨hr, t1, w1⟩
      have hw1 : target_wf t1 := by
        have := init_modules_info_wf os w t0 (hwf t0 (by rw [hc]; exact List.mem_cons_self _ _))
        rw [hR] at this
        exact this
      rw [GetNumberModules_of_init os w c t0 rest hc hr t1 w1 hR] at ht
      have ht' : t ∈ t1 :: rest := by
        split_ifs at ht <;> exact ht
      rcases List.mem_cons.mp ht' with rfl | h
      · exact hw1
      · exact hwf t (by rw [hc]; exact List.mem_cons_of_mem _ h)
  · intro index t ht
    cases hc : c.targets with
    | nil =>
      have e : debugsymbols_GetModuleByIndex os w c index = (E_UNEXPECTED, none, c, w) := by
        simp [debugsymbols_GetModuleByIndex, debug_client_get_target, list_empty, hc]
      rw [e] at ht
      exact hwf t ht
    | cons t0 rest =>
      rw [GetModuleByIndex_client os w c t0 rest hc index] at ht
      rcases List.mem_cons.mp ht with rfl | h
      · exact init_modules_info_wf os w t0 (hwf t0 (by rw [hc]; exact List.mem_cons_self _ _))
      · exact hwf t (by rw [hc]; exact List.mem_cons_of_mem _ h)

/-- C9: for a client whose head target has its module info initialised, or
initialises it with success during the call, `GetModuleByIndex(index)`
returns `S_OK` if and only if `index` is below the loaded count of the head
target, and for every `index` at or above that count it returns
`E_INVALIDARG` and stores nothing in `*base`; so it does for `index = loaded`
and `index = loaded + 1`. -/
theorem debugsymbols_GetModuleByIndex_range (os : OS) (w : World) (c : debug_client)
    (t : target_process) (rest : List target_process)
    (hc : c.targets = t :: rest) (hwf : target_wf t)
    (hinit : t.modules.initialized = true ∨
      (debug_target_init_modules_info os w t).1 = S_OK) :
    ∃ t1, t1.modules.initialized = true ∧
      (∀ index,
        (debugsymbols_GetModuleByIndex os w c index).2.2.1.targets = t1 :: rest ∧
        ((debugsymbols_GetModuleByIndex os w c index).1 = S_OK ↔
          index < t1.modules.loaded) ∧
        (t1.modules.loaded ≤ index →
          (debugsymbols_GetModuleByIndex os w c index).1 = E_INVALIDARG ∧
          (debugsymbols_GetModuleByIndex os w c index).2.1 = none)) ∧
      (debugsymbols_GetModuleByIndex os w c t1.modules.loaded).1 = E_INVALIDARG ∧
      (debugsymbols_GetModuleByIndex os w c (t1.modules.loaded + 1)).1 = E_INVALIDARG := by
  have hok : FAILED (debug_target_init_modules_info os w t).1 = false := by
    rcases hinit with h | h
    · simp [debug_target_init_modules_info, h, FAILED_S_OK]
    · rw [h]
      exact FAILED_S_OK
  obtain ⟨hi1, a, ha, hlen⟩ := init_modules_info_ok_wf os w t hwf hok
  rcases hR : debug_target_init_modules_info os w t with ⟨hr, t1, w1⟩
  rw [hR] at hok hi1 ha hlen
  dsimp only at hok hi1 ha hlen
  have hge : ∀ index, t1.modules.loaded ≤ index →
      debugsymbols_GetModuleByIndex os w c index =
        (E_INVALIDARG, none, { c with targets := t1 :: rest }, w1) :=
    fun index h => GetModuleByIndex_of_init_ge os w c t rest hc hr t1 w1 index hR h
  refine ⟨t1, hi1, fun index => ?_, ?_, ?_⟩
  · by_cases hlt : index < t1.modules.loaded
    · have he : a[index]? = some a[index] := List.getElem?_eq_getElem (by rw [hlen]; exact hlt)
      rw [GetModuleByIndex_of_init_lt os w c t rest hc hr t1 w1 index hR hok hlt a ha _ he]
      exact ⟨rfl, ⟨fun _ => hlt, fun _ => rfl⟩, fun h => absurd hlt (Nat.not_lt.mpr h)⟩
    · rw [hge index (Nat.not_lt.mp hlt)]
      refine ⟨rfl, ⟨fun h => ?_, fun h => absurd h hlt⟩, fun _ => ⟨rfl, rfl⟩⟩
      have hne : E_INVALIDARG ≠ S_OK := by decide
      exact absurd h hne
  · rw [hge _ (Nat.le_refl _)]
  · rw [hge _ (Nat.le_succ _)]

/-- The statement of C9 on the example system: the head target gets three
modules, index 2 is answered, and the indices 3 and 4 are refused. -/
theorem debugsymbols_GetModuleByIndex_range_witness :
    (debugsymbols_GetModuleByIndex exampleOS World.start
      { DebugCreate_client with
        targets := [{ target_process_zero with pid := 5, attach_flags := 1,
                                               handle := 105 }] } 2).1 = S_OK ∧
    (debugsymbols_GetModuleByIndex exampleOS World.start
      { DebugCreate_client with
        targets := [{ target_process_zero with pid := 5, attach_flags := 1,
                                               handle := 105 }] } 3).1 = E_INVALIDARG ∧
    (debugsymbols_GetModuleByIndex exampleOS World.start
      { DebugCreate_client with
        targets := [{ target_process_zero with pid := 5, attach_flags := 1,
                                               handle := 105 }] } 4).1 = E_INVALIDARG := by
  obtain ⟨t1, -, h, -, -⟩ := debugsymbols_GetModuleByIndex_range exampleOS World.start
    { DebugCreate_client with
      targets := [{ target_process_zero with pid := 5, attach_flags := 1, handle := 105 }] }
    { target_process_zero with pid := 5, attach_flags := 1, handle := 105 } [] rfl
    (fun h => Bool.noConfusion h) (Or.inr (by decide))
  have hl : t1.modules.loaded = 3 := by
    have e := (h 0).1
    have e2 : (debugsymbols_GetModuleByIndex exampleOS World.start
      { DebugCreate_client with
        targets := [{ target_process_zero with pid := 5, attach_flags := 1,
                                               handle := 105 }] } 0).2.2.1.targets =
      [{ pid := 5, attach_flags := 1, handle := 105,
         modules := { info := some [⟨45056, 12⟩, ⟨0, 0⟩, ⟨53248, 14⟩], loaded := 3,
                      unloaded := 0, initialized := true } }] := by decide
    rw [e2] at e
    rw [← (List.cons.inj e).1]
  exact ⟨(h 2).2.1.mpr (by rw [hl]; decide), ((h 3).2.2 (by rw [hl])).1,
    ((h 4).2.2 (by rw [hl]; decide)).1⟩

/-! ## The module queries on a target that is not initialised -/

theorem store_same (c : debug_client) (t : target_process) (rest : List target_process)
    (hc : c.targets = t :: rest) : ({ c with targets := t :: rest } : debug_client) = c := by
  cases c
  simp_all

/-- C10: for a head target whose module info is not initialised.  If its
handle is `NULL`, `GetNumberModules` returns `E_UNEXPECTED`; if the handle is
open and the size query leaves `needed = 0`, it returns `E_FAIL`.  In both
cases nothing is stored in `*loaded` and `*unloaded` and the client (so the
target, which stays uninitialised) is unchanged; `GetModuleByIndex` returns
`E_INVALIDARG` for every index in both cases, which is neither of the two
initialisation errors, stores nothing in `*base` and leaves the client
unchanged. -/
theorem module_queries_uninitialized (os : OS) (w : World) (c : debug_client)
    (t : target_process) (rest : List target_process)
    (hc : c.targets = t :: rest) (hi : t.modules.initialized = false) :
    (t.handle = 0 →
      debugsymbols_GetNumberModules os w c = (E_UNEXPECTED, none, none, c, w) ∧
      ∀ index, debugsymbols_GetModuleByIndex os w c index = (E_INVALIDARG, none, c, w)) ∧
    (t.handle ≠ 0 → (os.EnumProcessModules w t.handle 0).needed.getD 0 = 0 →
      (debugsymbols_GetNumberModules os w c).1 = E_FAIL ∧
      (debugsymbols_GetNumberModules os w c).2.1 = none ∧
      (debugsymbols_GetNumberModules os w c).2.2.1 = none ∧
      (debugsymbols_GetNumberModules os w c).2.2.2.1 = c ∧
      ∀ index,
        (debugsymbols_GetModuleByIndex os w c index).1 = E_INVALIDARG ∧
        (debugsymbols_GetModuleByIndex os w c index).2.1 = none ∧
        (debugsymbols_GetModuleByIndex os w c index).2.2.1 = c) ∧
    E_INVALIDARG ≠ E_UNEXPECTED ∧ E_INVALIDARG ≠ E_FAIL := by
  refine ⟨fun hh => ?_, fun hh hn => ?_, by decide, by decide⟩
  · have e : debug_target_init_modules_info os w t = (E_UNEXPECTED, t, w) := by
      simp [debug_target_init_modules_info, hi, hh]
    refine ⟨?_, fun index => ?_⟩
    · rw [GetNumberModules_of_init os w c t rest hc _ _ _ e, FAILED_E_UNEXPECTED,
        store_same c t rest hc]
      rfl
    · rw [GetModuleByIndex_of_init_failed os w c t rest hc _ _ _ index e FAILED_E_UNEXPECTED,
        store_same c t rest hc]
  · have e : debug_target_init_modules_info os w t =
        (E_FAIL, t,
         w.call (OsCall.EnumProcessModules t.handle 0
          (os.EnumProcessModules w t.handle 0))) := by
      simp [debug_target_init_modules_info, hi, hh, hn]
    rw [GetNumberModules_of_init os w c t rest hc _ _ _ e, FAILED_E_FAIL,
      store_same c t rest hc]
    refine ⟨rfl, rfl, rfl, rfl, fun index => ?_⟩
    rw [GetModuleByIndex_of_init_failed os w c t rest hc _ _ _ index e FAILED_E_FAIL,
      store_same c t rest hc]
    exact ⟨rfl, rfl, rfl⟩

/-- The statement of C10 on the example system.  For a target that was
attached and never opened, `GetNumberModules` gives `E_UNEXPECTED` and
`GetModuleByIndex(0)` gives `E_INVALIDARG`; for a target with the open handle
108, for which the size query reports nothing, `GetNumberModules` gives
`E_FAIL` and `GetModuleByIndex(0)` gives `E_INVALIDARG`. -/
theorem module_queries_uninitialized_witness :
    debugsymbols_GetNumberModules exampleOS World.start
      { DebugCreate_client with
        targets := [{ target_process_zero with pid := 5, attach_flags := 1 }] } =
      (E_UNEXPECTED, none, none,
       { DebugCreate_client with
         targets := [{ target_process_zero with pid := 5, attach_flags := 1 }] },
       World.start) ∧
    debugsymbols_GetModuleByIndex exampleOS World.start
      { DebugCreate_client with
        targets := [{ target_process_zero with pid := 5, attach_flags := 1 }] } 0 =
      (E_INVALIDARG, none,
       { DebugCreate_client with
         targets := [{ target_process_zero with pid := 5, attach_flags := 1 }] },
       World.start) ∧
    (debugsymbols_GetNumberModules exampleOS World.start
      { DebugCreate_client with
        targets := [{ target_process_zero with pid := 8, attach_flags := 1,
                                               handle := 108 }] }).1 = E_FAIL ∧
    (debugsymbols_GetModuleByIndex exampleOS World.start
      { DebugCreate_client with
        targets := [{ target_process_zero with pid := 8, attach_flags := 1,
                                               handle := 108 }] } 0).1 = E_INVALIDARG :=
  have h := (module_queries_uninitialized exampleOS World.start
    { DebugCreate_client with
      targets := [{ target_process_zero with pid := 5, attach_flags := 1 }] }
    { target_process_zero with pid := 5, attach_flags := 1 } [] rfl rfl).1 rfl
  have h2 := (module_queries_uninitialized exampleOS World.start
    { DebugCreate_client with
      targets := [{ target_process_zero with pid := 8, attach_flags := 1, handle := 108 }] }
    { target_process_zero with pid := 8, attach_flags := 1, handle := 108 } [] rfl rfl).2.1
    (by decide) rfl
  ⟨h.1, h.2 0, h2.1, (h2.2.2.2.2 0).1⟩

/-! ## The reference count -/

theorem to_LONG_of_range (x : Int) (h1 : -2147483648 ≤ x) (h2 : x ≤ 2147483647) :
    to_LONG x = x := by
  unfold to_LONG
  omega

theorem to_ULONG_of_nonneg (x : Int) (h1 : 0 ≤ x) (h2 : x ≤ 4294967295) :
    ((to_ULONG x : Nat) : Int) = x := by
  unfold to_ULONG
  omega

theorem to_ULONG_to_LONG (x : Int) (h1 : 0 ≤ x) (h2 : x ≤ 4294967295) :
    ((to_ULONG (to_LONG x) : Nat) : Int) = x := by
  unfold to_ULONG to_LONG
  omega

theorem to_LONG_pred_succ (n : Int) (h1 : -2147483648 ≤ n) (h2 : n ≤ 2147483647) :
    to_LONG (to_LONG (n + 1) - 1) = n := by
  unfold to_LONG
  omega

/-- The loop of `Release` makes the calls of the loop of `DetachProcesses`
and leaves no target. -/
theorem Release_loop_eq (os : OS) (l : List target_process) :
    ∀ w : World, debugclient_Release_loop os w l =
      ([], (debugclient_DetachProcesses_loop os w l).2) := by
  induction l with
  | nil =>
    intro w
    rfl
  | cons t rest ih =>
    intro w
    simp only [debugclient_Release_loop, debugclient_DetachProcesses_loop, ih]

/-- The calls of the loop of `DetachProcesses` are calls of `NtResumeProcess`
and of `CloseHandle` only. -/
theorem DetachProcesses_loop_calls (os : OS) (l : List target_process) :
    ∀ w : World, ∃ evs, (debugclient_DetachProcesses_loop os w l).2.calls = w.calls ++ evs ∧
      ∀ e ∈ evs, (∃ h st, e = OsCall.NtResumeProcess h st) ∨
        (∃ h b, e = OsCall.CloseHandle h b) := by
  induction l with
  | nil =>
    intro w
    exact ⟨[], by simp [debugclient_DetachProcesses_loop], by simp⟩
  | cons t rest ih =>
    intro w
    obtain ⟨evs, ih1, ih2⟩ := ih (debug_client_detach_target os w t).2
    obtain ⟨-, -, d3⟩ := detach_target_cases os w t
    rcases d3 with ⟨-, he⟩ | ⟨-, -, st, b, he⟩ | ⟨-, -, b, he⟩
    · rw [he] at ih1
      refine ⟨evs, ?_, ih2⟩
      simp only [debugclient_DetachProcesses_loop, he]
      exact ih1
    · refine ⟨[OsCall.NtResumeProcess t.handle st, OsCall.CloseHandle t.handle b] ++ evs,
        ?_, ?_⟩
      · simp only [debugclient_DetachProcesses_loop, ih1, he, List.append_assoc]
      · intro e hmem
        simp only [List.mem_append, List.mem_cons, List.mem_singleton, List.not_mem_nil,
          or_false] at hmem
        rcases hmem with (rfl | rfl) | hmem
        · exact Or.inl ⟨_, _, rfl⟩
        · exact Or.inr ⟨_, _, rfl⟩
        · exact ih2 e hmem
    · refine ⟨[OsCall.CloseHandle t.handle b] ++ evs, ?_, ?_⟩
      · simp only [debugclient_DetachProcesses_loop, ih1, he, List.append_assoc]
      · intro e hmem
        simp only [List.mem_append, List.mem_singleton] at hmem
        rcases hmem with rfl | hmem
        · exact Or.inr ⟨_, _, rfl⟩
        · exact ih2 e hmem

theorem Release_alive (os : OS) (w : World) (c : debug_client)
    (h1 : 2 ≤ c.refcount) (h2 : c.refcount ≤ 2147483647) :
    debugclient_Release os w c =
      ((c.refcount - 1).toNat, some { c with refcount := c.refcount - 1 }, w) := by
  have hl : to_LONG (c.refcount - 1) = c.refcount - 1 :=
    to_LONG_of_range _ (by omega) (by omega)
  have hu : to_ULONG (c.refcount - 1) = (c.refcount - 1).toNat := by
    unfold to_ULONG
    omega
  have hne : (c.refcount - 1).toNat ≠ 0 := by omega
  simp only [debugclient_Release, hl, hu, hne, if_false]

theorem Release_last (os : OS) (w : World) (c : debug_client) (h1 : c.refcount = 1) :
    debugclient_Release os w c =
      (0, none,
       if c.event_callbacks ≠ 0 then
         (debugclient_DetachProcesses_loop os w c.targets).2.call
           (OsCall.CallbacksRelease c.event_callbacks)
       else (debugclient_DetachProcesses_loop os w c.targets).2) := by
  have hu : to_ULONG (to_LONG (c.refcount - 1)) = 0 := by
    rw [h1]
    decide
  simp only [debugclient_Release, hu, if_true, Release_loop_eq]

/-- The reference counting of the methods of the `IDebugClient` interface, to
which the other three interfaces pass the call. -/
theorem debugclient_refcount_core (os : OS) (w : World) (c : debug_client)
    (h1 : 1 ≤ c.refcount) (h2 : c.refcount ≤ 2147483647) :
    (((debugclient_AddRef c).1 : Nat) : Int) = c.refcount + 1 ∧
    (((debugclient_Release os w c).1 : Nat) : Int) = c.refcount - 1 ∧
    (debugclient_Release os w (debugclient_AddRef c).2).2 = (some c, w) ∧
    ((debugclient_Release os w c).2.1 = none ↔ (debugclient_Release os w c).1 = 0) ∧
    ((debugclient_Release os w c).1 = 0 →
      debugclient_Release_loop os w c.targets =
        ([], (debugclient_DetachProcesses_loop os w c.targets).2) ∧
      (debugclient_Release os w c).2.2.calls =
        (debugclient_DetachProcesses_loop os w c.targets).2.calls ++
          (if c.event_callbacks ≠ 0 then [OsCall.CallbacksRelease c.event_callbacks]
           else []) ∧
      (c.event_callbacks ≠ 0 →
        (World.calls_since w (debugclient_Release os w c).2.2).count
          (OsCall.CallbacksRelease c.event_callbacks) = 1)) ∧
    ((debugclient_Release os w c).1 ≠ 0 →
      (debugclient_Release os w c).2 = (some { c with refcount := c.refcount - 1 }, w)) := by
  refine ⟨?_, ?_, ?_, ?_, ?_, ?_⟩
  · simp only [debugclient_AddRef]
    exact to_ULONG_to_LONG _ (by omega) (by omega)
  · simp only [debugclient_Release]
    split_ifs <;> exact to_ULONG_to_LONG _ (by omega) (by omega)
  · have hr : (debugclient_AddRef c).2.refcount = to_LONG (c.refcount + 1) := rfl
    have hb : to_LONG (to_LONG (c.refcount + 1) - 1) = c.refcount :=
      to_LONG_pred_succ _ (by omega) h2
    have hu : to_ULONG c.refcount ≠ 0 := by
      unfold to_ULONG
      omega
    simp only [debugclient_Release, hr, hb, hu, if_false]
    simp [debugclient_AddRef]
  · by_cases h : c.refcount = 1
    · rw [Release_last os w c h]
      simp
    · rw [Release_alive os w c (by omega) h2]
      simp
      omega
  · intro h0
    have h : c.refcount = 1 := by
      by_contra hne
      rw [Release_alive os w c (by omega) h2] at h0
      simp at h0
      omega
    rw [Release_last os w c h]
    obtain ⟨evs, he, hev⟩ := DetachProcesses_loop_calls os c.targets w
    refine ⟨Release_loop_eq os c.targets w, ?_, ?_⟩
    · split_ifs <;> simp [World.call]
    · intro hcb
      have hcalls : (if c.event_callbacks ≠ 0 then
          (debugclient_DetachProcesses_loop os w c.targets).2.call
            (OsCall.CallbacksRelease c.event_callbacks)
          else (debugclient_DetachProcesses_loop os w c.targets).2).calls =
          w.calls ++ (evs ++ [OsCall.CallbacksRelease c.event_callbacks]) := by
        rw [if_pos hcb]
        simp [World.call, he]
      show (World.calls_since w _).count _ = 1
      rw [calls_since_append w _ _ hcalls, List.count_append]
      have hz : evs.count (OsCall.CallbacksRelease c.event_callbacks) = 0 := by
        rw [List.count_eq_zero]
        intro hmem
        rcases hev _ hmem with ⟨h, st, e⟩ | ⟨h, b, e⟩ <;> exact OsCall.noConfusion e
      rw [hz]
      simp
  · intro hne
    have h : 2 ≤ c.refcount := by
      by_contra hlt
      have h1' : c.refcount = 1 := by omega
      rw [Release_last os w c h1'] at hne
      exact hne rfl
    rw [Release_alive os w c h h2]

/-- C13: for a client with a reference count `n`, `1 ≤ n` (and `n` a `LONG`),
through any of the four interfaces: `AddRef` returns `n + 1` and `Release`
returns `n - 1`; `Release` after `AddRef` gives back the client as it was and
makes no call; `Release` frees the object if and only if it returns 0; when
it returns 0 every target of the list went through
`debug_client_detach_target`, in order, as in `DetachProcesses`, no target is
left, and the event callbacks object, when one is installed, is released
exactly once, after the targets; when it does not return 0 only the count
changes. -/
theorem refcount_AddRef_Release (os : OS) (w : World) (i : client_iface) (c : debug_client)
    (h1 : 1 ≤ c.refcount) (h2 : c.refcount ≤ 2147483647) :
    (((IUnknown_AddRef i c).1 : Nat) : Int) = c.refcount + 1 ∧
    (((IUnknown_Release os w i c).1 : Nat) : Int) = c.refcount - 1 ∧
    (IUnknown_Release os w i (IUnknown_AddRef i c).2).2 = (some c, w) ∧
    ((IUnknown_Release os w i c).2.1 = none ↔ (IUnknown_Release os w i c).1 = 0) ∧
    ((IUnknown_Release os w i c).1 = 0 →
      debugclient_Release_loop os w c.targets =
        ([], (debugclient_DetachProcesses_loop os w c.targets).2) ∧
      (IUnknown_Release os w i c).2.2.calls =
        (debugclient_DetachProcesses_loop os w c.targets).2.calls ++
          (if c.event_callbacks ≠ 0 then [OsCall.CallbacksRelease c.event_callbacks]
           else []) ∧
      (c.event_callbacks ≠ 0 →
        (World.calls_since w (IUnknown_Release os w i c).2.2).count
          (OsCall.CallbacksRelease c.event_callbacks) = 1)) ∧
    ((IUnknown_Release os w i c).1 ≠ 0 →
      (IUnknown_Release os w i c).2 = (some { c with refcount := c.refcount - 1 }, w)) := by
  cases i <;> exact debugclient_refcount_core os w c h1 h2

/-- The statement of C13 on the example system: a client with the reference
count 1, one open target and the event callbacks object 77.  `AddRef`
returns 2, `Release` returns 0, frees the object, resumes and closes the
handle 105 and then releases the callbacks object. -/
theorem refcount_AddRef_Release_witness :
    (((IUnknown_AddRef client_iface.IDebugControl2_iface
        { refcount := 1, engine_options := 0,
          targets := [{ target_process_zero with pid := 5, attach_flags := 1, handle := 105 }],
          event_callbacks := 77 }).1 : Nat) : Int) = 2 ∧
    (IUnknown_Release exampleOS World.start client_iface.IDebugDataSpaces_iface
        { refcount := 1, engine_options := 0,
          targets := [{ target_process_zero with pid := 5, attach_flags := 1, handle := 105 }],
          event_callbacks := 77 }).2.1 = none ∧
    (IUnknown_Release exampleOS World.start client_iface.IDebugDataSpaces_iface
        { refcount := 1, engine_options := 0,
          targets := [{ target_process_zero with pid := 5, attach_flags := 1, handle := 105 }],
          event_callbacks := 77 }).2.2.calls =
      [OsCall.NtResumeProcess 105 0, OsCall.CloseHandle 105 true, OsCall.CallbacksRelease 77] :=
  ⟨(refcount_AddRef_Release exampleOS World.start client_iface.IDebugControl2_iface
      { refcount := 1, engine_options := 0,
        targets := [{ target_process_zero with pid := 5, attach_flags := 1, handle := 105 }],
        event_callbacks := 77 } (by decide) (by decide)).1,
   (refcount_AddRef_Release exampleOS World.start client_iface.IDebugDataSpaces_iface
      { refcount := 1, engine_options := 0,
        targets := [{ target_process_zero with pid := 5, attach_flags := 1, handle := 105 }],
        event_callbacks := 77 } (by decide) (by decide)).2.2.2.1.mpr (by decide),
   ((refcount_AddRef_Release exampleOS World.start client_iface.IDebugDataSpaces_iface
      { refcount := 1, engine_options := 0,
        targets := [{ target_process_zero with pid := 5, attach_flags := 1, handle := 105 }],
        event_callbacks := 77 } (by decide) (by decide)).2.2.2.2.1 (by decide)).2.1.trans
      (by decide)⟩

/-! ## `QueryInterface` and `DebugCreate` -/

/-- What `debugclient_QueryInterface` does, by cases. -/
theorem QueryInterface_cases (hdr : dbgeng_h) (c : debug_client) (riid : Nat) :
    (riid ∈ supported_iids hdr ∧
      ∃ i, debugclient_QueryInterface hdr c riid = (S_OK, some i, (debugclient_AddRef c).2)) ∨
    (riid ∉ supported_iids hdr ∧
      debugclient_QueryInterface hdr c riid = (E_NOINTERFACE, none, c)) := by
  simp only [debugclient_QueryInterface, IsEqualIID, Bool.or_eq_true, decide_eq_true_eq]
  split_ifs with h1 h2 h3 h4
  · left
    refine ⟨?_, _, rfl⟩
    rcases h1 with h | h <;> simp [supported_iids, h]
  · left
    refine ⟨?_, _, rfl⟩
    simp [supported_iids, h2]
  · left
    refine ⟨?_, _, rfl⟩
    rcases h3 with (h | h) | h <;> simp [supported_iids, h]
  · left
    refine ⟨?_, _, rfl⟩
    rcases h4 with h | h <;> simp [supported_iids, h]
  · right
    refine ⟨?_, rfl⟩
    simp only [supported_iids, List.mem_cons, List.mem_singleton, List.not_mem_nil, or_false]
    tauto

theorem IUnknown_QueryInterface_eq (hdr : dbgeng_h) (i : client_iface) (c : debug_client)
    (riid : Nat) :
    IUnknown_QueryInterface hdr i c riid = debugclient_QueryInterface hdr c riid := by
  cases i <;> rfl

/-- Which interface `debugclient_QueryInterface` hands out, when the eight
identifiers are different from each other. -/
theorem QueryInterface_which (hdr : dbgeng_h) (c : debug_client) (riid : Nat)
    (hnd : (supported_iids hdr).Nodup) :
    ((riid = hdr.IID_IUnknown ∨ riid = hdr.IID_IDebugClient) →
      (debugclient_QueryInterface hdr c riid).2.1 = some client_iface.IDebugClient_iface) ∧
    (riid = hdr.IID_IDebugDataSpaces →
      (debugclient_QueryInterface hdr c riid).2.1 = some client_iface.IDebugDataSpaces_iface) ∧
    ((riid = hdr.IID_IDebugSymbols ∨ riid = hdr.IID_IDebugSymbols2 ∨
        riid = hdr.IID_IDebugSymbols3) →
      (debugclient_QueryInterface hdr c riid).2.1 = some client_iface.IDebugSymbols3_iface) ∧
    ((riid = hdr.IID_IDebugControl ∨ riid = hdr.IID_IDebugControl2) →
      (debugclient_QueryInterface hdr c riid).2.1 = some client_iface.IDebugControl2_iface) := by
  simp only [supported_iids, List.nodup_cons, List.mem_cons, List.mem_singleton, not_or,
    List.not_mem_nil, not_false_eq_true, List.nodup_nil, and_true] at hnd
  obtain ⟨⟨a1, a2, a3, a4, a5, a6, a7⟩, ⟨b2, b3, b4, b5, b6, b7⟩, ⟨c3, c4, c5, c6, c7⟩,
    ⟨d4, d5, d6, d7⟩, ⟨e5, e6, e7⟩, ⟨f6, f7⟩, g7⟩ := hnd
  refine ⟨?_, ?_, ?_, ?_⟩
  · rintro (rfl | rfl) <;> simp [debugclient_QueryInterface, IsEqualIID]
  · rintro rfl
    simp [debugclient_QueryInterface, IsEqualIID, Ne.symm a2, Ne.symm b2]
  · rintro (rfl | rfl | rfl) <;>
      simp [debugclient_QueryInterface, IsEqualIID, Ne.symm a3, Ne.symm b3, Ne.symm c3,
        Ne.symm a4, Ne.symm b4, Ne.symm c4, Ne.symm a5, Ne.symm b5, Ne.symm c5]
  · rintro (rfl | rfl) <;>
      simp [debugclient_QueryInterface, IsEqualIID, Ne.symm a6, Ne.symm b6, Ne.symm c6,
        Ne.symm d6, Ne.symm e6, Ne.symm f6, Ne.symm a7, Ne.symm b7, Ne.symm c7, Ne.symm d7,
        Ne.symm e7, Ne.symm f7]

/-- C12: through any of the four interface pointers of the client,
`QueryInterface` returns `S_OK` if and only if `riid` is one of the eight
supported identifiers.  On success it stores a pointer to an interface of the
object and makes one `AddRef`: the reference count goes up by one (as a
32-bit counter; by exactly 1 as a `LONG` below `LONG_MAX`) and nothing else
changes; when the
eight identifiers are different from each other, the interface is
`IDebugClient` for `IID_IUnknown` and `IID_IDebugClient`, `IDebugDataSpaces`
for `IID_IDebugDataSpaces`, `IDebugSymbols3` for the three `IDebugSymbols`
identifiers and `IDebugControl2` for the two `IDebugControl` identifiers.
Otherwise it returns `E_NOINTERFACE`, stores `NULL` and leaves the client as
it was. -/
theorem QueryInterface_spec (hdr : dbgeng_h) (i : client_iface) (c : debug_client)
    (riid : Nat) :
    ((IUnknown_QueryInterface hdr i c riid).1 = S_OK ↔ riid ∈ supported_iids hdr) ∧
    (riid ∈ supported_iids hdr →
      (∃ j, (IUnknown_QueryInterface hdr i c riid).2.1 = some j) ∧
      (IUnknown_QueryInterface hdr i c riid).2.2 = (debugclient_AddRef c).2 ∧
      (IUnknown_QueryInterface hdr i c riid).2.2.refcount = to_LONG (c.refcount + 1) ∧
      to_ULONG (IUnknown_QueryInterface hdr i c riid).2.2.refcount =
        (to_ULONG c.refcount + 1) % 4294967296 ∧
      (-2147483648 ≤ c.refcount → c.refcount < 2147483647 →
        (IUnknown_QueryInterface hdr i c riid).2.2.refcount = c.refcount + 1) ∧
      (IUnknown_QueryInterface hdr i c riid).2.2.engine_options = c.engine_options ∧
      (IUnknown_QueryInterface hdr i c riid).2.2.targets = c.targets ∧
      (IUnknown_QueryInterface hdr i c riid).2.2.event_callbacks = c.event_callbacks) ∧
    ((supported_iids hdr).Nodup →
      ((riid = hdr.IID_IUnknown ∨ riid = hdr.IID_IDebugClient) →
        (IUnknown_QueryInterface hdr i c riid).2.1 = some client_iface.IDebugClient_iface) ∧
      (riid = hdr.IID_IDebugDataSpaces →
        (IUnknown_QueryInterface hdr i c riid).2.1 =
          some client_iface.IDebugDataSpaces_iface) ∧
      ((riid = hdr.IID_IDebugSymbols ∨ riid = hdr.IID_IDebugSymbols2 ∨
          riid = hdr.IID_IDebugSymbols3) →
        (IUnknown_QueryInterface hdr i c riid).2.1 =
          some client_iface.IDebugSymbols3_iface) ∧
      ((riid = hdr.IID_IDebugControl ∨ riid = hdr.IID_IDebugControl2) →
        (IUnknown_QueryInterface hdr i c riid).2.1 =
          some client_iface.IDebugControl2_iface)) ∧
    (riid ∉ supported_iids hdr →
      (IUnknown_QueryInterface hdr i c riid).1 = E_NOINTERFACE ∧
      (IUnknown_QueryInterface hdr i c riid).2.1 = none ∧
      (IUnknown_QueryInterface hdr i c riid).2.2 = c) := by
  rw [IUnknown_QueryInterface_eq]
  have hne : E_NOINTERFACE ≠ S_OK := by decide
  refine ⟨?_, ?_, fun hnd => QueryInterface_which hdr c riid hnd, ?_⟩
  · rcases QueryInterface_cases hdr c riid with ⟨hm, j, e⟩ | ⟨hm, e⟩
    · rw [e]
      exact ⟨fun _ => hm, fun _ => rfl⟩
    · rw [e]
      exact ⟨fun h => absurd h hne, fun h => absurd h hm⟩
  · intro hm
    rcases QueryInterface_cases hdr c riid with ⟨-, j, e⟩ | ⟨hn, -⟩
    · rw [e]
      refine ⟨⟨j, rfl⟩, rfl, rfl, ?_, fun h1 h2 => ?_, rfl, rfl, rfl⟩
      · show to_ULONG (to_LONG (c.refcount + 1)) = (to_ULONG c.refcount + 1) % 4294967296
        unfold to_ULONG to_LONG
        omega
      · exact to_LONG_of_range _ (by omega) (by omega)
    · exact absurd hm hn
  · intro hn
    rcases QueryInterface_cases hdr c riid with ⟨hm, -⟩ | ⟨-, e⟩
    · exact absurd hm hn
    · rw [e]
      exact ⟨rfl, rfl, rfl⟩

/-- The statement of C12 on the example header (eight different
identifiers): asked through the `IDebugSymbols3` pointer for
`IID_IDebugControl`, a client with the count 1 hands out its `IDebugControl2`
interface and has the count 2; asked for an unknown identifier it refuses. -/
theorem QueryInterface_spec_witness :
    IUnknown_QueryInterface exampleHdr client_iface.IDebugSymbols3_iface DebugCreate_client
        exampleHdr.IID_IDebugControl =
      (S_OK, some client_iface.IDebugControl2_iface,
        { DebugCreate_client with refcount := 2 }) ∧
    IUnknown_QueryInterface exampleHdr client_iface.IDebugSymbols3_iface DebugCreate_client 5 =
      (E_NOINTERFACE, none, DebugCreate_client) := by
  have h := QueryInterface_spec exampleHdr client_iface.IDebugSymbols3_iface
    DebugCreate_client exampleHdr.IID_IDebugControl
  have h5 := (QueryInterface_spec exampleHdr client_iface.IDebugSymbols3_iface
    DebugCreate_client 5).2.2.2 (by decide)
  have hs := h.1.mpr (by decide)
  have hw := (h.2.2.1 (by decide)).2.2.2 (Or.inl rfl)
  have hc := (h.2.1 (by decide)).2.1
  refine ⟨?_, ?_⟩
  · exact Prod.ext hs (Prod.ext hw (hc.trans (by decide)))
  · exact Prod.ext h5.1 (Prod.ext h5.2.1 h5.2.2)

/-- C11: when the allocation succeeds, `DebugCreate` builds the client
`DebugCreate_client` (engine options 0, no target, no event callbacks).  For
a supported `riid` it returns `S_OK`, stores a pointer to an interface of the
object in `*obj`, and the object is left with the reference count 1 and
otherwise as built.  For any other `riid` it returns `E_NOINTERFACE`, stores
`NULL` in `*obj`, the `Release` that it makes returns 0 and the object is
freed.  No OS call is made in either case. -/
theorem DebugCreate_spec (os : OS) (hdr : dbgeng_h) (w : World) (riid : Nat)
    (halloc : os.heap_alloc w os.sizeof_debug_client = true) :
    (riid ∈ supported_iids hdr →
      (DebugCreate os hdr w riid).1 = S_OK ∧
      (∃ i, (DebugCreate os hdr w riid).2.1 = some (some i)) ∧
      (DebugCreate os hdr w riid).2.2.1 =
        some { refcount := 1, engine_options := 0, targets := [], event_callbacks := 0 }) ∧
    (riid ∉ supported_iids hdr →
      (DebugCreate os hdr w riid).1 = E_NOINTERFACE ∧
      (DebugCreate os hdr w riid).2.1 = some none ∧
      (DebugCreate os hdr w riid).2.2.1 = none ∧
      (IUnknown_Release os (w.alloc os.sizeof_debug_client true)
        client_iface.IDebugClient_iface
        (IUnknown_QueryInterface hdr client_iface.IDebugClient_iface DebugCreate_client
          riid).2.2).1 = 0) ∧
    (DebugCreate os hdr w riid).2.2.2.calls = w.calls ∧
    DebugCreate_client =
      { refcount := 1, engine_options := 0, targets := [], event_callbacks := 0 } := by
  have hD : DebugCreate os hdr w riid =
      ((debugclient_QueryInterface hdr DebugCreate_client riid).1,
       some (debugclient_QueryInterface hdr DebugCreate_client riid).2.1,
       (debugclient_Release os (w.alloc os.sizeof_debug_client true)
          (debugclient_QueryInterface hdr DebugCreate_client riid).2.2).2.1,
       (debugclient_Release os (w.alloc os.sizeof_debug_client true)
          (debugclient_QueryInterface hdr DebugCreate_client riid).2.2).2.2) := by
    simp [DebugCreate, halloc, IUnknown_QueryInterface, IUnknown_Release]
  have hadd : (debugclient_AddRef DebugCreate_client).2 =
      { refcount := 2, engine_options := 0, targets := [], event_callbacks := 0 } := by
    decide
  have halive := Release_alive os (w.alloc os.sizeof_debug_client true)
    { refcount := 2, engine_options := 0, targets := [], event_callbacks := 0 }
    (by decide) (by decide)
  have hlast := Release_last os (w.alloc os.sizeof_debug_client true) DebugCreate_client rfl
  rw [hD]
  rcases QueryInterface_cases hdr DebugCreate_client riid with ⟨hm, j, e⟩ | ⟨hn, e⟩
  · rw [e, hadd, halive]
    exact ⟨fun _ => ⟨rfl, ⟨j, rfl⟩, rfl⟩, fun h => absurd hm h, rfl, rfl⟩
  · have hrel : (IUnknown_Release os (w.alloc os.sizeof_debug_client true)
        client_iface.IDebugClient_iface DebugCreate_client).1 = 0 := by
      show (debugclient_Release os _ DebugCreate_client).1 = 0
      rw [hlast]
    rw [IUnknown_QueryInterface_eq, e, hlast]
    exact ⟨fun h => absurd h hn, fun _ => ⟨rfl, rfl, rfl, hrel⟩, rfl, rfl⟩

/-- The statement of C11 on the example system: `DebugCreate` for
`IID_IDebugClient` gives `S_OK` and an object with the count 1; for the
identifier 5 it gives `E_NOINTERFACE`, `NULL`, and no object. -/
theorem DebugCreate_spec_witness :
    (DebugCreate exampleOS exampleHdr World.start exampleHdr.IID_IDebugClient).1 = S_OK ∧
    (DebugCreate exampleOS exampleHdr World.start exampleHdr.IID_IDebugClient).2.2.1 =
      some { refcount := 1, engine_options := 0, targets := [], event_callbacks := 0 } ∧
    (DebugCreate exampleOS exampleHdr World.start 5).1 = E_NOINTERFACE ∧
    (DebugCreate exampleOS exampleHdr World.start 5).2.1 = some none ∧
    (DebugCreate exampleOS exampleHdr World.start 5).2.2.1 = none :=
  have h := (DebugCreate_spec exampleOS exampleHdr World.start exampleHdr.IID_IDebugClient
    rfl).1 (by decide)
  have h5 := (DebugCreate_spec exampleOS exampleHdr World.start 5 rfl).2.1 (by decide)
  ⟨h.1, h.2.2, h5.1, h5.2.1, h5.2.2.1⟩

/-! ## The engine options -/

theorem not32_testBit (x i : Nat) (hi : i < 32) : (not32 x).testBit i = !x.testBit i := by
  have h : (0xFFFFFFFF : Nat) = 2 ^ 32 - 1 := by norm_num
  rw [not32, h, Nat.testBit_xor, Nat.testBit_two_pow_sub_one]
  simp [hi]

theorem testBit_lt_32 (x i : Nat) (hx : x < 2 ^ 32) (h : x.testBit i = true) : i < 32 := by
  by_contra hge
  have hlt : x < 2 ^ i :=
    lt_of_lt_of_le hx (Nat.pow_le_pow_right (by decide) (by omega))
  rw [Nat.testBit_lt_two_pow hlt] at h
  exact Bool.noConfusion h

/-- The test `options & ~DEBUG_ENGOPT_ALL` of the code, on a 32-bit `options`,
is the test of the specification: some bit of `options` is outside the mask. -/
theorem outside_iff (options all : Nat) (h32 : options < 2 ^ 32) :
    options &&& not32 all ≠ 0 ↔ has_bit_outside options all := by
  constructor
  · intro hne
    obtain ⟨i, hi⟩ := Nat.ne_zero_implies_bit_true hne
    rw [Nat.testBit_and, Bool.and_eq_true] at hi
    have hlt := testBit_lt_32 options i h32 hi.1
    have hn := hi.2
    rw [not32_testBit all i hlt] at hn
    exact ⟨i, hi.1, by simpa using hn⟩
  · rintro ⟨i, h1, h2⟩ hz
    have hlt := testBit_lt_32 options i h32 h1
    have hb : (options &&& not32 all).testBit i = true := by
      rw [Nat.testBit_and, not32_testBit all i hlt, h1, h2]
      rfl
    rw [hz, Nat.zero_testBit] at hb
    exact Bool.noConfusion hb

/-- C14: for every client and every 32-bit `options`, `AddEngineOptions`
returns `E_INVALIDARG` and changes nothing when `options` has a bit outside
`DEBUG_ENGOPT_ALL`; otherwise it returns `S_OK`, the engine options become
the bitwise OR of the old value and `options`, and nothing else changes. -/
theorem debugcontrol_AddEngineOptions_spec (hdr : dbgeng_h) (w : World) (c : debug_client)
    (options : Nat) (h32 : options < 2 ^ 32) :
    (has_bit_outside options hdr.DEBUG_ENGOPT_ALL →
      debugcontrol_AddEngineOptions hdr w c options = (E_INVALIDARG, c, w)) ∧
    (¬ has_bit_outside options hdr.DEBUG_ENGOPT_ALL →
      debugcontrol_AddEngineOptions hdr w c options =
        (S_OK,
         { refcount := c.refcount, engine_options := c.engine_options ||| options,
           targets := c.targets, event_callbacks := c.event_callbacks }, w)) := by
  constructor
  · intro h
    have hc := (outside_iff options hdr.DEBUG_ENGOPT_ALL h32).mpr h
    rw [debugcontrol_AddEngineOptions, if_pos hc]
  · intro h
    have hc : ¬ (options &&& not32 hdr.DEBUG_ENGOPT_ALL ≠ 0) :=
      fun hne => h ((outside_iff options hdr.DEBUG_ENGOPT_ALL h32).mp hne)
    rw [debugcontrol_AddEngineOptions, if_neg hc]

/-- The statement of C14 on the example header (mask `0xFFFFF`): adding
`0x100000` to the options 5 is refused, adding 2 gives 7. -/
theorem debugcontrol_AddEngineOptions_spec_witness :
    debugcontrol_AddEngineOptions exampleHdr World.start
        { DebugCreate_client with engine_options := 5 } 0x100000 =
      (E_INVALIDARG, { DebugCreate_client with engine_options := 5 }, World.start) ∧
    debugcontrol_AddEngineOptions exampleHdr World.start
        { DebugCreate_client with engine_options := 5 } 2 =
      (S_OK, { DebugCreate_client with engine_options := 7 }, World.start) :=
  ⟨(debugcontrol_AddEngineOptions_spec exampleHdr World.start
      { DebugCreate_client with engine_options := 5 } 0x100000 (by decide)).1
      ⟨20, by decide, by decide⟩,
   (debugcontrol_AddEngineOptions_spec exampleHdr World.start
      { DebugCreate_client with engine_options := 5 } 2 (by decide)).2
      (fun h => (outside_iff 2 exampleHdr.DEBUG_ENGOPT_ALL (by decide)).mpr h (by decide))⟩

/-- C15: for every client and every 32-bit `options`, `SetEngineOptions`
returns `S_OK` if and only if `options` has no bit outside
`DEBUG_ENGOPT_ALL`, and `E_INVALIDARG` otherwise.  After `S_OK` a
`GetEngineOptions` returns `S_OK` and stores exactly `options`; after
`E_INVALIDARG` it stores the value from before the call. -/
theorem debugcontrol_SetEngineOptions_roundtrip (hdr : dbgeng_h) (w : World)
    (c : debug_client) (options : Nat) (h32 : options < 2 ^ 32) :
    ((debugcontrol_SetEngineOptions hdr w c options).1 = S_OK ↔
      ¬ has_bit_outside options hdr.DEBUG_ENGOPT_ALL) ∧
    ((debugcontrol_SetEngineOptions hdr w c options).1 = E_INVALIDARG ↔
      has_bit_outside options hdr.DEBUG_ENGOPT_ALL) ∧
    ((debugcontrol_SetEngineOptions hdr w c options).1 = S_OK →
      (debugcontrol_GetEngineOptions (debugcontrol_SetEngineOptions hdr w c options).2.2
        (debugcontrol_SetEngineOptions hdr w c options).2.1).1 = S_OK ∧
      (debugcontrol_GetEngineOptions (debugcontrol_SetEngineOptions hdr w c options).2.2
        (debugcontrol_SetEngineOptions hdr w c options).2.1).2.1 = some options) ∧
    ((debugcontrol_SetEngineOptions hdr w c options).1 = E_INVALIDARG →
      (debugcontrol_GetEngineOptions (debugcontrol_SetEngineOptions hdr w c options).2.2
        (debugcontrol_SetEngineOptions hdr w c options).2.1).1 = S_OK ∧
      (debugcontrol_GetEngineOptions (debugcontrol_SetEngineOptions hdr w c options).2.2
        (debugcontrol_SetEngineOptions hdr w c options).2.1).2.1 = some c.engine_options) := by
  have hne : E_INVALIDARG ≠ S_OK := by decide
  by_cases h : has_bit_outside options hdr.DEBUG_ENGOPT_ALL
  · have hc := (outside_iff options hdr.DEBUG_ENGOPT_ALL h32).mpr h
    have e : debugcontrol_SetEngineOptions hdr w c options = (E_INVALIDARG, c, w) := by
      rw [debugcontrol_SetEngineOptions, if_pos hc]
    rw [e]
    exact ⟨⟨fun h0 => absurd h0 hne, fun hn => absurd h hn⟩, ⟨fun _ => h, fun _ => rfl⟩,
      fun h0 => absurd h0 hne, fun _ => ⟨rfl, rfl⟩⟩
  · have hc : ¬ (options &&& not32 hdr.DEBUG_ENGOPT_ALL ≠ 0) :=
      fun hne' => h ((outside_iff options hdr.DEBUG_ENGOPT_ALL h32).mp hne')
    have e : debugcontrol_SetEngineOptions hdr w c options =
        (S_OK, { c with engine_options := options }, w) := by
      rw [debugcontrol_SetEngineOptions, if_neg hc]
    rw [e]
    exact ⟨⟨fun _ => h, fun _ => rfl⟩, ⟨fun h0 => absurd h0.symm hne, fun hn => absurd hn h⟩,
      fun _ => ⟨rfl, rfl⟩, fun h0 => absurd h0.symm hne⟩

/-- The statement of C15 on the example header (mask `0xFFFFF`): setting 6
over the options 5 is accepted and read back as 6; setting `0x100002` is
refused and 5 is read back. -/
theorem debugcontrol_SetEngineOptions_roundtrip_witness :
    (debugcontrol_GetEngineOptions
      (debugcontrol_SetEngineOptions exampleHdr World.start
        { DebugCreate_client with engine_options := 5 } 6).2.2
      (debugcontrol_SetEngineOptions exampleHdr World.start
        { DebugCreate_client with engine_options := 5 } 6).2.1).2.1 = some 6 ∧
    (debugcontrol_GetEngineOptions
      (debugcontrol_SetEngineOptions exampleHdr World.start
        { DebugCreate_client with engine_options := 5 } 0x100002).2.2
      (debugcontrol_SetEngineOptions exampleHdr World.start
        { DebugCreate_client with engine_options := 5 } 0x100002).2.1).2.1 = some 5 :=
  ⟨((debugcontrol_SetEngineOptions_roundtrip exampleHdr World.start
      { DebugCreate_client with engine_options := 5 } 6 (by decide)).2.2.1 (by decide)).2,
   ((debugcontrol_SetEngineOptions_roundtrip exampleHdr World.start
      { DebugCreate_client with engine_options := 5 } 0x100002 (by decide)).2.2.2
      (by decide)).2⟩

/-! ## The methods that are stubs -/

/-- C16 as stated fails: `GetEngineOptions` is a method of `IDebugControl2`
that is not among the methods the claim excepts, and on the client that
`DebugCreate` builds it returns `S_OK`, not `E_NOTIMPL`. -/
theorem other_methods_stubs_as_stated_fails :
    ¬ (∀ m : client_method, m ∉ named_methods →
        ∀ (a : List Nat) (w : World) (c : debug_client),
          call_method exampleOS exampleHdr m a w c = (E_NOTIMPL, some c, w)) :=
  fun h =>
    absurd
      (congrArg Prod.fst
        (h client_method.debugcontrol_GetEngineOptions (by decide) [] World.start
          DebugCreate_client))
      (by decide)

/-- C16, amended: every method of the four tables other than
`QueryInterface`, `AddRef`, `Release`, `AttachProcess`, `DetachProcesses`,
`WaitForEvent`, `GetNumberModules`, `GetModuleByIndex` and other than
`GetEventCallbacks`, `SetEventCallbacks`, `GetEngineOptions`,
`AddEngineOptions`, `RemoveEngineOptions`, `SetEngineOptions` returns
`E_NOTIMPL` for every input, makes no call and leaves the client as it
was. -/
theorem other_methods_stubs (os : OS) (hdr : dbgeng_h) (m : client_method) (a : List Nat)
    (w : World) (c : debug_client)
    (h1 : m ∉ named_methods) (h2 : m ∉ further_methods) :
    call_method os hdr m a w c = (E_NOTIMPL, some c, w) := by
  cases m <;>
    first
    | rfl
    | exact absurd (by decide) h1
    | exact absurd (by decide) h2

/-- The statement of the amended C16 on the example system, for
`AttachKernel`. -/
theorem other_methods_stubs_witness :
    call_method exampleOS exampleHdr client_method.debugclient_AttachKernel [1, 0]
        World.start DebugCreate_client =
      (E_NOTIMPL, some DebugCreate_client, World.start) :=
  other_methods_stubs exampleOS exampleHdr client_method.debugclient_AttachKernel [1, 0]
    World.start DebugCreate_client (by decide) (by decide)

/-! ## The exported entry points that are stubs -/

/-- C20: `DebugExtensionInitialize`, `DebugConnect` and `DebugCreateEx`
return `E_NOTIMPL`, which is not `S_OK`, for every argument and store nothing
through their output pointers; `DebugExtensionInitialize` and `DebugConnect`
set the last error of the thread to `ERROR_CALL_NOT_IMPLEMENTED`, and
`DebugCreateEx` leaves it as it was. -/
theorem exported_stubs (a b d last_error : Nat) :
    DebugExtensionInitialize a b last_error =
      (E_NOTIMPL, none, none, ERROR_CALL_NOT_IMPLEMENTED) ∧
    DebugConnect a b d last_error = (E_NOTIMPL, none, ERROR_CALL_NOT_IMPLEMENTED) ∧
    DebugCreateEx a b d last_error = (E_NOTIMPL, none, last_error) ∧
    E_NOTIMPL ≠ S_OK :=
  ⟨rfl, rfl, rfl, by decide⟩

/-! ## A remote attach -/

theorem allocs_since_self (w : World) : World.allocs_since w w = [] := by
  simp [World.allocs_since]

/-- C21: for every client, pid and flags, `AttachProcess` with a `server`
that is not zero returns `E_NOTIMPL` and changes nothing: the list of targets
and every other field of the client are as before, no memory is requested
and no call is made. -/
theorem debugclient_AttachProcess_remote (os : OS) (w : World) (c : debug_client)
    (server pid flags : Nat) (hs : server ≠ 0) :
    debugclient_AttachProcess os w c server pid flags = (E_NOTIMPL, c, w) ∧
    (debugclient_AttachProcess os w c server pid flags).2.1.targets = c.targets ∧
    World.allocs_since w (debugclient_AttachProcess os w c server pid flags).2.2 = [] ∧
    World.calls_since w (debugclient_AttachProcess os w c server pid flags).2.2 = [] ∧
    E_NOTIMPL ≠ S_OK := by
  have e : debugclient_AttachProcess os w c server pid flags = (E_NOTIMPL, c, w) := by
    rw [debugclient_AttachProcess, if_pos hs]
  rw [e]
  exact ⟨rfl, rfl, allocs_since_self w, calls_since_self w, by decide⟩

/-- The statement of C21 on the example system: a remote attach (server 1)
on a client with one target. -/
theorem debugclient_AttachProcess_remote_witness :
    debugclient_AttachProcess exampleOS World.start
        { DebugCreate_client with targets := [{ target_process_zero with pid := 9 }] }
        1 5 1 =
      (E_NOTIMPL,
       { DebugCreate_client with targets := [{ target_process_zero with pid := 9 }] },
       World.start) :=
  (debugclient_AttachProcess_remote exampleOS World.start
    { DebugCreate_client with targets := [{ target_process_zero with pid := 9 }] }
    1 5 1 (by decide)).1

/-! ## Detaching twice -/

/-- On a list of targets that all have a `NULL` handle the loop of
`DetachProcesses` does nothing. -/
theorem DetachProcesses_loop_idle (os : OS) (l : List target_process) :
    ∀ w : World, (∀ t ∈ l, t.handle = 0) →
      debugclient_DetachProcesses_loop os w l = (l, w) := by
  induction l with
  | nil => intro w _; rfl
  | cons t rest ih =>
    intro w h
    have ht : t.handle = 0 := h t (List.mem_cons_self _ _)
    have e : debug_client_detach_target os w t = (t, w) := by
      rw [debug_client_detach_target, if_pos ht]
    have ih' := ih w (fun t' ht' => h t' (List.mem_cons_of_mem _ ht'))
    simp only [debugclient_DetachProcesses_loop, e, ih']

/-- After `DetachProcesses` every target has a `NULL` handle. -/
theorem DetachProcesses_handles (os : OS) (w : World) (c : debug_client) :
    ∀ t ∈ (debugclient_DetachProcesses os w c).2.1.targets, t.handle = 0 := by
  obtain ⟨h1, -, -⟩ := DetachProcesses_loop_spec os c.targets w
  simp only [debugclient_DetachProcesses, h1]
  intro t ht
  obtain ⟨t0, -, rfl⟩ := List.mem_map.mp ht
  rfl

/-- C25: `DetachProcesses` is idempotent.  On what a first `DetachProcesses`
left, a second one (at any later time) returns `S_OK`, leaves the client as
the first one left it and makes no call at all: in particular no
`NtResumeProcess` and no `CloseHandle`, so that the two calls in a row make
the calls of the first one only. -/
theorem debugclient_DetachProcesses_idempotent (os os2 : OS) (w w2 : World)
    (c : debug_client) :
    debugclient_DetachProcesses os2 w2 (debugclient_DetachProcesses os w c).2.1 =
      (S_OK, (debugclient_DetachProcesses os w c).2.1, w2) ∧
    (debugclient_DetachProcesses os (debugclient_DetachProcesses os w c).2.2
        (debugclient_DetachProcesses os w c).2.1).2 =
      (debugclient_DetachProcesses os w c).2 ∧
    World.calls_since (debugclient_DetachProcesses os w c).2.2
      (debugclient_DetachProcesses os (debugclient_DetachProcesses os w c).2.2
        (debugclient_DetachProcesses os w c).2.1).2.2 = [] ∧
    (World.calls_since (debugclient_DetachProcesses os w c).2.2
      (debugclient_DetachProcesses os (debugclient_DetachProcesses os w c).2.2
        (debugclient_DetachProcesses os w c).2.1).2.2).countP OsCall.isResume = 0 ∧
    (World.calls_since (debugclient_DetachProcesses os w c).2.2
      (debugclient_DetachProcesses os (debugclient_DetachProcesses os w c).2.2
        (debugclient_DetachProcesses os w c).2.1).2.2).countP OsCall.isClose = 0 := by
  have key : ∀ (o : OS) (v : World),
      debugclient_DetachProcesses o v (debugclient_DetachProcesses os w c).2.1 =
        (S_OK, (debugclient_DetachProcesses os w c).2.1, v) := by
    intro o v
    have hl := DetachProcesses_loop_idle o (debugclient_DetachProcesses os w c).2.1.targets v
      (DetachProcesses_handles os w c)
    rw [debugclient_DetachProcesses, hl]
  refine ⟨key os2 w2, ?_, ?_, ?_, ?_⟩
  · rw [key]
  · rw [key]
    exact calls_since_self _
  · rw [key]
    show (World.calls_since _ _).countP OsCall.isResume = 0
    rw [calls_since_self]
    rfl
  · rw [key]
    show (World.calls_since _ _).countP OsCall.isClose = 0
    rw [calls_since_self]
    rfl

/-- The statement of C25 on the example system: the first `DetachProcesses`
resumes and closes the handle 105, the second one makes no call. -/
theorem debugclient_DetachProcesses_idempotent_witness :
    (debugclient_DetachProcesses exampleOS World.start
      { DebugCreate_client with
        targets := [{ target_process_zero with pid := 5, attach_flags := 1,
                                               handle := 105 }] }).2.2.calls =
      [OsCall.NtResumeProcess 105 0, OsCall.CloseHandle 105 true] ∧
    (debugclient_DetachProcesses exampleOS
      (debugclient_DetachProcesses exampleOS World.start
        { DebugCreate_client with
          targets := [{ target_process_zero with pid := 5, attach_flags := 1,
                                                 handle := 105 }] }).2.2
      (debugclient_DetachProcesses exampleOS World.start
        { DebugCreate_client with
          targets := [{ target_process_zero with pid := 5, attach_flags := 1,
                                                 handle := 105 }] }).2.1).2 =
      (debugclient_DetachProcesses exampleOS World.start
        { DebugCreate_client with
          targets := [{ target_process_zero with pid := 5, attach_flags := 1,
                                                 handle := 105 }] }).2 :=
  ⟨by decide,
   (debugclient_DetachProcesses_idempotent exampleOS exampleOS World.start World.start
      { DebugCreate_client with
        targets := [{ target_process_zero with pid := 5, attach_flags := 1,
                                               handle := 105 }] }).2.1⟩

/-! ## Removing engine options -/

/-- C26: for every client (whose `engine_options` is a 32-bit value) and
every 32-bit `options`, `RemoveEngineOptions` returns `S_OK` and the engine
options become the old value AND NOT `options`: bit `i` is set afterwards
exactly when it was set before and is not set in `options`; nothing else
changes.  There is no validation: a value with a bit outside
`DEBUG_ENGOPT_ALL`, which `AddEngineOptions` and `SetEngineOptions` refuse
with `E_INVALIDARG`, is accepted, and every bit that it does not name keeps
its value. -/
theorem debugcontrol_RemoveEngineOptions_spec (hdr : dbgeng_h) (w : World)
    (c : debug_client) (options : Nat) (h32 : options < 2 ^ 32)
    (hold : c.engine_options < 2 ^ 32) :
    debugcontrol_RemoveEngineOptions w c options =
      (S_OK,
       { refcount := c.refcount, engine_options := c.engine_options &&& not32 options,
         targets := c.targets, event_callbacks := c.event_callbacks }, w) ∧
    (∀ i, (debugcontrol_RemoveEngineOptions w c options).2.1.engine_options.testBit i =
      (c.engine_options.testBit i && !options.testBit i)) ∧
    (debugcontrol_RemoveEngineOptions w c options).2.1.engine_options < 2 ^ 32 ∧
    (has_bit_outside options hdr.DEBUG_ENGOPT_ALL →
      (debugcontrol_RemoveEngineOptions w c options).1 = S_OK ∧
      (debugcontrol_AddEngineOptions hdr w c options).1 = E_INVALIDARG ∧
      (debugcontrol_SetEngineOptions hdr w c options).1 = E_INVALIDARG ∧
      ∀ i, hdr.DEBUG_ENGOPT_ALL.testBit i = true → options.testBit i = false →
        (debugcontrol_RemoveEngineOptions w c options).2.1.engine_options.testBit i =
          c.engine_options.testBit i) := by
  have hbit : ∀ i, (c.engine_options &&& not32 options).testBit i =
      (c.engine_options.testBit i && !options.testBit i) := by
    intro i
    rw [Nat.testBit_and]
    by_cases hi : i < 32
    · rw [not32_testBit options i hi]
    · have hlt : c.engine_options < 2 ^ i :=
        lt_of_lt_of_le hold (Nat.pow_le_pow_right (by decide) (by omega))
      rw [Nat.testBit_lt_two_pow hlt]
      rfl
  refine ⟨rfl, hbit, ?_, ?_⟩
  · exact lt_of_le_of_lt Nat.and_le_left hold
  · intro ho
    have hc := (outside_iff options hdr.DEBUG_ENGOPT_ALL h32).mpr ho
    refine ⟨rfl, ?_, ?_, ?_⟩
    · rw [debugcontrol_AddEngineOptions, if_pos hc]
    · rw [debugcontrol_SetEngineOptions, if_pos hc]
    · intro i _ hn
      show (c.engine_options &&& not32 options).testBit i = c.engine_options.testBit i
      rw [hbit i, hn]
      simp

/-- The statement of C26 on the example header (mask `0xFFFFF`): removing
`0x100002`, which has the bit 20 outside the mask, from the options 7 gives
5 and `S_OK`, where adding it is refused. -/
theorem debugcontrol_RemoveEngineOptions_spec_witness :
    debugcontrol_RemoveEngineOptions World.start
        { DebugCreate_client with engine_options := 7 } 0x100002 =
      (S_OK, { DebugCreate_client with engine_options := 5 }, World.start) ∧
    (debugcontrol_AddEngineOptions exampleHdr World.start
        { DebugCreate_client with engine_options := 7 } 0x100002).1 = E_INVALIDARG :=
  ⟨(debugcontrol_RemoveEngineOptions_spec exampleHdr World.start
      { DebugCreate_client with engine_options := 7 } 0x100002 (by decide) (by decide)).1.trans
      (by decide),
   ((debugcontrol_RemoveEngineOptions_spec exampleHdr World.start
      { DebugCreate_client with engine_options := 7 } 0x100002 (by decide) (by decide)).2.2.2
      ⟨20, by decide, by decide⟩).2.1⟩

/-! ## The event callbacks -/

/-- C30: `SetEventCallbacks` returns `S_OK` for every argument; it calls
`Release` once on the callbacks object that was installed, when there was
one, then stores the new pointer and calls `AddRef` once on it, when it is
not `NULL`; these are its only calls and nothing else of the client changes.
`GetEventCallbacks` returns `S_OK` in every state and leaves the client as it
is; when a callbacks object is installed it stores the pointer in
`*callbacks` and calls `AddRef` once on it; when none is installed it stores
nothing in `*callbacks` (it does not store `NULL`) and makes no call. -/
theorem event_callbacks_spec (w : World) (c : debug_client) (callbacks : Nat) :
    (debugclient_SetEventCallbacks w c callbacks).1 = S_OK ∧
    (debugclient_SetEventCallbacks w c callbacks).2.1 =
      { refcount := c.refcount, engine_options := c.engine_options, targets := c.targets,
        event_callbacks := callbacks } ∧
    World.calls_since w (debugclient_SetEventCallbacks w c callbacks).2.2 =
      (if c.event_callbacks ≠ 0 then [OsCall.CallbacksRelease c.event_callbacks] else []) ++
      (if callbacks ≠ 0 then [OsCall.CallbacksAddRef callbacks] else []) ∧
    (debugclient_SetEventCallbacks w c callbacks).2.2.allocs = w.allocs ∧
    (debugclient_GetEventCallbacks w c).1 = S_OK ∧
    (debugclient_GetEventCallbacks w c).2.2.1 = c ∧
    (c.event_callbacks ≠ 0 →
      (debugclient_GetEventCallbacks w c).2.1 = some c.event_callbacks ∧
      World.calls_since w (debugclient_GetEventCallbacks w c).2.2.2 =
        [OsCall.CallbacksAddRef c.event_callbacks]) ∧
    (c.event_callbacks = 0 →
      (debugclient_GetEventCallbacks w c).2.1 = none ∧
      (debugclient_GetEventCallbacks w c).2.2.2 = w) := by
  refine ⟨rfl, rfl, ?_, ?_, ?_, ?_, ?_, ?_⟩
  · apply calls_since_append
    by_cases h1 : c.event_callbacks ≠ 0 <;> by_cases h2 : callbacks ≠ 0 <;>
      simp [debugclient_SetEventCallbacks, h1, h2, World.call]
  · by_cases h1 : c.event_callbacks ≠ 0 <;> by_cases h2 : callbacks ≠ 0 <;>
      simp [debugclient_SetEventCallbacks, h1, h2, World.call]
  · by_cases h1 : c.event_callbacks ≠ 0
    · rw [debugclient_GetEventCallbacks, if_pos h1]
    · rw [debugclient_GetEventCallbacks, if_neg h1]
  · by_cases h1 : c.event_callbacks ≠ 0
    · rw [debugclient_GetEventCallbacks, if_pos h1]
    · rw [debugclient_GetEventCallbacks, if_neg h1]
  · intro h1
    rw [debugclient_GetEventCallbacks, if_pos h1]
    exact ⟨rfl, calls_since_append w _ _ rfl⟩
  · intro h1
    rw [debugclient_GetEventCallbacks, if_neg (not_not.mpr h1)]
    exact ⟨rfl, rfl⟩

/-- The statement of C30 on examples: replacing the callbacks object 77 by
88 releases 77, then takes a reference on 88; reading the callbacks of a
client that has none stores nothing. -/
theorem event_callbacks_spec_witness :
    World.calls_since World.start
        (debugclient_SetEventCallbacks World.start
          { DebugCreate_client with event_callbacks := 77 } 88).2.2 =
      [OsCall.CallbacksRelease 77, OsCall.CallbacksAddRef 88] ∧
    (debugclient_GetEventCallbacks World.start DebugCreate_client).2.1 = none ∧
    (debugclient_GetEventCallbacks World.start
      { DebugCreate_client with event_callbacks := 77 }).2.1 = some 77 :=
  ⟨(event_callbacks_spec World.start { DebugCreate_client with event_callbacks := 77 }
      88).2.2.1,
   ((event_callbacks_spec World.start DebugCreate_client 0).2.2.2.2.2.2.2 rfl).1,
   ((event_callbacks_spec World.start { DebugCreate_client with event_callbacks := 77 }
      0).2.2.2.2.2.2.1 (by decide)).1⟩

/-! ## The module queries on a client without target -/

/-- The object that `DebugCreate` leaves, when it leaves one, is the one
built in lines 3049-3058: the reference taken by `QueryInterface` is the one
that stays. -/
theorem DebugCreate_object (os : OS) (hdr : dbgeng_h) (w : World) (riid : Nat)
    (c0 : debug_client) (h : (DebugCreate os hdr w riid).2.2.1 = some c0) :
    c0 = DebugCreate_client := by
  by_cases ok : os.heap_alloc w os.sizeof_debug_client = true
  · rcases QueryInterface_cases hdr DebugCreate_client riid with ⟨-, i, e⟩ | ⟨-, e⟩
    · have h1 : (DebugCreate os hdr w riid).2.2.1 = some DebugCreate_client := by
        simp only [DebugCreate, ok, IUnknown_QueryInterface, IUnknown_Release, e]
        rfl
      rw [h1] at h
      exact (Option.some.inj h).symm
    · have h1 : (DebugCreate os hdr w riid).2.2.1 = none := by
        simp only [DebugCreate, ok, IUnknown_QueryInterface, IUnknown_Release, e]
        rfl
      rw [h1] at h
      exact Option.noConfusion h
  · have h1 : (DebugCreate os hdr w riid).2.2.1 = none := by
      simp [DebugCreate, ok]
    rw [h1] at h
    exact Option.noConfusion h

/-- A sequence of remote attaches (`AttachProcess` with a `server` that is
not zero) leaves the client and the history as they are. -/
theorem run_methods_remote_attaches (os : OS) (hdr : dbgeng_h)
    (calls : List (client_method × List Nat)) :
    ∀ (w : World) (c : debug_client),
      (∀ p ∈ calls, p.1 = client_method.debugclient_AttachProcess ∧ p.2.getD 0 0 ≠ 0) →
      run_methods os hdr calls w c = (some c, w) := by
  induction calls with
  | nil => intro w c _; rfl
  | cons p rest ih =>
    intro w c h
    obtain ⟨hm, hs⟩ := h p (List.mem_cons_self _ _)
    have e : call_method os hdr p.1 p.2 w c = (E_NOTIMPL, some c, w) := by
      rw [hm]
      simp only [call_method, debugclient_AttachProcess, if_pos hs]
    rw [run_methods, e]
    exact ih w c (fun q hq => h q (List.mem_cons_of_mem _ hq))

/-- C24: on a client whose list of targets is empty, `GetNumberModules`
and `GetModuleByIndex` (for every index) return `E_UNEXPECTED`, store
nothing through their output pointers, make no call and leave the client as
it is.  The list is empty on the client that `DebugCreate` has built, and it
still is after any number of remote `AttachProcess` calls (the ones with a
`server` that is not zero, which fail). -/
theorem module_queries_no_target (os : OS) (hdr : dbgeng_h) (w : World) (c : debug_client)
    (hc : c.targets = []) :
    debugsymbols_GetNumberModules os w c = (E_UNEXPECTED, none, none, c, w) ∧
    (∀ index, debugsymbols_GetModuleByIndex os w c index = (E_UNEXPECTED, none, c, w)) ∧
    (∀ (w0 : World) (riid : Nat) (calls : List (client_method × List Nat))
        (c1 : debug_client) (w1 : World),
      (∀ p ∈ calls, p.1 = client_method.debugclient_AttachProcess ∧ p.2.getD 0 0 ≠ 0) →
      DebugCreate_then os hdr w0 riid calls = (some c1, w1) →
      c1.targets = [] ∧
      debugsymbols_GetNumberModules os w1 c1 = (E_UNEXPECTED, none, none, c1, w1) ∧
      ∀ index, debugsymbols_GetModuleByIndex os w1 c1 index = (E_UNEXPECTED, none, c1, w1)) ∧
    E_UNEXPECTED ≠ S_OK := by
  have key : ∀ (v : World) (d : debug_client), d.targets = [] →
      debugsymbols_GetNumberModules os v d = (E_UNEXPECTED, none, none, d, v) ∧
      ∀ index, debugsymbols_GetModuleByIndex os v d index = (E_UNEXPECTED, none, d, v) := by
    intro v d hd
    have hg : debug_client_get_target d = none := by
      simp [debug_client_get_target, list_empty, hd]
    constructor
    · simp only [debugsymbols_GetNumberModules, hg]
    · intro index
      simp only [debugsymbols_GetModuleByIndex, hg]
  refine ⟨(key w c hc).1, (key w c hc).2, ?_, by decide⟩
  intro w0 riid calls c1 w1 hcalls hrun
  have ht : c1.targets = [] := by
    rcases hD : (DebugCreate os hdr w0 riid).2.2.1 with _ | c0
    · simp only [DebugCreate_then, hD] at hrun
      exact Option.noConfusion (congrArg Prod.fst hrun)
    · have h0 := DebugCreate_object os hdr w0 riid c0 hD
      simp only [DebugCreate_then, hD] at hrun
      rw [run_methods_remote_attaches os hdr calls _ c0 hcalls] at hrun
      have h1 : c0 = c1 := Option.some.inj (congrArg Prod.fst hrun)
      rw [← h1, h0]
      rfl
  exact ⟨ht, (key w1 c1 ht).1, (key w1 c1 ht).2⟩

/-- The statement of C24 on the example system: the two queries on the
client that `DebugCreate` has built, and after two remote attaches. -/
theorem module_queries_no_target_witness :
    debugsymbols_GetNumberModules exampleOS World.start DebugCreate_client =
      (E_UNEXPECTED, none, none, DebugCreate_client, World.start) ∧
    debugsymbols_GetModuleByIndex exampleOS World.start DebugCreate_client 0 =
      (E_UNEXPECTED, none, DebugCreate_client, World.start) ∧
    (DebugCreate_then exampleOS exampleHdr World.start exampleHdr.IID_IDebugClient
      [(client_method.debugclient_AttachProcess, [1, 5, 1]),
       (client_method.debugclient_AttachProcess, [2, 6, 0])]).1 = some DebugCreate_client :=
  ⟨(module_queries_no_target exampleOS exampleHdr World.start DebugCreate_client rfl).1,
   (module_queries_no_target exampleOS exampleHdr World.start DebugCreate_client rfl).2.1 0,
   by decide⟩

/-! ## The module info is enumerated once -/

/-- On a target whose module info is initialised, the initialisation returns
at once. -/
theorem init_modules_info_initialized (os : OS) (w : World) (t : target_process)
    (hi : t.modules.initialized = true) :
    debug_target_init_modules_info os w t = (S_OK, t, w) := by
  rw [debug_target_init_modules_info, if_pos hi]

/-- An initialisation that does not fail leaves the module info
initialised. -/
theorem init_modules_info_ok_initialized (os : OS) (w : World) (t : target_process)
    (hok : FAILED (debug_target_init_modules_info os w t).1 = false) :
    (debug_target_init_modules_info os w t).2.1.modules.initialized = true := by
  rcases init_modules_info_cases os w t with ⟨hi, e⟩ | ⟨-, -, e⟩ | ⟨-, -, -, e⟩ |
    ⟨-, -, -, e, -⟩ | ⟨-, -, -, cb, r2, arr, evs, buf, wend, e, -⟩
  · rw [e]
    exact hi
  · rw [e, FAILED_E_UNEXPECTED] at hok
    exact Bool.noConfusion hok
  · rw [e, FAILED_E_FAIL] at hok
    exact Bool.noConfusion hok
  · rw [e, FAILED_E_OUTOFMEMORY] at hok
    exact Bool.noConfusion hok
  · rw [e]

/-- `GetModuleByIndex` on a client whose first target is initialised: the
answer is read from the module info of the target. -/
theorem GetModuleByIndex_initialized (os : OS) (w : World) (c : debug_client)
    (t : target_process) (rest : List target_process) (hc : c.targets = t :: rest)
    (hi : t.modules.initialized = true) (index : Nat) :
    debugsymbols_GetModuleByIndex os w c index =
      match (if t.modules.loaded ≤ index then none
             else match t.modules.info with
               | none => none
               | some a => a[index]?) with
      | none => (E_INVALIDARG, none, c, w)
      | some e => (S_OK, some e.Base, c, w) := by
  rw [GetModuleByIndex_of_init os w c t rest hc S_OK t w index
    (init_modules_info_initialized os w t hi), store_same c t rest hc]
  simp only [FAILED_S_OK, Bool.false_eq_true, if_false]

/-- `GetNumberModules` on a client whose first target is initialised. -/
theorem GetNumberModules_initialized (os : OS) (w : World) (c : debug_client)
    (t : target_process) (rest : List target_process) (hc : c.targets = t :: rest)
    (hi : t.modules.initialized = true) :
    debugsymbols_GetNumberModules os w c =
      (S_OK, some t.modules.loaded, some t.modules.unloaded, c, w) := by
  rw [GetNumberModules_of_init os w c t rest hc S_OK t w
    (init_modules_info_initialized os w t hi), store_same c t rest hc]
  simp only [FAILED_S_OK, Bool.false_eq_true, if_false]

/-- What `DetachProcesses` leaves of a list of targets that is not empty. -/
theorem DetachProcesses_targets_cons (os : OS) (w : World) (c : debug_client)
    (t : target_process) (rest : List target_process) (hc : c.targets = t :: rest) :
    (debugclient_DetachProcesses os w c).2.1.targets =
      { t with handle := 0 } :: rest.map (fun t => { t with handle := 0 }) := by
  obtain ⟨h1, -, -⟩ := DetachProcesses_loop_spec os c.targets w
  rw [hc] at h1
  simp only [debugclient_DetachProcesses, hc, h1, List.map_cons]

/-- C22: the modules of a target are enumerated once.  On a target whose
module info is initialised, `debug_target_init_modules_info` returns `S_OK`,
makes no call and leaves the target as it is.  So on a client whose first
target is such a target, `GetNumberModules` and `GetModuleByIndex` make no
call, leave the client as it is, and give the counts and the bases that the
target holds, the same for every operating system and every history; and
they give the same after a `DetachProcesses` (which sets the handle to
`NULL`).  A `GetNumberModules` or `GetModuleByIndex` that returned `S_OK`
has left the first target in that state. -/
theorem module_info_initialized_once (os : OS) (w : World) (c : debug_client)
    (t : target_process) (rest : List target_process)
    (hc : c.targets = t :: rest) (hi : t.modules.initialized = true) :
    debug_target_init_modules_info os w t = (S_OK, t, w) ∧
    debugsymbols_GetNumberModules os w c =
      (S_OK, some t.modules.loaded, some t.modules.unloaded, c, w) ∧
    (∀ index, (debugsymbols_GetModuleByIndex os w c index).2.2 = (c, w)) ∧
    (∀ (os2 : OS) (w2 : World) (index : Nat),
      (debugsymbols_GetModuleByIndex os2 w2 c index).1 =
        (debugsymbols_GetModuleByIndex os w c index).1 ∧
      (debugsymbols_GetModuleByIndex os2 w2 c index).2.1 =
        (debugsymbols_GetModuleByIndex os w c index).2.1) ∧
    (∀ (os1 os2 : OS) (w1 w2 : World),
      (∃ t1 rest1, (debugclient_DetachProcesses os1 w1 c).2.1.targets = t1 :: rest1 ∧
        t1.handle = 0) ∧
      debugsymbols_GetNumberModules os2 w2 (debugclient_DetachProcesses os1 w1 c).2.1 =
        (S_OK, some t.modules.loaded, some t.modules.unloaded,
         (debugclient_DetachProcesses os1 w1 c).2.1, w2) ∧
      ∀ index,
        (debugsymbols_GetModuleByIndex os2 w2
          (debugclient_DetachProcesses os1 w1 c).2.1 index).1 =
          (debugsymbols_GetModuleByIndex os w c index).1 ∧
        (debugsymbols_GetModuleByIndex os2 w2
          (debugclient_DetachProcesses os1 w1 c).2.1 index).2.1 =
          (debugsymbols_GetModuleByIndex os w c index).2.1 ∧
        (debugsymbols_GetModuleByIndex os2 w2
          (debugclient_DetachProcesses os1 w1 c).2.1 index).2.2 =
          ((debugclient_DetachProcesses os1 w1 c).2.1, w2)) ∧
    (∀ (os0 : OS) (w0 : World) (c0 : debug_client),
      (debugsymbols_GetNumberModules os0 w0 c0).1 = S_OK →
      ∃ t1 rest1, (debugsymbols_GetNumberModules os0 w0 c0).2.2.2.1.targets = t1 :: rest1 ∧
        t1.modules.initialized = true) ∧
    (∀ (os0 : OS) (w0 : World) (c0 : debug_client) (index : Nat),
      (debugsymbols_GetModuleByIndex os0 w0 c0 index).1 = S_OK →
      ∃ t1 rest1,
        (debugsymbols_GetModuleByIndex os0 w0 c0 index).2.2.1.targets = t1 :: rest1 ∧
        t1.modules.initialized = true) := by
  have hne1 : E_UNEXPECTED ≠ S_OK := by decide
  have hne2 : E_INVALIDARG ≠ S_OK := by decide
  refine ⟨init_modules_info_initialized os w t hi,
    GetNumberModules_initialized os w c t rest hc hi, ?_, ?_, ?_, ?_, ?_⟩
  · intro index
    rw [GetModuleByIndex_initialized os w c t rest hc hi index]
    split <;> rfl
  · intro os2 w2 index
    rw [GetModuleByIndex_initialized os w c t rest hc hi index,
      GetModuleByIndex_initialized os2 w2 c t rest hc hi index]
    split <;> exact ⟨rfl, rfl⟩
  · intro os1 os2 w1 w2
    have hd := DetachProcesses_targets_cons os1 w1 c t rest hc
    refine ⟨⟨_, _, hd, rfl⟩, ?_, ?_⟩
    · exact GetNumberModules_initialized os2 w2 _ { t with handle := 0 } _ hd hi
    · intro index
      rw [GetModuleByIndex_initialized os w c t rest hc hi index,
        GetModuleByIndex_initialized os2 w2 _ { t with handle := 0 } _ hd hi index]
      dsimp only
      split <;> exact ⟨rfl, rfl, rfl⟩
  · intro os0 w0 c0 h0
    rcases hc0 : c0.targets with _ | ⟨t0, rest0⟩
    · exfalso
      have hg : debug_client_get_target c0 = none := by
        simp [debug_client_get_target, list_empty, hc0]
      simp only [debugsymbols_GetNumberModules, hg] at h0
      exact hne1 h0
    · rcases hR : debug_target_init_modules_info os0 w0 t0 with ⟨hr, t1, w1⟩
      have e := GetNumberModules_of_init os0 w0 c0 t0 rest0 hc0 hr t1 w1 hR
      cases hf : FAILED hr
      · have hini := init_modules_info_ok_initialized os0 w0 t0 (by rw [hR]; exact hf)
        rw [hR] at hini
        rw [e, hf]
        exact ⟨t1, rest0, rfl, hini⟩
      · exfalso
        rw [e, hf] at h0
        simp only [if_true] at h0
        rw [h0, FAILED_S_OK] at hf
        exact Bool.noConfusion hf
  · intro os0 w0 c0 index h0
    rcases hc0 : c0.targets with _ | ⟨t0, rest0⟩
    · exfalso
      have hg : debug_client_get_target c0 = none := by
        simp [debug_client_get_target, list_empty, hc0]
      simp only [debugsymbols_GetModuleByIndex, hg] at h0
      exact hne1 h0
    · rcases hR : debug_target_init_modules_info os0 w0 t0 with ⟨hr, t1, w1⟩
      cases hf : FAILED hr
      · have hini := init_modules_info_ok_initialized os0 w0 t0 (by rw [hR]; exact hf)
        rw [hR] at hini
        rw [GetModuleByIndex_client os0 w0 c0 t0 rest0 hc0 index, hR]
        exact ⟨t1, rest0, rfl, hini⟩
      · exfalso
        rw [GetModuleByIndex_of_init_failed os0 w0 c0 t0 rest0 hc0 hr t1 w1 index hR hf] at h0
        exact hne2 h0

/-- The statement of C22 on the example systems: a first `GetNumberModules`
enumerates the three modules of the process; afterwards, on a system in which
no process has a module any more, `GetNumberModules` still counts three, and
after a `DetachProcesses` `GetModuleByIndex` still gives the base of the
third one. -/
theorem module_info_initialized_once_witness :
    (debugsymbols_GetNumberModules exampleOS World.start
      { DebugCreate_client with
        targets := [{ target_process_zero with pid := 5, attach_flags := 1,
                                               handle := 105 }] }).2.2.2.1.targets =
      [{ pid := 5, attach_flags := 1, handle := 105,
         modules := { info := some [⟨45056, 12⟩, ⟨0, 0⟩, ⟨53248, 14⟩], loaded := 3,
                      unloaded := 0, initialized := true } }] ∧
    debugsymbols_GetNumberModules noModulesOS World.start
        { DebugCreate_client with
          targets :=
            [{ pid := 5, attach_flags := 1, handle := 105,
               modules := { info := some [⟨45056, 12⟩, ⟨0, 0⟩, ⟨53248, 14⟩], loaded := 3,
                            unloaded := 0, initialized := true } }] } =
      (S_OK, some 3, some 0,
        { DebugCreate_client with
          targets :=
            [{ pid := 5, attach_flags := 1, handle := 105,
               modules := { info := some [⟨45056, 12⟩, ⟨0, 0⟩, ⟨53248, 14⟩], loaded := 3,
                            unloaded := 0, initialized := true } }] }, World.start) ∧
    (debugsymbols_GetModuleByIndex noModulesOS World.start
      (debugclient_DetachProcesses exampleOS World.start
        { DebugCreate_client with
          targets :=
            [{ pid := 5, attach_flags := 1, handle := 105,
               modules := { info := some [⟨45056, 12⟩, ⟨0, 0⟩, ⟨53248, 14⟩], loaded := 3,
                            unloaded := 0, initialized := true } }] }).2.1 2).2.1 =
      some 53248 :=
  ⟨by decide,
   (module_info_initialized_once noModulesOS World.start
      { DebugCreate_client with
        targets :=
          [{ pid := 5, attach_flags := 1, handle := 105,
             modules := { info := some [⟨45056, 12⟩, ⟨0, 0⟩, ⟨53248, 14⟩], loaded := 3,
                          unloaded := 0, initialized := true } }] }
      { pid := 5, attach_flags := 1, handle := 105,
        modules := { info := some [⟨45056, 12⟩, ⟨0, 0⟩, ⟨53248, 14⟩], loaded := 3,
                     unloaded := 0, initialized := true } } [] rfl rfl).2.1,
   ((((module_info_initialized_once exampleOS World.start
      { DebugCreate_client with
        targets :=
          [{ pid := 5, attach_flags := 1, handle := 105,
             modules := { info := some [⟨45056, 12⟩, ⟨0, 0⟩, ⟨53248, 14⟩], loaded := 3,
                          unloaded := 0, initialized := true } }] }
      { pid := 5, attach_flags := 1, handle := 105,
        modules := { info := some [⟨45056, 12⟩, ⟨0, 0⟩, ⟨53248, 14⟩], loaded := 3,
                     unloaded := 0, initialized := true } } [] rfl rfl).2.2.2.2.1
      exampleOS noModulesOS World.start World.start).2.2 2).2.1).trans (by decide)⟩

/-! ## Failures while the module entries are filled -/

/-- C23: failures while the module entries are filled are not reported.  In
an initialisation that came to its second `EnumProcessModules` (the size
query having reported `needed` bytes), whatever that call and the
`GetModuleInformation` calls answered, the result is `S_OK`, `initialized` is
set, and `loaded` is `needed / sizeof(HMODULE)`.  When the second
`EnumProcessModules` failed, every entry has `Base = 0` and `Size = 0`; when
the `GetModuleInformation` for the module of index `index` failed, the entry
`index` has.  For such an entry `GetModuleByIndex(index)`, in the call that
did the initialisation and in every later call, returns `S_OK` and stores 0
in `*base`. -/
theorem init_modules_failures_not_reported (os : OS) (w : World) (t : target_process)
    (needed hdl cb : Nat) (r2 : EnumResult)
    (hq : (os.EnumProcessModules w t.handle 0).needed = some needed)
    (hdw : needed < 2 ^ 32)
    (henum : ((World.calls_since w (debug_target_init_modules_info os w t).2.2).filter
        OsCall.isEnumProcessModules)[1]? = some (OsCall.EnumProcessModules hdl cb r2)) :
    (debug_target_init_modules_info os w t).1 = S_OK ∧
    (debug_target_init_modules_info os w t).2.1.modules.initialized = true ∧
    (debug_target_init_modules_info os w t).2.1.modules.loaded = needed / os.sizeof_HMODULE ∧
    ∃ a, (debug_target_init_modules_info os w t).2.1.modules.info = some a ∧
      a.length = needed / os.sizeof_HMODULE ∧
      (r2.ret = false →
        a = List.replicate (needed / os.sizeof_HMODULE) { Base := 0, Size := 0 }) ∧
      ∀ index,
        ((r2.ret = false ∧ index < needed / os.sizeof_HMODULE) ∨
         (∃ hdl2 m2,
           ((World.calls_since w (debug_target_init_modules_info os w t).2.2).filter
             OsCall.isGetModuleInformation)[index]? =
               some (OsCall.GetModuleInformation hdl2 m2 none))) →
        index < needed / os.sizeof_HMODULE ∧
        a[index]? = some { Base := 0, Size := 0 } ∧
        (∀ c rest, c.targets = t :: rest →
          (debugsymbols_GetModuleByIndex os w c index).1 = S_OK ∧
          (debugsymbols_GetModuleByIndex os w c index).2.1 = some 0) ∧
        (∀ (os1 : OS) (w1 : World) (c1 : debug_client) (t1 : target_process)
            (rest1 : List target_process), c1.targets = t1 :: rest1 →
          t1.modules = (debug_target_init_modules_info os w t).2.1.modules →
          (debugsymbols_GetModuleByIndex os1 w1 c1 index).1 = S_OK ∧
          (debugsymbols_GetModuleByIndex os1 w1 c1 index).2.1 = some 0) := by
  rcases init_modules_info_cases os w t with
    ⟨-, e⟩ | ⟨-, -, e⟩ | ⟨-, -, -, e⟩ | ⟨-, -, -, -, -, -, e, -⟩ |
    ⟨-, -, -, cb', r2', arr, evs, buf, wend, e1, e2, -, -, e5, e7, e8⟩
  · rw [e] at henum
    simp [calls_since_self] at henum
  · rw [e] at henum
    simp [calls_since_self] at henum
  · rw [e] at henum
    simp [World.calls_since, World.call, List.filter, OsCall.isEnumProcessModules] at henum
  · rw [calls_since_append w _ _ e] at henum
    simp [List.filter, OsCall.isEnumProcessModules] at henum
  · have hcount : ((os.EnumProcessModules w t.handle 0).needed.getD 0 / os.sizeof_HMODULE)
        % 2 ^ 32 = needed / os.sizeof_HMODULE := by
      rw [hq]
      exact Nat.mod_eq_of_lt (lt_of_le_of_lt (Nat.div_le_self _ _) hdw)
    rw [hcount] at e1 e2
    rw [e1] at henum
    rw [calls_since_append w wend _ e5] at henum
    simp only [List.filter, OsCall.isEnumProcessModules,
      List.getElem?_cons_succ, List.getElem?_cons_zero, Option.some.injEq,
      OsCall.EnumProcessModules.injEq] at henum
    obtain ⟨-, -, rfl⟩ := henum
    have hzero : ∀ index,
        ((r2'.ret = false ∧ index < needed / os.sizeof_HMODULE) ∨
         (∃ hdl2 m2,
           ((World.calls_since w (debug_target_init_modules_info os w t).2.2).filter
             OsCall.isGetModuleInformation)[index]? =
               some (OsCall.GetModuleInformation hdl2 m2 none))) →
        index < needed / os.sizeof_HMODULE ∧ arr[index]? = some { Base := 0, Size := 0 } := by
      intro index hfail
      rcases hfail with ⟨hret, hlt⟩ | ⟨hdl2, m2, hgmi⟩
      · refine ⟨hlt, ?_⟩
        rw [(e7 hret).2, e2, List.getElem?_replicate]
        simp [hlt]
      · rw [e1] at hgmi
        rw [calls_since_append w wend _ e5] at hgmi
        simp only [List.filter, OsCall.isEnumProcessModules, OsCall.isGetModuleInformation]
          at hgmi
        cases hret : r2'.ret
        · rw [(e7 hret).1] at hgmi
          simp at hgmi
        · obtain ⟨hlen, hev⟩ := e8 hret
          have hall : ∀ a ∈ evs, OsCall.isGetModuleInformation a = true := by
            intro a ha
            obtain ⟨k, hk, hka⟩ := List.getElem_of_mem ha
            obtain ⟨res, q1, -⟩ := hev k (by rw [← hlen]; exact hk)
            rw [List.getElem?_eq_getElem hk, hka] at q1
            rw [Option.some.inj q1]
            rfl
          rw [List.filter_eq_self.mpr hall] at hgmi
          have hlt : index < arr.length := by
            by_contra hcon
            rw [List.getElem?_eq_none (by omega)] at hgmi
            exact Option.noConfusion hgmi
          obtain ⟨res, q1, -, q3⟩ := hev index hlt
          rw [hgmi] at q1
          cases q1
          exact ⟨by rw [← e2]; exact hlt, q3 rfl⟩
    rw [e1]
    refine ⟨rfl, rfl, rfl, arr, rfl, e2, ?_, ?_⟩
    · intro hret
      have h := (e7 hret).2
      rw [e2] at h
      exact h
    · intro index hfail
      obtain ⟨hlt, harr⟩ := hzero index (by rw [e1]; exact hfail)
      refine ⟨hlt, harr, ?_, ?_⟩
      · intro c rest hc
        rw [GetModuleByIndex_of_init_lt os w c t rest hc _ _ _ index e1 FAILED_S_OK
          hlt arr rfl _ harr]
        exact ⟨rfl, rfl⟩
      · intro os1 w1 c1 t1 rest1 hc1 hmod
        have hinit1 : debug_target_init_modules_info os1 w1 t1 = (S_OK, t1, w1) := by
          simp [debug_target_init_modules_info, hmod]
        rw [GetModuleByIndex_of_init_lt os1 w1 c1 t1 rest1 hc1 _ _ _ index hinit1 FAILED_S_OK
          (by rw [hmod]; exact hlt) arr (by rw [hmod]) _ harr]
        exact ⟨rfl, rfl⟩

/-- The statement of C23 on the example systems, for a target with the open
handle 105.  On `exampleOS` the `GetModuleInformation` of the second module
(handle 12, index 1) fails: the initialisation succeeds and
`GetModuleByIndex(1)` returns `S_OK` and stores 0.  On `enumFailsOS` the
second `EnumProcessModules` fails: `GetModuleByIndex(2)` returns `S_OK` and
stores 0. -/
theorem init_modules_failures_not_reported_witness :
    ((debugsymbols_GetModuleByIndex exampleOS World.start
        { DebugCreate_client with
          targets := [{ target_process_zero with pid := 5, attach_flags := 1,
                                                 handle := 105 }] } 1).1 = S_OK ∧
     (debugsymbols_GetModuleByIndex exampleOS World.start
        { DebugCreate_client with
          targets := [{ target_process_zero with pid := 5, attach_flags := 1,
                                                 handle := 105 }] } 1).2.1 = some 0) ∧
    ((debugsymbols_GetModuleByIndex enumFailsOS World.start
        { DebugCreate_client with
          targets := [{ target_process_zero with pid := 5, attach_flags := 1,
                                                 handle := 105 }] } 2).1 = S_OK ∧
     (debugsymbols_GetModuleByIndex enumFailsOS World.start
        { DebugCreate_client with
          targets := [{ target_process_zero with pid := 5, attach_flags := 1,
                                                 handle := 105 }] } 2).2.1 = some 0) := by
  obtain ⟨-, -, -, a, -, -, -, h⟩ :=
    init_modules_failures_not_reported exampleOS World.start
      { target_process_zero with pid := 5, attach_flags := 1, handle := 105 }
      12 105 12 ⟨true, [11, 12, 13], some 12⟩ (by decide) (by decide) (by decide)
  obtain ⟨-, -, -, b, -, -, -, k⟩ :=
    init_modules_failures_not_reported enumFailsOS World.start
      { target_process_zero with pid := 5, attach_flags := 1, handle := 105 }
      12 105 12 ⟨false, [], some 12⟩ (by decide) (by decide) (by decide)
  exact ⟨(h 1 (Or.inr ⟨105, 12, by decide⟩)).2.2.1 _ [] rfl,
    (k 2 (Or.inl ⟨rfl, by decide⟩)).2.2.1 _ [] rfl⟩

/-! ## Two waits and one detach -/

/-- `WaitForEvent` on a client whose only target was attached with
`DEBUG_ATTACH_NONINVASIVE`: the process is opened with the right to suspend
it, the handle is stored over the one that the target had, and, when it is
not `NULL`, the process is suspended. -/
theorem WaitForEvent_noninvasive (os : OS) (w : World) (rc : Int) (eo ec pid h : Nat)
    (m : target_modules) (wflags timeout : Nat) :
    debugcontrol_WaitForEvent os w ⟨rc, eo, [⟨pid, DEBUG_ATTACH_NONINVASIVE, h, m⟩], ec⟩
        wflags timeout =
      if os.OpenProcess w 0x1830 false pid = 0 then
        (E_UNEXPECTED, ⟨rc, eo, [⟨pid, DEBUG_ATTACH_NONINVASIVE, 0, m⟩], ec⟩,
         w.call (OsCall.OpenProcess 0x1830 false pid 0))
      else
        (S_OK,
         ⟨rc, eo, [⟨pid, DEBUG_ATTACH_NONINVASIVE, os.OpenProcess w 0x1830 false pid, m⟩], ec⟩,
         (w.call (OsCall.OpenProcess 0x1830 false pid
            (os.OpenProcess w 0x1830 false pid))).call
           (OsCall.NtSuspendProcess (os.OpenProcess w 0x1830 false pid)
             (os.NtSuspendProcess
               (w.call (OsCall.OpenProcess 0x1830 false pid
                 (os.OpenProcess w 0x1830 false pid)))
               (os.OpenProcess w 0x1830 false pid)))) := by
  have hf : DEBUG_ATTACH_NONINVASIVE &&& DEBUG_ATTACH_NONINVASIVE ≠ 0 := by decide
  have hs : DEBUG_ATTACH_NONINVASIVE &&& DEBUG_ATTACH_NONINVASIVE_NO_SUSPEND = 0 := by decide
  have ha : PROCESS_VM_READ ||| PROCESS_VM_WRITE ||| PROCESS_QUERY_LIMITED_INFORMATION |||
      PROCESS_SUSPEND_RESUME = 0x1830 := by decide
  by_cases h0 : os.OpenProcess w 0x1830 false pid = 0
  · simp only [debugcontrol_WaitForEvent, debug_client_get_target, list_empty, list_head,
      List.isEmpty_cons, List.head?_cons, store_target, List.tail_cons, hf, hs, ha, h0,
      Bool.false_eq_true, if_false, if_true, ne_eq, not_false_eq_true, decide_True]
  · simp only [debugcontrol_WaitForEvent, debug_client_get_target, list_empty, list_head,
      List.isEmpty_cons, List.head?_cons, store_target, List.tail_cons, hf, hs, ha, h0,
      Bool.false_eq_true, if_false, if_true, ne_eq, not_false_eq_true, decide_True]

/-- C29: suspends and resumes are not balanced.  On a fresh client, in the
sequence `AttachProcess(0, pid, DEBUG_ATTACH_NONINVASIVE)`, `WaitForEvent`,
`WaitForEvent`, `DetachProcesses` in which both `WaitForEvent` returned
`S_OK`, the calls are: `OpenProcess` (giving a handle `h1`),
`NtSuspendProcess(h1)`, `OpenProcess` (giving `h2`), `NtSuspendProcess(h2)`,
`NtResumeProcess(h2)`, `CloseHandle(h2)`.  So `NtSuspendProcess` was called
twice and `NtResumeProcess` once; the second `WaitForEvent` stored `h2` over
`h1` with no `CloseHandle` made until then, and, `h2` being another handle
than `h1`, `h1` is never resumed and never closed. -/
theorem two_waits_unbalanced (os : OS) (w0 : World) (pid wflags timeout : Nat)
    (hok1 : (seq_wait os w0 pid DEBUG_ATTACH_NONINVASIVE wflags timeout).1 = S_OK)
    (hok2 : (seq_wait2 os w0 pid DEBUG_ATTACH_NONINVASIVE wflags timeout).1 = S_OK) :
    ∃ (h1 h2 : Nat) (st1 st2 st3 : Int) (b : Bool),
      h1 ≠ 0 ∧ h2 ≠ 0 ∧
      (seq_wait os w0 pid DEBUG_ATTACH_NONINVASIVE wflags timeout).2.1.targets =
        [{ pid := pid, attach_flags := DEBUG_ATTACH_NONINVASIVE, handle := h1,
           modules := { info := none, loaded := 0, unloaded := 0, initialized := false } }] ∧
      (seq_wait2 os w0 pid DEBUG_ATTACH_NONINVASIVE wflags timeout).2.1.targets =
        [{ pid := pid, attach_flags := DEBUG_ATTACH_NONINVASIVE, handle := h2,
           modules := { info := none, loaded := 0, unloaded := 0, initialized := false } }] ∧
      World.calls_since w0 (seq_wait2 os w0 pid DEBUG_ATTACH_NONINVASIVE wflags timeout).2.2 =
        [OsCall.OpenProcess 0x1830 false pid h1, OsCall.NtSuspendProcess h1 st1,
         OsCall.OpenProcess 0x1830 false pid h2, OsCall.NtSuspendProcess h2 st2] ∧
      World.calls_since w0
          (seq_wait2_detach os w0 pid DEBUG_ATTACH_NONINVASIVE wflags timeout).2.2 =
        [OsCall.OpenProcess 0x1830 false pid h1, OsCall.NtSuspendProcess h1 st1,
         OsCall.OpenProcess 0x1830 false pid h2, OsCall.NtSuspendProcess h2 st2,
         OsCall.NtResumeProcess h2 st3, OsCall.CloseHandle h2 b] ∧
      (World.calls_since w0
        (seq_wait2_detach os w0 pid DEBUG_ATTACH_NONINVASIVE wflags timeout).2.2).countP
          OsCall.isSuspend = 2 ∧
      (World.calls_since w0
        (seq_wait2_detach os w0 pid DEBUG_ATTACH_NONINVASIVE wflags timeout).2.2).countP
          OsCall.isResume = 1 ∧
      (World.calls_since w0
        (seq_wait2_detach os w0 pid DEBUG_ATTACH_NONINVASIVE wflags timeout).2.2).countP
          OsCall.isOpenProcess = 2 ∧
      (World.calls_since w0
        (seq_wait2_detach os w0 pid DEBUG_ATTACH_NONINVASIVE wflags timeout).2.2).countP
          OsCall.isClose = 1 ∧
      (World.calls_since w0
        (seq_wait2 os w0 pid DEBUG_ATTACH_NONINVASIVE wflags timeout).2.2).countP
          OsCall.isClose = 0 ∧
      (h1 ≠ h2 →
        (World.calls_since w0
          (seq_wait2_detach os w0 pid DEBUG_ATTACH_NONINVASIVE wflags timeout).2.2).countP
            (OsCall.isSuspendOf h1) = 1 ∧
        (World.calls_since w0
          (seq_wait2_detach os w0 pid DEBUG_ATTACH_NONINVASIVE wflags timeout).2.2).countP
            (OsCall.isResumeOf h1) = 0 ∧
        (World.calls_since w0
          (seq_wait2_detach os w0 pid DEBUG_ATTACH_NONINVASIVE wflags timeout).2.2).countP
            (OsCall.isCloseOf h1) = 0) := by
  have hne : E_UNEXPECTED ≠ S_OK := by decide
  have hf : DEBUG_ATTACH_NONINVASIVE &&& DEBUG_ATTACH_NONINVASIVE ≠ 0 := by decide
  have hs : DEBUG_ATTACH_NONINVASIVE &&& DEBUG_ATTACH_NONINVASIVE_NO_SUSPEND = 0 := by decide
  by_cases halloc : os.heap_alloc w0 os.sizeof_target_process = true
  swap
  · exfalso
    simp [seq_wait, seq_attach, debugclient_AttachProcess, halloc, debugcontrol_WaitForEvent,
      debug_client_get_target, list_empty, DebugCreate_client] at hok1
    exact hne hok1
  have hatt : seq_attach os w0 pid DEBUG_ATTACH_NONINVASIVE =
      (S_OK, ⟨1, 0, [⟨pid, DEBUG_ATTACH_NONINVASIVE, 0, ⟨none, 0, 0, false⟩⟩], 0⟩,
       w0.alloc os.sizeof_target_process true) := by
    simp [seq_attach, debugclient_AttachProcess, halloc, list_add_head, DebugCreate_client,
      target_process_zero]
  have hsw : seq_wait os w0 pid DEBUG_ATTACH_NONINVASIVE wflags timeout =
      debugcontrol_WaitForEvent os (w0.alloc os.sizeof_target_process true)
        ⟨1, 0, [⟨pid, DEBUG_ATTACH_NONINVASIVE, 0, ⟨none, 0, 0, false⟩⟩], 0⟩ wflags timeout := by
    simp only [seq_wait, hatt]
  rw [WaitForEvent_noninvasive] at hsw
  by_cases h1z : os.OpenProcess (w0.alloc os.sizeof_target_process true) 0x1830 false pid = 0
  · exfalso
    rw [hsw, if_pos h1z] at hok1
    exact hne hok1
  rw [if_neg h1z] at hsw
  generalize os.OpenProcess (w0.alloc os.sizeof_target_process true) 0x1830 false pid = h1
    at hsw h1z
  generalize os.NtSuspendProcess
    ((w0.alloc os.sizeof_target_process true).call (OsCall.OpenProcess 0x1830 false pid h1))
    h1 = st1 at hsw
  have hsw2 : seq_wait2 os w0 pid DEBUG_ATTACH_NONINVASIVE wflags timeout =
      debugcontrol_WaitForEvent os
        (((w0.alloc os.sizeof_target_process true).call
          (OsCall.OpenProcess 0x1830 false pid h1)).call (OsCall.NtSuspendProcess h1 st1))
        ⟨1, 0, [⟨pid, DEBUG_ATTACH_NONINVASIVE, h1, ⟨none, 0, 0, false⟩⟩], 0⟩ wflags timeout := by
    simp only [seq_wait2, hsw]
  rw [WaitForEvent_noninvasive] at hsw2
  by_cases h2z : os.OpenProcess
      (((w0.alloc os.sizeof_target_process true).call
        (OsCall.OpenProcess 0x1830 false pid h1)).call (OsCall.NtSuspendProcess h1 st1))
      0x1830 false pid = 0
  · exfalso
    rw [hsw2, if_pos h2z] at hok2
    exact hne hok2
  rw [if_neg h2z] at hsw2
  generalize os.OpenProcess
      (((w0.alloc os.sizeof_target_process true).call
        (OsCall.OpenProcess 0x1830 false pid h1)).call (OsCall.NtSuspendProcess h1 st1))
      0x1830 false pid = h2 at hsw2 h2z
  generalize os.NtSuspendProcess
    ((((w0.alloc os.sizeof_target_process true).call
        (OsCall.OpenProcess 0x1830 false pid h1)).call (OsCall.NtSuspendProcess h1 st1)).call
      (OsCall.OpenProcess 0x1830 false pid h2)) h2 = st2 at hsw2
  obtain ⟨W4, hW4⟩ : ∃ W4 : World, W4 =
      ((((w0.alloc os.sizeof_target_process true).call
        (OsCall.OpenProcess 0x1830 false pid h1)).call (OsCall.NtSuspendProcess h1 st1)).call
        (OsCall.OpenProcess 0x1830 false pid h2)).call (OsCall.NtSuspendProcess h2 st2) :=
    ⟨_, rfl⟩
  rw [← hW4] at hsw2
  have hsd : ∃ st3 b, seq_wait2_detach os w0 pid DEBUG_ATTACH_NONINVASIVE wflags timeout =
      (S_OK, ⟨1, 0, [⟨pid, DEBUG_ATTACH_NONINVASIVE, 0, ⟨none, 0, 0, false⟩⟩], 0⟩,
       (W4.call (OsCall.NtResumeProcess h2 st3)).call (OsCall.CloseHandle h2 b)) := by
    refine ⟨os.NtResumeProcess W4 h2,
      os.CloseHandle (W4.call (OsCall.NtResumeProcess h2 (os.NtResumeProcess W4 h2))) h2, ?_⟩
    simp only [seq_wait2_detach, hsw2, debugclient_DetachProcesses,
      debugclient_DetachProcesses_loop, debug_client_detach_target, h2z, hf, hs,
      if_false, if_true, ne_eq, not_false_eq_true, decide_True]
  obtain ⟨st3, b, hsd⟩ := hsd
  have hc2 : World.calls_since w0
      (seq_wait2 os w0 pid DEBUG_ATTACH_NONINVASIVE wflags timeout).2.2 =
      [OsCall.OpenProcess 0x1830 false pid h1, OsCall.NtSuspendProcess h1 st1,
       OsCall.OpenProcess 0x1830 false pid h2, OsCall.NtSuspendProcess h2 st2] := by
    apply calls_since_append
    rw [hsw2, hW4]
    simp [World.call, World.alloc]
  have hc3 : World.calls_since w0
      (seq_wait2_detach os w0 pid DEBUG_ATTACH_NONINVASIVE wflags timeout).2.2 =
      [OsCall.OpenProcess 0x1830 false pid h1, OsCall.NtSuspendProcess h1 st1,
       OsCall.OpenProcess 0x1830 false pid h2, OsCall.NtSuspendProcess h2 st2,
       OsCall.NtResumeProcess h2 st3, OsCall.CloseHandle h2 b] := by
    apply calls_since_append
    rw [hsd, hW4]
    simp [World.call, World.alloc]
  refine ⟨h1, h2, st1, st2, st3, b, h1z, h2z, by rw [hsw], by rw [hsw2], hc2, hc3,
    ?_, ?_, ?_, ?_, ?_, ?_⟩
  · rw [hc3]; rfl
  · rw [hc3]; rfl
  · rw [hc3]; rfl
  · rw [hc3]; rfl
  · rw [hc2]; rfl
  · intro hd
    have hd' : ¬ (h2 = h1) := fun e => hd e.symm
    rw [hc3]
    simp [List.countP_cons, OsCall.isSuspendOf, OsCall.isResumeOf, OsCall.isCloseOf, hd']

/-- The statement of C29 on an example system that gives a fresh handle at
every `OpenProcess`, for pid 5: the handles 105 and 113 are opened and
suspended, only 113 is resumed and closed. -/
theorem two_waits_unbalanced_witness :
    (seq_wait freshHandleOS World.start 5 DEBUG_ATTACH_NONINVASIVE 0 0).1 = S_OK ∧
    (seq_wait2 freshHandleOS World.start 5 DEBUG_ATTACH_NONINVASIVE 0 0).1 = S_OK ∧
    World.calls_since World.start
        (seq_wait2_detach freshHandleOS World.start 5 DEBUG_ATTACH_NONINVASIVE 0 0).2.2 =
      [OsCall.OpenProcess 0x1830 false 5 105, OsCall.NtSuspendProcess 105 0,
       OsCall.OpenProcess 0x1830 false 5 113, OsCall.NtSuspendProcess 113 0,
       OsCall.NtResumeProcess 113 0, OsCall.CloseHandle 113 true] ∧
    (World.calls_since World.start
      (seq_wait2_detach freshHandleOS World.start 5 DEBUG_ATTACH_NONINVASIVE 0 0).2.2).countP
        OsCall.isSuspend = 2 ∧
    (World.calls_since World.start
      (seq_wait2_detach freshHandleOS World.start 5 DEBUG_ATTACH_NONINVASIVE 0 0).2.2).countP
        OsCall.isResume = 1 := by
  obtain ⟨h1, h2, st1, st2, st3, b, -, -, -, -, -, -, hs, hr, -⟩ :=
    two_waits_unbalanced freshHandleOS World.start 5 0 0 (by decide) (by decide)
  exact ⟨by decide, by decide, by decide, hs, hr⟩

/-! ## What a method call keeps -/

theorem some_engine_options {c c' d : debug_client} (h : some d = some c')
    (h1 : d.engine_options = c.engine_options) : c'.engine_options = c.engine_options := by
  cases h
  exact h1

theorem some_targets {c c' d : debug_client} (h : some d = some c')
    (h1 : d.targets = c.targets) : c'.targets = c.targets := by
  cases h
  exact h1

/-- `QueryInterface` changes the reference count only. -/
theorem QueryInterface_keeps (hdr : dbgeng_h) (c : debug_client) (riid : Nat) :
    (debugclient_QueryInterface hdr c riid).2.2.engine_options = c.engine_options ∧
    (debugclient_QueryInterface hdr c riid).2.2.targets = c.targets := by
  rcases QueryInterface_cases hdr c riid with ⟨-, i, e⟩ | ⟨-, e⟩ <;> rw [e] <;> exact ⟨rfl, rfl⟩

/-- `Release`, when it leaves the object, changes the reference count only. -/
theorem Release_keeps (os : OS) (w : World) (c c' : debug_client)
    (h : (debugclient_Release os w c).2.1 = some c') :
    c'.engine_options = c.engine_options ∧ c'.targets = c.targets := by
  by_cases h0 : to_ULONG (to_LONG (c.refcount - 1)) = 0
  · simp only [debugclient_Release, h0, if_true] at h
    exact Option.noConfusion h
  · simp only [debugclient_Release, h0, if_false] at h
    cases h
    exact ⟨rfl, rfl⟩

/-- `GetEventCallbacks` leaves the client as it is. -/
theorem GetEventCallbacks_keeps (w : World) (c : debug_client) :
    (debugclient_GetEventCallbacks w c).2.2.1 = c := by
  by_cases h1 : c.event_callbacks ≠ 0
  · rw [debugclient_GetEventCallbacks, if_pos h1]
  · rw [debugclient_GetEventCallbacks, if_neg h1]

/-- `AddEngineOptions` and `SetEngineOptions` keep the targets. -/
theorem EngineOptions_keeps_targets (hdr : dbgeng_h) (w : World) (c : debug_client)
    (options : Nat) :
    (debugcontrol_AddEngineOptions hdr w c options).2.1.targets = c.targets ∧
    (debugcontrol_SetEngineOptions hdr w c options).2.1.targets = c.targets := by
  by_cases h : options &&& not32 hdr.DEBUG_ENGOPT_ALL ≠ 0
  · rw [debugcontrol_AddEngineOptions, debugcontrol_SetEngineOptions, if_pos h, if_pos h]
    exact ⟨rfl, rfl⟩
  · rw [debugcontrol_AddEngineOptions, debugcontrol_SetEngineOptions, if_neg h, if_neg h]
    exact ⟨rfl, rfl⟩

/-- `AttachProcess` keeps the engine options. -/
theorem AttachProcess_keeps_engine_options (os : OS) (w : World) (c : debug_client)
    (server pid flags : Nat) :
    (debugclient_AttachProcess os w c server pid flags).2.1.engine_options =
      c.engine_options := by
  by_cases hs : server ≠ 0
  · rw [debugclient_AttachProcess, if_pos hs]
  · by_cases ok : os.heap_alloc w os.sizeof_target_process = true <;>
      simp [debugclient_AttachProcess, hs, ok]

/-- `WaitForEvent` keeps the engine options. -/
theorem WaitForEvent_keeps_engine_options (os : OS) (w : World) (c : debug_client)
    (flags timeout : Nat) :
    (debugcontrol_WaitForEvent os w c flags timeout).2.1.engine_options =
      c.engine_options := by
  rcases hc : c.targets with _ | ⟨t, rest⟩
  · have hg : debug_client_get_target c = none := by
      simp [debug_client_get_target, list_empty, hc]
    simp only [debugcontrol_WaitForEvent, hg]
  · rcases WaitForEvent_cases os w c flags timeout t rest hc with ⟨-, e⟩ | ⟨-, h, -, e, -⟩
    · rw [e]
    · rw [e]

/-- `GetNumberModules` and `GetModuleByIndex` keep the engine options. -/
theorem module_queries_keep_engine_options (os : OS) (w : World) (c : debug_client)
    (index : Nat) :
    (debugsymbols_GetNumberModules os w c).2.2.2.1.engine_options = c.engine_options ∧
    (debugsymbols_GetModuleByIndex os w c index).2.2.1.engine_options = c.engine_options := by
  rcases hc : c.targets with _ | ⟨t, rest⟩
  · have hg : debug_client_get_target c = none := by
      simp [debug_client_get_target, list_empty, hc]
    constructor
    · simp only [debugsymbols_GetNumberModules, hg]
    · simp only [debugsymbols_GetModuleByIndex, hg]
  · rcases hR : debug_target_init_modules_info os w t with ⟨hr, t1, w1⟩
    rw [GetNumberModules_of_init os w c t rest hc hr t1 w1 hR,
      GetModuleByIndex_client os w c t rest hc index]
    refine ⟨?_, rfl⟩
    cases FAILED hr <;> rfl

/-- A method call that leaves the object keeps the engine options, unless
the method is one of the three that store into them, and keeps the list of
targets, unless the method is one of the five that work on the targets. -/
theorem call_method_keeps (os : OS) (hdr : dbgeng_h) (m : client_method) (a : List Nat)
    (w : World) (c c' : debug_client)
    (h : (call_method os hdr m a w c).2.1 = some c') :
    (m ∉ engine_options_writers → c'.engine_options = c.engine_options) ∧
    (m ∉ target_methods → c'.targets = c.targets) := by
  cases m <;> refine ⟨?_, ?_⟩ <;>
    first
    | exact fun _ => some_engine_options h rfl
    | exact fun _ => some_targets h rfl
    | exact fun hm => absurd (by decide) hm
    | exact fun _ => some_engine_options h (QueryInterface_keeps hdr c _).1
    | exact fun _ => some_targets h (QueryInterface_keeps hdr c _).2
    | exact fun _ => (Release_keeps os w c c' h).1
    | exact fun _ => (Release_keeps os w c c' h).2
    | exact fun _ => some_engine_options h (congrArg debug_client.engine_options
        (GetEventCallbacks_keeps w c))
    | exact fun _ => some_targets h (congrArg debug_client.targets
        (GetEventCallbacks_keeps w c))
    | exact fun _ => some_targets h (EngineOptions_keeps_targets hdr w c _).1
    | exact fun _ => some_targets h (EngineOptions_keeps_targets hdr w c _).2
    | exact fun _ => some_engine_options h (AttachProcess_keeps_engine_options os w c _ _ _)
    | exact fun _ => some_engine_options h (WaitForEvent_keeps_engine_options os w c _ _)
    | exact fun _ => some_engine_options h (module_queries_keep_engine_options os w c 0).1
    | exact fun _ => some_engine_options h (module_queries_keep_engine_options os w c _).2

/-! ## The engine options stay inside the mask -/

theorem not_outside_zero (all : Nat) : ¬ has_bit_outside 0 all := by
  rintro ⟨i, h, -⟩
  rw [Nat.zero_testBit] at h
  exact Bool.noConfusion h

theorem not_outside_or (x y all : Nat) (hx : ¬ has_bit_outside x all)
    (hy : ¬ has_bit_outside y all) : ¬ has_bit_outside (x ||| y) all := by
  rintro ⟨i, h, ha⟩
  rw [Nat.testBit_or, Bool.or_eq_true] at h
  rcases h with h | h
  · exact hx ⟨i, h, ha⟩
  · exact hy ⟨i, h, ha⟩

theorem not_outside_and (x y all : Nat) (hx : ¬ has_bit_outside x all) :
    ¬ has_bit_outside (x &&& y) all := by
  rintro ⟨i, h, ha⟩
  rw [Nat.testBit_and, Bool.and_eq_true] at h
  exact hx ⟨i, h.1, ha⟩

/-- One method call keeps the engine options a 32-bit value without a bit
outside the mask, when the `options` argument of `AddEngineOptions` and of
`SetEngineOptions` is a 32-bit value. -/
theorem call_method_engine_options (os : OS) (hdr : dbgeng_h) (m : client_method)
    (a : List Nat) (w : World) (c c' : debug_client)
    (h : (call_method os hdr m a w c).2.1 = some c')
    (harg : m = client_method.debugcontrol_AddEngineOptions ∨
      m = client_method.debugcontrol_SetEngineOptions → a.getD 0 0 < 2 ^ 32)
    (h32 : c.engine_options < 2 ^ 32)
    (hin : ¬ has_bit_outside c.engine_options hdr.DEBUG_ENGOPT_ALL) :
    c'.engine_options < 2 ^ 32 ∧
    ¬ has_bit_outside c'.engine_options hdr.DEBUG_ENGOPT_ALL := by
  by_cases hm : m ∈ engine_options_writers
  · simp only [engine_options_writers, List.mem_cons, List.mem_singleton, List.mem_nil_iff,
      or_false] at hm
    rcases hm with rfl | rfl | rfl
    · have ha := harg (Or.inl rfl)
      have h' : some (debugcontrol_AddEngineOptions hdr w c (a.getD 0 0)).2.1 = some c' := h
      by_cases hv : a.getD 0 0 &&& not32 hdr.DEBUG_ENGOPT_ALL ≠ 0
      · rw [debugcontrol_AddEngineOptions, if_pos hv] at h'
        cases h'
        exact ⟨h32, hin⟩
      · rw [debugcontrol_AddEngineOptions, if_neg hv] at h'
        cases h'
        have hno : ¬ has_bit_outside (a.getD 0 0) hdr.DEBUG_ENGOPT_ALL :=
          fun ho => hv ((outside_iff _ _ ha).mpr ho)
        exact ⟨Nat.or_lt_two_pow h32 ha, not_outside_or _ _ _ hin hno⟩
    · have h' : some (debugcontrol_RemoveEngineOptions w c (a.getD 0 0)).2.1 = some c' := h
      cases h'
      exact ⟨lt_of_le_of_lt Nat.and_le_left h32, not_outside_and _ _ _ hin⟩
    · have ha := harg (Or.inr rfl)
      have h' : some (debugcontrol_SetEngineOptions hdr w c (a.getD 0 0)).2.1 = some c' := h
      by_cases hv : a.getD 0 0 &&& not32 hdr.DEBUG_ENGOPT_ALL ≠ 0
      · rw [debugcontrol_SetEngineOptions, if_pos hv] at h'
        cases h'
        exact ⟨h32, hin⟩
      · rw [debugcontrol_SetEngineOptions, if_neg hv] at h'
        cases h'
        exact ⟨ha, fun ho => hv ((outside_iff _ _ ha).mpr ho)⟩
  · rw [(call_method_keeps os hdr m a w c c' h).1 hm]
    exact ⟨h32, hin⟩

/-- A sequence of method calls keeps the engine options a 32-bit value
without a bit outside the mask. -/
theorem run_methods_engine_options (os : OS) (hdr : dbgeng_h)
    (calls : List (client_method × List Nat)) :
    ∀ (w : World) (c c' : debug_client) (w' : World),
      (∀ p ∈ calls, p.1 = client_method.debugcontrol_AddEngineOptions ∨
        p.1 = client_method.debugcontrol_SetEngineOptions → p.2.getD 0 0 < 2 ^ 32) →
      c.engine_options < 2 ^ 32 →
      ¬ has_bit_outside c.engine_options hdr.DEBUG_ENGOPT_ALL →
      run_methods os hdr calls w c = (some c', w') →
      c'.engine_options < 2 ^ 32 ∧
      ¬ has_bit_outside c'.engine_options hdr.DEBUG_ENGOPT_ALL := by
  induction calls with
  | nil =>
    intro w c c' w' _ h32 hin hrun
    have e : c = c' := Option.some.inj (congrArg Prod.fst hrun)
    rw [← e]
    exact ⟨h32, hin⟩
  | cons p rest ih =>
    intro w c c' w' hargs h32 hin hrun
    rcases hcm : (call_method os hdr p.1 p.2 w c).2.1 with _ | c1
    · simp only [run_methods, hcm] at hrun
      exact Option.noConfusion (congrArg Prod.fst hrun)
    · simp only [run_methods, hcm] at hrun
      obtain ⟨k32, kin⟩ := call_method_engine_options os hdr p.1 p.2 w c c1 hcm
        (hargs p (List.mem_cons_self _ _)) h32 hin
      exact ih _ c1 c' w' (fun q hq => hargs q (List.mem_cons_of_mem _ hq)) k32 kin hrun

/-- C27: in every state that is reached from `DebugCreate` by a sequence of
calls of methods of the client (any of the methods of the four tables, with
any arguments, the `options` of `AddEngineOptions` and `SetEngineOptions`
being 32-bit values as their type `ULONG` says), `engine_options` is a
32-bit value that has no bit outside `DEBUG_ENGOPT_ALL`, so that the test
`engine_options & ~DEBUG_ENGOPT_ALL` of the code gives 0.  It is 0 on the
object that `DebugCreate` builds. -/
theorem engine_options_invariant (os : OS) (hdr : dbgeng_h) (w : World) (riid : Nat)
    (calls : List (client_method × List Nat)) (c : debug_client) (w' : World)
    (hargs : ∀ p ∈ calls, p.1 = client_method.debugcontrol_AddEngineOptions ∨
      p.1 = client_method.debugcontrol_SetEngineOptions → p.2.getD 0 0 < 2 ^ 32)
    (hrun : DebugCreate_then os hdr w riid calls = (some c, w')) :
    ¬ has_bit_outside c.engine_options hdr.DEBUG_ENGOPT_ALL ∧
    c.engine_options &&& not32 hdr.DEBUG_ENGOPT_ALL = 0 ∧
    c.engine_options < 2 ^ 32 ∧
    (calls = [] → c.engine_options = 0) := by
  rcases hD : (DebugCreate os hdr w riid).2.2.1 with _ | c0
  · simp only [DebugCreate_then, hD] at hrun
    exact Option.noConfusion (congrArg Prod.fst hrun)
  · have h0 := DebugCreate_object os hdr w riid c0 hD
    simp only [DebugCreate_then, hD] at hrun
    subst h0
    obtain ⟨k32, kin⟩ := run_methods_engine_options os hdr calls _ DebugCreate_client c w'
      hargs (by decide) (not_outside_zero _) hrun
    refine ⟨kin, ?_, k32, ?_⟩
    · by_contra hne
      exact kin ((outside_iff _ _ k32).mp hne)
    · intro hnil
      rw [hnil] at hrun
      have e : DebugCreate_client = c := Option.some.inj (congrArg Prod.fst hrun)
      rw [← e]
      rfl

/-- The statement of C27 on the example system (mask `0xFFFFF`): after
`DebugCreate`, adding 3, an `AddRef`, removing `0xFFFFFFFE`, a refused
setting of `0x100000`, adding 6 and a stub, the engine options are 7. -/
theorem engine_options_invariant_witness :
    DebugCreate_then exampleOS exampleHdr World.start exampleHdr.IID_IDebugControl
        [(client_method.debugcontrol_AddEngineOptions, [3]),
         (client_method.debugclient_AddRef, []),
         (client_method.debugcontrol_RemoveEngineOptions, [0xFFFFFFFE]),
         (client_method.debugcontrol_SetEngineOptions, [0x100000]),
         (client_method.debugcontrol_AddEngineOptions, [6]),
         (client_method.debugclient_AttachKernel, [1, 0])] =
      (some { refcount := 2, engine_options := 7, targets := [], event_callbacks := 0 },
       World.start.alloc 64 true) ∧
    ¬ has_bit_outside 7 exampleHdr.DEBUG_ENGOPT_ALL :=
  ⟨by decide,
   (engine_options_invariant exampleOS exampleHdr World.start exampleHdr.IID_IDebugControl
      [(client_method.debugcontrol_AddEngineOptions, [3]),
       (client_method.debugclient_AddRef, []),
       (client_method.debugcontrol_RemoveEngineOptions, [0xFFFFFFFE]),
       (client_method.debugcontrol_SetEngineOptions, [0x100000]),
       (client_method.debugcontrol_AddEngineOptions, [6]),
       (client_method.debugclient_AttachKernel, [1, 0])]
      { refcount := 2, engine_options := 7, targets := [], event_callbacks := 0 }
      (World.start.alloc 64 true) (by decide) (by decide)).1⟩

/-! ## Only a non-invasive target gets a handle or module info -/

/-- The initialisation of the module info changes the module info only. -/
theorem init_modules_info_fields (os : OS) (w : World) (t : target_process) :
    (debug_target_init_modules_info os w t).2.1.pid = t.pid ∧
    (debug_target_init_modules_info os w t).2.1.attach_flags = t.attach_flags ∧
    (debug_target_init_modules_info os w t).2.1.handle = t.handle := by
  simp only [debug_target_init_modules_info]
  split_ifs <;> exact ⟨rfl, rfl, rfl⟩

/-- The initialisation of the module info keeps the property that a target
attached without `DEBUG_ATTACH_NONINVASIVE` has no handle and no module
info: it does nothing on a target without handle. -/
theorem init_modules_info_noninvasive (os : OS) (w : World) (t : target_process)
    (hinv : t.attach_flags &&& DEBUG_ATTACH_NONINVASIVE = 0 →
      t.handle = 0 ∧ t.modules.initialized = false ∧ t.modules.info = none) :
    (debug_target_init_modules_info os w t).2.1.attach_flags &&& DEBUG_ATTACH_NONINVASIVE = 0 →
      (debug_target_init_modules_info os w t).2.1.handle = 0 ∧
      (debug_target_init_modules_info os w t).2.1.modules.initialized = false ∧
      (debug_target_init_modules_info os w t).2.1.modules.info = none := by
  intro hf
  rw [(init_modules_info_fields os w t).2.1] at hf
  obtain ⟨h0, hi, -⟩ := hinv hf
  have e : debug_target_init_modules_info os w t = (E_UNEXPECTED, t, w) := by
    simp [debug_target_init_modules_info, hi, h0]
  rw [e]
  exact hinv hf

/-- Each of the five methods that work on the targets keeps, for every
target of the list, the property that a target attached without
`DEBUG_ATTACH_NONINVASIVE` has no handle and no module info. -/
theorem target_methods_noninvasive (os : OS) (w : World) (c : debug_client)
    (hinv : ∀ t ∈ c.targets, t.attach_flags &&& DEBUG_ATTACH_NONINVASIVE = 0 →
      t.handle = 0 ∧ t.modules.initialized = false ∧ t.modules.info = none) :
    (∀ server pid flags,
      ∀ t ∈ (debugclient_AttachProcess os w c server pid flags).2.1.targets,
        t.attach_flags &&& DEBUG_ATTACH_NONINVASIVE = 0 →
        t.handle = 0 ∧ t.modules.initialized = false ∧ t.modules.info = none) ∧
    (∀ flags timeout,
      ∀ t ∈ (debugcontrol_WaitForEvent os w c flags timeout).2.1.targets,
        t.attach_flags &&& DEBUG_ATTACH_NONINVASIVE = 0 →
        t.handle = 0 ∧ t.modules.initialized = false ∧ t.modules.info = none) ∧
    (∀ t ∈ (debugclient_DetachProcesses os w c).2.1.targets,
        t.attach_flags &&& DEBUG_ATTACH_NONINVASIVE = 0 →
        t.handle = 0 ∧ t.modules.initialized = false ∧ t.modules.info = none) ∧
    (∀ t ∈ (debugsymbols_GetNumberModules os w c).2.2.2.1.targets,
        t.attach_flags &&& DEBUG_ATTACH_NONINVASIVE = 0 →
        t.handle = 0 ∧ t.modules.initialized = false ∧ t.modules.info = none) ∧
    (∀ index,
      ∀ t ∈ (debugsymbols_GetModuleByIndex os w c index).2.2.1.targets,
        t.attach_flags &&& DEBUG_ATTACH_NONINVASIVE = 0 →
        t.handle = 0 ∧ t.modules.initialized = false ∧ t.modules.info = none) := by
  refine ⟨?_, ?_, ?_, ?_, ?_⟩
  · intro server pid flags t ht
    by_cases hs : server ≠ 0
    · rw [debugclient_AttachProcess, if_pos hs] at ht
      exact hinv t ht
    · by_cases ok : os.heap_alloc w os.sizeof_target_process = true
      · simp only [debugclient_AttachProcess, hs, ok, if_false, Bool.not_true,
          Bool.false_eq_true, list_add_head, List.mem_cons] at ht
        rcases ht with rfl | ht
        · intro _
          exact ⟨rfl, rfl, rfl⟩
        · exact hinv t ht
      · simp only [debugclient_AttachProcess, hs, ok, if_false, Bool.not_false, if_true]
          at ht
        exact hinv t ht
  · intro flags timeout t ht
    rcases hc : c.targets with _ | ⟨t0, rest⟩
    · have hg : debug_client_get_target c = none := by
        simp [debug_client_get_target, list_empty, hc]
      simp only [debugcontrol_WaitForEvent, hg] at ht
      exact hinv t ht
    · rcases WaitForEvent_cases os w c flags timeout t0 rest hc with
        ⟨-, e⟩ | ⟨hf, h, -, e, -⟩
      · rw [e] at ht
        exact hinv t ht
      · rw [e] at ht
        rcases List.mem_cons.mp ht with rfl | ht
        · intro hz
          exact absurd hz hf
        · exact hinv t (by rw [hc]; exact List.mem_cons_of_mem _ ht)
  · intro t ht
    obtain ⟨h1, -, -⟩ := DetachProcesses_loop_spec os c.targets w
    simp only [debugclient_DetachProcesses, h1] at ht
    obtain ⟨t0, ht0, rfl⟩ := List.mem_map.mp ht
    intro hz
    exact ⟨rfl, (hinv t0 ht0 hz).2⟩
  · intro t ht
    rcases hc : c.targets with _ | ⟨t0, rest⟩
    · have hg : debug_client_get_target c = none := by
        simp [debug_client_get_target, list_empty, hc]
      simp only [debugsymbols_GetNumberModules, hg] at ht
      exact hinv t ht
    · rcases hR : debug_target_init_modules_info os w t0 with ⟨hr, t1, w1⟩
      have hi := init_modules_info_noninvasive os w t0
        (hinv t0 (by rw [hc]; exact List.mem_cons_self _ _))
      rw [hR] at hi
      rw [GetNumberModules_of_init os w c t0 rest hc hr t1 w1 hR] at ht
      have ht' : t ∈ t1 :: rest := by
        cases hf : FAILED hr <;> rw [hf] at ht <;> exact ht
      rcases List.mem_cons.mp ht' with rfl | hmem
      · exact hi
      · exact hinv t (by rw [hc]; exact List.mem_cons_of_mem _ hmem)
  · intro index t ht
    rcases hc : c.targets with _ | ⟨t0, rest⟩
    · have hg : debug_client_get_target c = none := by
        simp [debug_client_get_target, list_empty, hc]
      simp only [debugsymbols_GetModuleByIndex, hg] at ht
      exact hinv t ht
    · rw [GetModuleByIndex_client os w c t0 rest hc index] at ht
      rcases List.mem_cons.mp ht with rfl | hmem
      · exact init_modules_info_noninvasive os w t0
          (hinv t0 (by rw [hc]; exact List.mem_cons_self _ _))
      · exact hinv t (by rw [hc]; exact List.mem_cons_of_mem _ hmem)

/-- One method call keeps that property. -/
theorem call_method_noninvasive (os : OS) (hdr : dbgeng_h) (m : client_method)
    (a : List Nat) (w : World) (c c' : debug_client)
    (h : (call_method os hdr m a w c).2.1 = some c')
    (hinv : ∀ t ∈ c.targets, t.attach_flags &&& DEBUG_ATTACH_NONINVASIVE = 0 →
      t.handle = 0 ∧ t.modules.initialized = false ∧ t.modules.info = none) :
    ∀ t ∈ c'.targets, t.attach_flags &&& DEBUG_ATTACH_NONINVASIVE = 0 →
      t.handle = 0 ∧ t.modules.initialized = false ∧ t.modules.info = none := by
  obtain ⟨k1, k2, k3, k4, k5⟩ := target_methods_noninvasive os w c hinv
  by_cases hm : m ∈ target_methods
  · simp only [target_methods, List.mem_cons, List.mem_singleton, List.mem_nil_iff,
      or_false] at hm
    rcases hm with rfl | rfl | rfl | rfl | rfl
    · have h' : some (debugclient_AttachProcess os w c (a.getD 0 0) (a.getD 1 0)
          (a.getD 2 0)).2.1 = some c' := h
      cases h'
      exact k1 _ _ _
    · have h' : some (debugcontrol_WaitForEvent os w c (a.getD 0 0) (a.getD 1 0)).2.1 =
          some c' := h
      cases h'
      exact k2 _ _
    · have h' : some (debugclient_DetachProcesses os w c).2.1 = some c' := h
      cases h'
      exact k3
    · have h' : some (debugsymbols_GetNumberModules os w c).2.2.2.1 = some c' := h
      cases h'
      exact k4
    · have h' : some (debugsymbols_GetModuleByIndex os w c (a.getD 0 0)).2.2.1 = some c' := h
      cases h'
      exact k5 _
  · rw [(call_method_keeps os hdr m a w c c' h).2 hm]
    exact hinv

/-- A sequence of method calls keeps that property. -/
theorem run_methods_noninvasive (os : OS) (hdr : dbgeng_h)
    (calls : List (client_method × List Nat)) :
    ∀ (w : World) (c c' : debug_client) (w' : World),
      (∀ t ∈ c.targets, t.attach_flags &&& DEBUG_ATTACH_NONINVASIVE = 0 →
        t.handle = 0 ∧ t.modules.initialized = false ∧ t.modules.info = none) →
      run_methods os hdr calls w c = (some c', w') →
      ∀ t ∈ c'.targets, t.attach_flags &&& DEBUG_ATTACH_NONINVASIVE = 0 →
        t.handle = 0 ∧ t.modules.initialized = false ∧ t.modules.info = none := by
  induction calls with
  | nil =>
    intro w c c' w' hinv hrun
    have e : c = c' := Option.some.inj (congrArg Prod.fst hrun)
    rw [← e]
    exact hinv
  | cons p rest ih =>
    intro w c c' w' hinv hrun
    rcases hcm : (call_method os hdr p.1 p.2 w c).2.1 with _ | c1
    · simp only [run_methods, hcm] at hrun
      exact Option.noConfusion (congrArg Prod.fst hrun)
    · simp only [run_methods, hcm] at hrun
      exact ih _ c1 c' w' (call_method_noninvasive os hdr p.1 p.2 w c c1 hcm hinv) hrun

/-- C28: in every state that is reached from `DebugCreate` by a sequence of
method calls (of `AttachProcess`, `WaitForEvent`, `DetachProcesses`,
`GetNumberModules` and `GetModuleByIndex`, the five methods that work on the
targets, and of any other method of the four tables as well), every target
whose handle is not `NULL` and every target whose module info is initialised
has `DEBUG_ATTACH_NONINVASIVE` in its attach flags; a target that was
attached without that flag has the handle `NULL`, module info that is not
initialised and no array of module entries. -/
theorem noninvasive_invariant (os : OS) (hdr : dbgeng_h) (w : World) (riid : Nat)
    (calls : List (client_method × List Nat)) (c : debug_client) (w' : World)
    (hrun : DebugCreate_then os hdr w riid calls = (some c, w')) :
    ∀ t ∈ c.targets,
      (t.handle ≠ 0 → t.attach_flags &&& DEBUG_ATTACH_NONINVASIVE ≠ 0) ∧
      (t.modules.initialized = true → t.attach_flags &&& DEBUG_ATTACH_NONINVASIVE ≠ 0) ∧
      (t.attach_flags &&& DEBUG_ATTACH_NONINVASIVE = 0 →
        t.handle = 0 ∧ t.modules.initialized = false ∧ t.modules.info = none) := by
  rcases hD : (DebugCreate os hdr w riid).2.2.1 with _ | c0
  · simp only [DebugCreate_then, hD] at hrun
    exact Option.noConfusion (congrArg Prod.fst hrun)
  · have h0 := DebugCreate_object os hdr w riid c0 hD
    simp only [DebugCreate_then, hD] at hrun
    subst h0
    have key := run_methods_noninvasive os hdr calls _ DebugCreate_client c w'
      (fun t ht => absurd ht (List.not_mem_nil t)) hrun
    intro t ht
    refine ⟨?_, ?_, key t ht⟩
    · intro hh hz
      exact hh (key t ht hz).1
    · intro hi hz
      rw [(key t ht hz).2.1] at hi
      exact Bool.noConfusion hi

/-- The statement of C28 on the example system: pid 5 is attached without
`DEBUG_ATTACH_NONINVASIVE`, and `WaitForEvent` and `GetNumberModules` give it
no handle and no module info; then pid 6 is attached with the flag, and
`WaitForEvent` and `GetNumberModules` give it the handle 106 and module
info. -/
theorem noninvasive_invariant_witness :
    (DebugCreate_then exampleOS exampleHdr World.start exampleHdr.IID_IDebugClient
        [(client_method.debugclient_AttachProcess, [0, 5, 2]),
         (client_method.debugcontrol_WaitForEvent, [0, 0]),
         (client_method.debugsymbols_GetNumberModules, []),
         (client_method.debugclient_AttachProcess, [0, 6, 1]),
         (client_method.debugcontrol_WaitForEvent, [0, 0]),
         (client_method.debugsymbols_GetNumberModules, [])]).1 =
      some
        { refcount := 1, engine_options := 0,
          targets :=
            [{ pid := 6, attach_flags := 1, handle := 106,
               modules := { info := some [⟨45056, 12⟩, ⟨0, 0⟩, ⟨53248, 14⟩], loaded := 3,
                            unloaded := 0, initialized := true } },
             { pid := 5, attach_flags := 2, handle := 0,
               modules := { info := none, loaded := 0, unloaded := 0,
                            initialized := false } }],
          event_callbacks := 0 } ∧
    ∀ t ∈ [({ pid := 6, attach_flags := 1, handle := 106,
              modules := { info := some [⟨45056, 12⟩, ⟨0, 0⟩, ⟨53248, 14⟩], loaded := 3,
                           unloaded := 0, initialized := true } } : target_process),
           { pid := 5, attach_flags := 2, handle := 0,
             modules := { info := none, loaded := 0, unloaded := 0,
                          initialized := false } }],
      (t.handle ≠ 0 → t.attach_flags &&& DEBUG_ATTACH_NONINVASIVE ≠ 0) ∧
      (t.modules.initialized = true → t.attach_flags &&& DEBUG_ATTACH_NONINVASIVE ≠ 0) ∧
      (t.attach_flags &&& DEBUG_ATTACH_NONINVASIVE = 0 →
        t.handle = 0 ∧ t.modules.initialized = false ∧ t.modules.info = none) :=
  ⟨by decide,
   noninvasive_invariant exampleOS exampleHdr World.start exampleHdr.IID_IDebugClient
      [(client_method.debugclient_AttachProcess, [0, 5, 2]),
       (client_method.debugcontrol_WaitForEvent, [0, 0]),
       (client_method.debugsymbols_GetNumberModules, []),
       (client_method.debugclient_AttachProcess, [0, 6, 1]),
       (client_method.debugcontrol_WaitForEvent, [0, 0]),
       (client_method.debugsymbols_GetNumberModules, [])]
      { refcount := 1, engine_options := 0,
        targets :=
          [{ pid := 6, attach_flags := 1, handle := 106,
             modules := { info := some [⟨45056, 12⟩, ⟨0, 0⟩, ⟨53248, 14⟩], loaded := 3,
                          unloaded := 0, initialized := true } },
           { pid := 5, attach_flags := 2, handle := 0,
             modules := { info := none, loaded := 0, unloaded := 0,
                          initialized := false } }],
        event_callbacks := 0 }
      _ rfl⟩

end Dbgeng

namespace Avico

/-! ## The AVI compressor: stubs, `QueryInterface`, pins -/

/-- C17: for every input, `Receive`, `ReceiveConnection`, `Disconnect` and
`CheckMediaType` of the input pin and `GetMediaType`, `DecideBufferSize` and
`BreakConnect` of the output pin return `E_NOTIMPL` and leave the compressor
as it was (`GetMediaType` stores nothing in `*amt`). -/
theorem compressor_media_stubs (This : AVICompressor) (p q : Nat) (iPosition : Int) :
    AVICompressorIn_Receive This p = (Dbgeng.E_NOTIMPL, This) ∧
    AVICompressorIn_ReceiveConnection This p q = (Dbgeng.E_NOTIMPL, This) ∧
    AVICompressorIn_Disconnect This = (Dbgeng.E_NOTIMPL, This) ∧
    AVICompressorIn_CheckMediaType This p = (Dbgeng.E_NOTIMPL, This) ∧
    AVICompressorOut_GetMediaType This iPosition p = (Dbgeng.E_NOTIMPL, none, This) ∧
    AVICompressorOut_DecideBufferSize This p q = (Dbgeng.E_NOTIMPL, This) ∧
    AVICompressorOut_BreakConnect This = (Dbgeng.E_NOTIMPL, This) :=
  ⟨rfl, rfl, rfl, rfl, rfl, rfl, rfl⟩

/-- What `AVICompressor_QueryInterface` does, by cases. -/
theorem AVICompressor_QueryInterface_cases (sb : strmbase) (ids : dshow_h) (This : AVICompressor)
    (riid : Nat) :
    (riid ∈ [ids.IID_IUnknown, ids.IID_IPersist, ids.IID_IMediaFilter, ids.IID_IBaseFilter] ∧
      AVICompressor_QueryInterface sb ids This riid =
        (Dbgeng.S_OK, some compressor_iface.IBaseFilter_iface,
          (IBaseFilter_AddRef sb This).2)) ∨
    (riid ∉ [ids.IID_IUnknown, ids.IID_IPersist, ids.IID_IMediaFilter, ids.IID_IBaseFilter] ∧
      riid = ids.IID_IPersistPropertyBag ∧
      AVICompressor_QueryInterface sb ids This riid =
        (Dbgeng.S_OK, some compressor_iface.IPersistPropertyBag_iface,
          (IBaseFilter_AddRef sb This).2)) ∨
    (riid ∉ [ids.IID_IUnknown, ids.IID_IPersist, ids.IID_IMediaFilter, ids.IID_IBaseFilter] ∧
      riid ≠ ids.IID_IPersistPropertyBag ∧
      AVICompressor_QueryInterface sb ids This riid = (Dbgeng.E_NOINTERFACE, none, This)) := by
  simp only [AVICompressor_QueryInterface, Dbgeng.IsEqualIID, decide_eq_true_eq]
  split_ifs with h1 h2 h3 h4 h5
  · exact Or.inl ⟨by simp [h1], rfl⟩
  · exact Or.inl ⟨by simp [h2], rfl⟩
  · exact Or.inl ⟨by simp [h3], rfl⟩
  · exact Or.inl ⟨by simp [h4], rfl⟩
  · exact Or.inr (Or.inl ⟨by simp [h1, h2, h3, h4], h5, rfl⟩)
  · exact Or.inr (Or.inr ⟨by simp [h1, h2, h3, h4], h5, rfl⟩)

/-- C18: `AVICompressor_QueryInterface` returns `S_OK` if and only if `riid`
is `IID_IUnknown`, `IID_IPersist`, `IID_IMediaFilter`, `IID_IBaseFilter` or
`IID_IPersistPropertyBag`.  For the first four `*ppv` is the `IBaseFilter`
interface; for `IID_IPersistPropertyBag` (an identifier different from the
first four) it is the `IPersistPropertyBag` interface; in both cases one
`AddRef` is made on the returned pointer, which is one `BaseFilterImpl_AddRef`
on the filter.  For any other `riid` it returns `E_NOINTERFACE`, stores
`NULL` and leaves the compressor as it was.  The `QueryInterface` of
`IPersistPropertyBag` gives the same result for every `riid`. -/
theorem AVICompressor_QueryInterface_spec (sb : strmbase) (ids : dshow_h)
    (This : AVICompressor) (riid : Nat) :
    ((AVICompressor_QueryInterface sb ids This riid).1 = Dbgeng.S_OK ↔
      riid ∈ [ids.IID_IUnknown, ids.IID_IPersist, ids.IID_IMediaFilter, ids.IID_IBaseFilter,
        ids.IID_IPersistPropertyBag]) ∧
    (riid ∈ [ids.IID_IUnknown, ids.IID_IPersist, ids.IID_IMediaFilter, ids.IID_IBaseFilter] →
      (AVICompressor_QueryInterface sb ids This riid).2.1 =
        some compressor_iface.IBaseFilter_iface) ∧
    (riid = ids.IID_IPersistPropertyBag →
      riid ∉ [ids.IID_IUnknown, ids.IID_IPersist, ids.IID_IMediaFilter, ids.IID_IBaseFilter] →
      (AVICompressor_QueryInterface sb ids This riid).2.1 =
        some compressor_iface.IPersistPropertyBag_iface) ∧
    (riid ∈ [ids.IID_IUnknown, ids.IID_IPersist, ids.IID_IMediaFilter, ids.IID_IBaseFilter,
        ids.IID_IPersistPropertyBag] →
      ∃ i, (AVICompressor_QueryInterface sb ids This riid).2.1 = some i ∧
        (AVICompressor_QueryInterface sb ids This riid).2.2 = (IUnknown_AddRef sb i This).2 ∧
        (AVICompressor_QueryInterface sb ids This riid).2.2 =
          { This with filter := (sb.BaseFilterImpl_AddRef This.filter).2 }) ∧
    (riid ∉ [ids.IID_IUnknown, ids.IID_IPersist, ids.IID_IMediaFilter, ids.IID_IBaseFilter,
        ids.IID_IPersistPropertyBag] →
      AVICompressor_QueryInterface sb ids This riid = (Dbgeng.E_NOINTERFACE, none, This)) ∧
    AVICompressorPropertyBag_QueryInterface sb ids This riid =
      AVICompressor_QueryInterface sb ids This riid := by
  have hne : Dbgeng.E_NOINTERFACE ≠ Dbgeng.S_OK := by decide
  have hmem : riid ∈ [ids.IID_IUnknown, ids.IID_IPersist, ids.IID_IMediaFilter,
      ids.IID_IBaseFilter, ids.IID_IPersistPropertyBag] ↔
      (riid ∈ [ids.IID_IUnknown, ids.IID_IPersist, ids.IID_IMediaFilter,
        ids.IID_IBaseFilter] ∨ riid = ids.IID_IPersistPropertyBag) := by
    simp only [List.mem_cons, List.mem_singleton, List.not_mem_nil, or_false]
    tauto
  rw [hmem]
  have hbag : AVICompressorPropertyBag_QueryInterface sb ids This riid =
      AVICompressor_QueryInterface sb ids This riid := rfl
  refine ⟨?_, ?_, ?_, ?_, ?_, hbag⟩
  all_goals
    rcases AVICompressor_QueryInterface_cases sb ids This riid with ⟨hm, e⟩ | ⟨hn, hp, e⟩ | ⟨hn, hp, e⟩
  · rw [e]
    exact ⟨fun _ => Or.inl hm, fun _ => rfl⟩
  · rw [e]
    exact ⟨fun _ => Or.inr hp, fun _ => rfl⟩
  · rw [e]
    exact ⟨fun h => absurd h hne, fun h => h.elim (fun h => absurd h hn) (fun h => absurd h hp)⟩
  · rw [e]
    exact fun _ => rfl
  · exact fun h => absurd h hn
  · exact fun h => absurd h hn
  · exact fun _ h => absurd hm h
  · rw [e]
    exact fun _ _ => rfl
  · exact fun h => absurd h hp
  · rw [e]
    exact fun _ => ⟨_, rfl, rfl, rfl⟩
  · rw [e]
    exact fun _ => ⟨_, rfl, rfl, rfl⟩
  · exact fun h => h.elim (fun h => absurd h hn) (fun h => absurd h hp)
  · exact fun h => absurd (Or.inl hm) h
  · exact fun h => absurd (Or.inr hp) h
  · exact fun _ => e

/-- The statement of C18 on the example identifiers: asked for
`IID_IPersistPropertyBag` the compressor hands out its `IPersistPropertyBag`
interface and its reference count goes from 1 to 2. -/
theorem AVICompressor_QueryInterface_spec_witness :
    (AVICompressor_QueryInterface exampleStrmbase exampleIds exampleCompressor
      exampleIds.IID_IPersistPropertyBag).1 = Dbgeng.S_OK ∧
    (AVICompressor_QueryInterface exampleStrmbase exampleIds exampleCompressor
      exampleIds.IID_IPersistPropertyBag).2.1 =
        some compressor_iface.IPersistPropertyBag_iface ∧
    (AVICompressor_QueryInterface exampleStrmbase exampleIds exampleCompressor
      exampleIds.IID_IMediaFilter).2.1 = some compressor_iface.IBaseFilter_iface :=
  ⟨(AVICompressor_QueryInterface_spec exampleStrmbase exampleIds exampleCompressor
      exampleIds.IID_IPersistPropertyBag).1.mpr (by decide),
   (AVICompressor_QueryInterface_spec exampleStrmbase exampleIds exampleCompressor
      exampleIds.IID_IPersistPropertyBag).2.2.1 rfl (by decide),
   (AVICompressor_QueryInterface_spec exampleStrmbase exampleIds exampleCompressor
      exampleIds.IID_IMediaFilter).2.1 (by decide)⟩

/-- C19: for a compressor whose two pins exist and every integer `pos`,
`AVICompressor_GetPin` returns a pin that is not `NULL` if and only if
`0 ≤ pos < AVICompressor_GetPinCount()`, and the count is 2.  For `pos = 0`
it returns the input pin and for `pos = 1` the output pin, each after one
`AddRef` on the pin, which is one `BaseFilterImpl_AddRef` on the filter; for
every other `pos`, the negative ones included, it returns `NULL` and leaves
the compressor as it was. -/
theorem AVICompressor_GetPin_spec (sb : strmbase) (This : AVICompressor) (pos : Int)
    (hin : This.in_ ≠ 0) (hout : This.out ≠ 0) :
    ((AVICompressor_GetPin sb This pos).1 ≠ 0 ↔
      0 ≤ pos ∧ pos < AVICompressor_GetPinCount This) ∧
    AVICompressor_GetPinCount This = 2 ∧
    (pos = 0 →
      (AVICompressor_GetPin sb This pos).1 = This.in_ ∧
      (AVICompressor_GetPin sb This pos).2 = (AVICompressorIn_AddRef sb This).2 ∧
      (AVICompressor_GetPin sb This pos).2 =
        { This with filter := (sb.BaseFilterImpl_AddRef This.filter).2 }) ∧
    (pos = 1 →
      (AVICompressor_GetPin sb This pos).1 = This.out ∧
      (AVICompressor_GetPin sb This pos).2 = (AVICompressorOut_AddRef sb This).2 ∧
      (AVICompressor_GetPin sb This pos).2 =
        { This with filter := (sb.BaseFilterImpl_AddRef This.filter).2 }) ∧
    (pos ≠ 0 → pos ≠ 1 → AVICompressor_GetPin sb This pos = (0, This)) := by
  have hcount : AVICompressor_GetPinCount This = 2 := rfl
  rw [hcount]
  by_cases h0 : pos = 0
  · subst h0
    have e : AVICompressor_GetPin sb This 0 = (This.in_, (AVICompressorIn_AddRef sb This).2) := by
      simp [AVICompressor_GetPin]
    rw [e]
    exact ⟨⟨fun _ => by omega, fun _ => hin⟩, rfl, fun _ => ⟨rfl, rfl, rfl⟩,
      fun h => absurd h (by decide), fun h => absurd rfl h⟩
  · by_cases h1 : pos = 1
    · subst h1
      have e : AVICompressor_GetPin sb This 1 =
          (This.out, (AVICompressorOut_AddRef sb This).2) := by
        simp [AVICompressor_GetPin]
      rw [e]
      exact ⟨⟨fun _ => by omega, fun _ => hout⟩, rfl, fun h => absurd h (by decide),
        fun _ => ⟨rfl, rfl, rfl⟩, fun _ h => absurd rfl h⟩
    · have e : AVICompressor_GetPin sb This pos = (0, This) := by
        simp [AVICompressor_GetPin, h0, h1]
      rw [e]
      refine ⟨⟨fun h => absurd rfl h, fun h => ?_⟩, rfl, fun h => absurd h h0,
        fun h => absurd h h1, fun _ _ => rfl⟩
      omega

/-- The statement of C19 on the example compressor (pins at 1000 and 2000):
position 1 gives the output pin and the count 2, position -1 gives `NULL`. -/
theorem AVICompressor_GetPin_spec_witness :
    AVICompressor_GetPin exampleStrmbase exampleCompressor 1 =
      (2000, { exampleCompressor with filter := { refCount := 2 } }) ∧
    AVICompressor_GetPin exampleStrmbase exampleCompressor (-1) = (0, exampleCompressor) :=
  have h := (AVICompressor_GetPin_spec exampleStrmbase exampleCompressor 1 (by decide)
    (by decide)).2.2.2.1 rfl
  ⟨Prod.ext h.1 h.2.2,
   (AVICompressor_GetPin_spec exampleStrmbase exampleCompressor (-1) (by decide)
    (by decide)).2.2.2.2 (by decide) (by decide)⟩

end Avico
